import Mathlib

/-!
Blade stack: routing and dispatch core (`libs/libblade/src/blade_stack.c`).

A shallow embedding of the six core protocol operations of the Blade runtime
(`blade.register`, `blade.publish`, `blade.locate`, `blade.execute`,
`blade.subscribe`, `blade.broadcast`) together with the in-memory state they
read and mutate, of the configuration and startup of the handle, of the
upstream connect (`blade_handle_connect`) and of the creation and destruction
of the handle (the order of the calls `blade_handle_create`,
`blade_handle_shutdown`, `blade_handle_cleanup` and `blade_handle_destroy`
make).

Conventions of the embedding.

* A `blade_handle_t` value is the whole node state.  Every C function that
  takes the handle (directly or through the request) becomes a function that
  takes the state and returns the new state.
* Everything a function does to the outside world (read-locking a session,
  queuing a message on a session, calling a callback, handing an event to the
  subscription fan-out) is appended, in program order, to `blade_handle_t.trace`.
* `ks_assert` aborts the process: a function whose assertion fails returns
  `none`.
* The managers, the session layer, the JSON library and the JSON-RPC envelope
  helpers live in other files of the repository; they are modelled from the
  specification and each such definition says so in its doc comment.
-/

namespace Blade

/-! ## JSON values -/

/-- Modelled from the spec: the JSON library (`cJSON`) is an external
collaborator of the core.  A value is one of the seven JSON item kinds; the
children of a container are kept in insertion order, and each child of an
object carries the member name it was added under (`none` when it was appended
without a name). -/
inductive cJSON where
  | False
  | True
  | NULL
  | Number (valueint : Int)
  | String (valuestring : String)
  | Array (child : List cJSON)
  | Object (child : List (Option String × cJSON))

/-- Modelled from the spec: `cJSON_CreateObject()`, an object with no member. -/
def cJSON_CreateObject : cJSON := .Object []

/-- Modelled from the spec: `cJSON_CreateArray()`, an array with no element. -/
def cJSON_CreateArray : cJSON := .Array []

/-- Modelled from the spec: `cJSON_CreateString(s)`. -/
def cJSON_CreateString (string : String) : cJSON := .String string

/-- Modelled from the spec: `cJSON_AddItemToArray(array, item)` appends `item`
to the child list of `array`.  The library does not look at the kind of the
container: on an object the item is appended as a child without a member
name. -/
def cJSON_AddItemToArray (array : cJSON) (item : cJSON) : cJSON :=
  match array with
  | .Array child => .Array (child ++ [item])
  | .Object child => .Object (child ++ [(none, item)])
  | other => other

/-- Modelled from the spec: `cJSON_AddItemToObject(object, name, item)` names
the item and appends it to the child list of `object`. -/
def cJSON_AddItemToObject (object : cJSON) (string : String) (item : cJSON) : cJSON :=
  match object with
  | .Object child => .Object (child ++ [(some string, item)])
  | .Array child => .Array (child ++ [item])
  | other => other

/-- Modelled from the spec: `cJSON_AddStringToObject(object, name, s)`. -/
def cJSON_AddStringToObject (object : cJSON) (name : String) (s : String) : cJSON :=
  cJSON_AddItemToObject object name (cJSON_CreateString s)

/-- Modelled from the spec: `cJSON_AddNumberToObject(object, name, n)`. -/
def cJSON_AddNumberToObject (object : cJSON) (name : String) (n : Int) : cJSON :=
  cJSON_AddItemToObject object name (.Number n)

/-- Modelled from the spec: `cJSON_AddTrueToObject(object, name)`. -/
def cJSON_AddTrueToObject (object : cJSON) (name : String) : cJSON :=
  cJSON_AddItemToObject object name .True

/-- Modelled from the spec: `cJSON_GetObjectItem(object, name)`, the first
child of `object` whose member name is `name`, `none` (NULL) when there is
none. -/
def cJSON_GetObjectItem (object : cJSON) (string : String) : Option cJSON :=
  match object with
  | .Object child => (child.find? (fun c => c.1 == some string)).map (fun c => c.2)
  | _ => none

/-- Modelled from the spec: `cJSON_GetObjectCstr(object, name)`, the string
value of the member `name`, `none` (NULL) when the member is absent or is not
a JSON string. -/
def cJSON_GetObjectCstr (object : cJSON) (string : String) : Option String :=
  match cJSON_GetObjectItem object string with
  | some (.String valuestring) => some valuestring
  | _ => none

/-- Modelled from the spec: `cJSON_Duplicate(item, 1)`, a deep copy, which is
the same value. -/
def cJSON_Duplicate (item : cJSON) : cJSON := item

/-- Modelled from the spec: the elements of a container in order
(`cJSON_GetArraySize` / `cJSON_GetArrayItem` walk the child list whatever the
kind of the container). -/
def cJSON_GetArrayItems (array : cJSON) : List cJSON :=
  match array with
  | .Array child => child
  | .Object child => child.map (fun c => c.2)
  | _ => []

/-- The test `item->type == cJSON_True`. -/
def cJSON_IsTrue (item : cJSON) : Bool :=
  match item with
  | .True => true
  | _ => false

/-- The test `item->type == cJSON_Array`. -/
def cJSON_IsArray (item : cJSON) : Bool :=
  match item with
  | .Array _ => true
  | _ => false

/-- The test `item->type == cJSON_Object`. -/
def cJSON_IsObject (item : cJSON) : Bool :=
  match item with
  | .Object _ => true
  | _ => false

/-! ## Status codes, requests, callbacks -/

/-- Modelled from the spec: the status codes of `ks_status_t` that the core
returns or passes on. -/
inductive ks_status_t where
  | KS_STATUS_SUCCESS
  | KS_STATUS_FAIL
  | KS_STATUS_DISCONNECTED
  | KS_STATUS_DUPLICATE_OPERATION
  | KS_STATUS_TIMEOUT
  | KS_STATUS_INACTIVE
  deriving DecidableEq, Repr

/-- An opaque `void *` user pointer; `0` is `NULL`. -/
abbrev Data := Nat

/-- Modelled from the spec: an inbound request as the session layer hands it to
a handler: the id of the session it arrived on, the JSON message, and the
message id taken from the message. -/
structure blade_rpc_request_t where
  session_id : String
  message : cJSON
  message_id : String

/-- Modelled from the spec: a response as the session layer hands it to a
response callback. -/
structure blade_rpc_response_t where
  session_id : String
  message : cJSON

/-- The accessor `blade_rpc_request_sessionid_get`. -/
def blade_rpc_request_sessionid_get (brpcreq : blade_rpc_request_t) : String := brpcreq.session_id

/-- The accessor `blade_rpc_request_message_get`. -/
def blade_rpc_request_message_get (brpcreq : blade_rpc_request_t) : cJSON := brpcreq.message

/-- The accessor `blade_rpc_request_messageid_get`. -/
def blade_rpc_request_messageid_get (brpcreq : blade_rpc_request_t) : String := brpcreq.message_id

/-- The accessor `blade_rpc_response_message_get`. -/
def blade_rpc_response_message_get (brpcres : blade_rpc_response_t) : cJSON := brpcres.message

/-- A request callback (protocol handler or event callback): application code
that receives the request and its registered data and returns a boolean. -/
abbrev blade_rpc_request_callback_t := blade_rpc_request_t → Data → Bool

/-- A response callback given to a generator; the core only passes it on to the
session layer together with the request. -/
abbrev blade_rpc_response_callback_t := blade_rpc_response_t → Data → Bool

/-! ## JSON-RPC envelopes -/

/-- Modelled from the spec: `blade_rpc_request_raw_create`.  The envelope
`{jsonrpc:"2.0", id, method, params}`.  The C helper returns a pointer to the
(empty) params object which the caller then fills in place; here the caller
builds the params object first and passes the filled object.  `id` is the
fresh message id drawn for the request. -/
def blade_rpc_request_raw_create (id : String) (method : String) (params : cJSON) : cJSON :=
  cJSON_AddItemToObject
    (cJSON_AddStringToObject
      (cJSON_AddStringToObject
        (cJSON_AddStringToObject cJSON_CreateObject "jsonrpc" "2.0") "id" id) "method" method)
    "params" params

/-- Modelled from the spec: `blade_rpc_response_raw_create`.  The envelope
`{jsonrpc:"2.0", id, result}`; as for requests the caller passes the result
object as it stands when the message is sent. -/
def blade_rpc_response_raw_create (id : String) (result : cJSON) : cJSON :=
  cJSON_AddItemToObject
    (cJSON_AddStringToObject
      (cJSON_AddStringToObject cJSON_CreateObject "jsonrpc" "2.0") "id" id)
    "result" result

/-- Modelled from the spec: `blade_rpc_error_raw_create`.  The envelope
`{jsonrpc:"2.0", id, error:{code, message}}`. -/
def blade_rpc_error_raw_create (id : String) (code : Int) (message : String) : cJSON :=
  cJSON_AddItemToObject
    (cJSON_AddStringToObject
      (cJSON_AddStringToObject cJSON_CreateObject "jsonrpc" "2.0") "id" id)
    "error"
    (cJSON_AddStringToObject (cJSON_AddNumberToObject cJSON_CreateObject "code" code) "message" message)

/-! ## Node state -/

/-- Modelled from the spec: a session as far as the core uses it: its id, the
set of node ids routed through it (the inverse of the route table), and the
status its `send` returns for a message (decided by the session layer). -/
structure blade_session_t where
  id : String
  routes : List String
  send_ret : cJSON → ks_status_t

/-- Modelled from the spec: the identity state: local node id, master node
id (both unset until configured or discovered), the id of the upstream session
when there is one, and the accepted realms. -/
structure blade_upstreammgr_t where
  localid : Option String
  masterid : Option String
  sessionid : Option String
  realms : List String

/-- Modelled from the spec: a protocol record of the master's protocol
registry, the controller node ids of one `(protocol, realm)`. -/
structure blade_protocol_t where
  name : String
  realm : String
  controllers : List String

/-- Modelled from the spec: a subscription record, the subscribers of one
`(protocol, realm, event)` and the local callback with its data. -/
structure blade_subscription_t where
  event : String
  protocol : String
  realm : String
  subscribers : List String
  callback : Option blade_rpc_request_callback_t
  callback_data : Data

/-- Modelled from the spec: an entry of an RPC handler table: the method name,
for protocol RPCs the protocol and realm, and the handler with its data. -/
structure blade_rpc_t where
  method : String
  protocol : Option String
  realm : Option String
  callback : Option blade_rpc_request_callback_t
  data : Data

/-- The six core RPCs that `blade_handle_startup` registers; a value of this
type also stands for the pointer to the request handler of that RPC. -/
inductive core_rpc where
  | register
  | publish
  | locate
  | execute
  | subscribe
  | broadcast
  deriving DecidableEq, Repr

/-- Modelled from the spec: an entry of the core RPC table, as
`blade_rpc_create` builds it: the method name, protocol and realm (absent for
the core RPCs), the request handler (one of the six handlers of this file) and
its data. -/
structure blade_corerpc_t where
  method : String
  protocol : Option String
  realm : Option String
  callback : core_rpc
  data : Data

/-- Modelled from the spec: a transport, known by its name. -/
structure blade_transport_t where
  name : String

/-- Modelled from the spec: an identity `blade_identity_t`, of which the core
reads the parameters (such as `transport`). -/
structure blade_identity_t where
  uri : String
  parameters : List (String × String)

/-- Modelled from the spec: the transport manager: the default transport, the
registered transports, and whether the listeners have been started. -/
structure blade_transportmgr_t where
  default_transport : Option blade_transport_t := none
  transports : List blade_transport_t := []
  started : Bool := false

/-- One interaction of the core with its collaborators. -/
inductive Event where
  /-- a session was obtained read-locked from a manager -/
  | session_read_lock (sessionid : String)
  /-- the call `blade_session_read_unlock(bs)` -/
  | session_read_unlock (sessionid : String)
  /-- the call `blade_session_send(bs, json, callback, data)` -/
  | session_send (sessionid : String) (json : cJSON)
      (callback : Option blade_rpc_response_callback_t) (data : Data)
  /-- a request callback was called with a request and its data -/
  | request_callback (callback : blade_rpc_request_callback_t)
      (brpcreq : blade_rpc_request_t) (data : Data)
  /-- the call `blade_subscriptionmgr_broadcast(...)`, the subscription fan-out -/
  | subscriptionmgr_broadcast (broadcaster_nodeid : String) (excluded_nodeid : Option String)
      (event : String) (protocol : String) (realm : String) (params : Option cJSON)
      (callback : Option blade_rpc_response_callback_t) (data : Data)
  /-- the call `blade_transportmgr_transport_lookup(btmgr, name, ordefault)` -/
  | transportmgr_transport_lookup (name : Option String) (ordefault : Bool)
  /-- the call `callbacks->onconnect(bcP, bt, target, session_id)` of a transport -/
  | transport_onconnect (bt : blade_transport_t) (target : blade_identity_t)
      (session_id : Option String)

/-- The handle `struct blade_handle_s`: the managers the core operations use,
each represented by the table it owns, and the trace of interactions so far.
The route table maps a node id to a session id; `broadcast_ret` is the status
the subscription fan-out returns (decided by the subscription manager); the
memory pools, the thread pool, the transport and connection managers carry no
state the six operations read.  `rpcmgr` is the protocol RPC table and
`corerpcs` the core RPC table of the RPC manager. -/
structure blade_handle_t where
  rpcmgr : List blade_rpc_t
  routemgr : List (String × String)
  subscriptionmgr : List blade_subscription_t
  broadcast_ret : ks_status_t
  upstreammgr : blade_upstreammgr_t
  mastermgr : List blade_protocol_t
  sessionmgr : List blade_session_t
  trace : List Event
  corerpcs : List blade_corerpc_t := []
  transportmgr : blade_transportmgr_t := {}

/-- Append one interaction to the trace. -/
def blade_handle_t.emit (bh : blade_handle_t) (e : Event) : blade_handle_t :=
  { bh with trace := bh.trace ++ [e] }

/-! ## Session layer -/

/-- Modelled from the spec: `blade_sessionmgr_session_lookup`, the session
with the given id, returned read-locked, or `none` (NULL). -/
def blade_sessionmgr_session_lookup (bh : blade_handle_t) (id : String) :
    Option (blade_session_t × blade_handle_t) :=
  match bh.sessionmgr.find? (fun bs => bs.id == id) with
  | some bs => some (bs, bh.emit (.session_read_lock bs.id))
  | none => none

/-- The accessor `blade_session_id_get`. -/
def blade_session_id_get (bs : blade_session_t) : String := bs.id

/-- Modelled from the spec: `blade_session_read_unlock`. -/
def blade_session_read_unlock (bh : blade_handle_t) (bs : blade_session_t) : blade_handle_t :=
  bh.emit (.session_read_unlock bs.id)

/-- Modelled from the spec: `blade_session_send(bs, json, callback, data)`
queues the message on the session, remembering the callback for the response,
and returns the session's status for it. -/
def blade_session_send (bh : blade_handle_t) (bs : blade_session_t) (json : cJSON)
    (callback : Option blade_rpc_response_callback_t) (data : Data) :
    ks_status_t × blade_handle_t :=
  (bs.send_ret json, bh.emit (.session_send bs.id json callback data))

/-- Modelled from the spec: `blade_session_route_add(bs, nodeid)` puts the
node id into the route set held on the session. -/
def blade_session_route_add (bh : blade_handle_t) (bs : blade_session_t) (nodeid : String) :
    blade_handle_t :=
  { bh with sessionmgr := bh.sessionmgr.map (fun s =>
      if s.id = bs.id then
        { s with routes := if nodeid ∈ s.routes then s.routes else s.routes ++ [nodeid] }
      else s) }

/-- Modelled from the spec: `blade_session_route_remove(bs, nodeid)` takes the
node id out of the route set held on the session. -/
def blade_session_route_remove (bh : blade_handle_t) (bs : blade_session_t) (nodeid : String) :
    blade_handle_t :=
  { bh with sessionmgr := bh.sessionmgr.map (fun s =>
      if s.id = bs.id then { s with routes := s.routes.filter (fun n => n != nodeid) } else s) }

/-! ## Identity and upstream -/

/-- Modelled from the spec: `blade_upstreammgr_session_get`, the upstream
session, read-locked, when one is established. -/
def blade_upstreammgr_session_get (bh : blade_handle_t) :
    Option (blade_session_t × blade_handle_t) :=
  match bh.upstreammgr.sessionid with
  | some sessionid => blade_sessionmgr_session_lookup bh sessionid
  | none => none

/-- Modelled from the spec: `blade_upstreammgr_localid_copy`, the local node
id, `none` (NULL) while it is not set. -/
def blade_upstreammgr_localid_copy (bh : blade_handle_t) : Option String :=
  bh.upstreammgr.localid

/-- Modelled from the spec: `blade_upstreammgr_masterid_copy`. -/
def blade_upstreammgr_masterid_copy (bh : blade_handle_t) : Option String :=
  bh.upstreammgr.masterid

/-- Modelled from the spec: `blade_upstreammgr_masterid_compare`, whether the
given node id is the master id. -/
def blade_upstreammgr_masterid_compare (bh : blade_handle_t) (id : String) : Bool :=
  bh.upstreammgr.masterid == some id

/-! ## Route table -/

/-- Modelled from the spec: `blade_routemgr_route_add` records
`target → router` in the route table, replacing an older entry of `target`. -/
def blade_routemgr_route_add (bh : blade_handle_t) (target : String) (router : String) :
    blade_handle_t :=
  { bh with routemgr := bh.routemgr.filter (fun r => r.1 != target) ++ [(target, router)] }

/-- Modelled from the spec: `blade_routemgr_route_remove` drops the entry of
`target`. -/
def blade_routemgr_route_remove (bh : blade_handle_t) (target : String) : blade_handle_t :=
  { bh with routemgr := bh.routemgr.filter (fun r => r.1 != target) }

/-- Modelled from the spec: `blade_routemgr_route_lookup`, the session the
route table gives for `target`, read-locked, `none` when there is no route or
the session no longer exists. -/
def blade_routemgr_route_lookup (bh : blade_handle_t) (target : String) :
    Option (blade_session_t × blade_handle_t) :=
  match bh.routemgr.find? (fun r => r.1 == target) with
  | some r => blade_sessionmgr_session_lookup bh r.2
  | none => none

/-! ## Master protocol registry -/

/-- Modelled from the spec: `blade_mastermgr_protocol_lookup`, the record of
`(protocol, realm)`. -/
def blade_mastermgr_protocol_lookup (bh : blade_handle_t) (protocol : String) (realm : String) :
    Option blade_protocol_t :=
  bh.mastermgr.find? (fun bp => bp.name == protocol && bp.realm == realm)

/-- Add a node id to a controller set. -/
def blade_protocol_controllers_add (bp : blade_protocol_t) (controller : String) :
    blade_protocol_t :=
  { bp with controllers :=
      if controller ∈ bp.controllers then bp.controllers else bp.controllers ++ [controller] }

/-- The accessor `blade_protocol_controllers_get`. -/
def blade_protocol_controllers_get (bp : blade_protocol_t) : List String := bp.controllers

/-- Modelled from the spec: `blade_mastermgr_controller_add` adds the
controller to `protocol_registry[(protocol, realm)].controllers`, creating
the record when `(protocol, realm)` has none. -/
def blade_mastermgr_controller_add (bh : blade_handle_t) (protocol : String) (realm : String)
    (controller : String) : blade_handle_t :=
  match blade_mastermgr_protocol_lookup bh protocol realm with
  | some _ =>
    { bh with mastermgr := bh.mastermgr.map (fun bp =>
        if bp.name == protocol && bp.realm == realm then
          blade_protocol_controllers_add bp controller
        else bp) }
  | none =>
    { bh with mastermgr := bh.mastermgr ++
        [{ name := protocol, realm := realm, controllers := [controller] }] }

/-! ## RPC handler table -/

/-- Modelled from the spec: `blade_rpcmgr_protocolrpc_lookup`, the entry of
`protocol_rpcs[(method, protocol, realm)]`. -/
def blade_rpcmgr_protocolrpc_lookup (bh : blade_handle_t) (method : String) (protocol : String)
    (realm : String) : Option blade_rpc_t :=
  bh.rpcmgr.find? (fun brpc =>
    brpc.method == method && brpc.protocol == some protocol && brpc.realm == some realm)

/-- The accessor `blade_rpc_callback_get`. -/
def blade_rpc_callback_get (brpc : blade_rpc_t) : Option blade_rpc_request_callback_t :=
  brpc.callback

/-- The accessor `blade_rpc_callback_data_get`. -/
def blade_rpc_callback_data_get (brpc : blade_rpc_t) : Data := brpc.data

/-! ## Subscription tree -/

/-- Modelled from the spec: `blade_subscriptionmgr_subscription_lookup`, the
record of `(protocol, realm, event)`. -/
def blade_subscriptionmgr_subscription_lookup (bh : blade_handle_t) (event : String)
    (protocol : String) (realm : String) : Option blade_subscription_t :=
  bh.subscriptionmgr.find? (fun bsub =>
    bsub.event == event && bsub.protocol == protocol && bsub.realm == realm)

/-- The accessor `blade_subscription_subscribers_get`. -/
def blade_subscription_subscribers_get (bsub : blade_subscription_t) : List String :=
  bsub.subscribers

/-- The accessor `blade_subscription_callback_get`. -/
def blade_subscription_callback_get (bsub : blade_subscription_t) :
    Option blade_rpc_request_callback_t :=
  bsub.callback

/-- The accessor `blade_subscription_callback_data_get`. -/
def blade_subscription_callback_data_get (bsub : blade_subscription_t) : Data :=
  bsub.callback_data

/-- Modelled from the spec: `blade_subscriptionmgr_subscriber_add` adds
`target` to the subscribers of the key and returns `true` exactly when the
key had no subscriber before (the record is created). -/
def blade_subscriptionmgr_subscriber_add (bh : blade_handle_t) (event : String)
    (protocol : String) (realm : String) (target : String) : Bool × blade_handle_t :=
  match blade_subscriptionmgr_subscription_lookup bh event protocol realm with
  | some _ =>
    (false, { bh with subscriptionmgr := bh.subscriptionmgr.map (fun bsub =>
        if bsub.event == event && bsub.protocol == protocol && bsub.realm == realm then
          { bsub with subscribers :=
              if target ∈ bsub.subscribers then bsub.subscribers
              else bsub.subscribers ++ [target] }
        else bsub) })
  | none =>
    (true, { bh with subscriptionmgr := bh.subscriptionmgr ++
        [{ event := event, protocol := protocol, realm := realm, subscribers := [target],
           callback := none, callback_data := 0 }] })

/-- Modelled from the spec: `blade_subscriptionmgr_subscriber_remove` takes
`target` out of the subscribers of the key and returns `true` exactly when
that removal leaves the key without subscriber; the record is then deleted. -/
def blade_subscriptionmgr_subscriber_remove (bh : blade_handle_t) (event : String)
    (protocol : String) (realm : String) (target : String) : Bool × blade_handle_t :=
  match blade_subscriptionmgr_subscription_lookup bh event protocol realm with
  | some bsub =>
    if target ∈ bsub.subscribers ∧ bsub.subscribers.filter (fun n => n != target) = [] then
      (true, { bh with subscriptionmgr := bh.subscriptionmgr.filter (fun b =>
          !(b.event == event && b.protocol == protocol && b.realm == realm)) })
    else
      (false, { bh with subscriptionmgr := bh.subscriptionmgr.map (fun b =>
          if b.event == event && b.protocol == protocol && b.realm == realm then
            { b with subscribers := b.subscribers.filter (fun n => n != target) }
          else b) })
  | none => (false, bh)

/-- Modelled from the spec: `blade_subscriptionmgr_broadcast`, the
subscription fan-out.  The core hands it the event with the broadcaster and
the excluded session; what it sends, and the status it returns, is decided by
the subscription manager. -/
def blade_subscriptionmgr_broadcast (bh : blade_handle_t) (broadcaster_nodeid : String)
    (excluded_nodeid : Option String) (event : String) (protocol : String) (realm : String)
    (params : Option cJSON) (callback : Option blade_rpc_response_callback_t) (data : Data) :
    ks_status_t × blade_handle_t :=
  (bh.broadcast_ret, bh.emit (.subscriptionmgr_broadcast broadcaster_nodeid excluded_nodeid
    event protocol realm params callback data))

/-! ## blade.register -/

/-- The request handler of `blade.register`
(`blade_protocol_register_request_handler`). -/
def blade_protocol_register_request_handler (bh : blade_handle_t)
    (brpcreq : blade_rpc_request_t) (_data : Data) : Option (Bool × blade_handle_t) :=
  match blade_sessionmgr_session_lookup bh (blade_rpc_request_sessionid_get brpcreq) with
  | none => none
  | some (bs, bh) =>
    let req := blade_rpc_request_message_get brpcreq
    match cJSON_GetObjectItem req "params" with
    | none =>
      let res := blade_rpc_error_raw_create (blade_rpc_request_messageid_get brpcreq) (-32602)
        "Missing params object"
      let bh := (blade_session_send bh bs res none 0).2
      some (false, blade_session_read_unlock bh bs)
    | some req_params =>
    match cJSON_GetObjectCstr req_params "nodeid" with
    | none =>
      let res := blade_rpc_error_raw_create (blade_rpc_request_messageid_get brpcreq) (-32602)
        "Missing params nodeid"
      let bh := (blade_session_send bh bs res none 0).2
      some (false, blade_session_read_unlock bh bs)
    | some req_params_nodeid =>
      let req_params_remove := cJSON_GetObjectItem req_params "remove"
      let remove : Bool :=
        match req_params_remove with
        | some item => cJSON_IsTrue item
        | none => false
      let bh :=
        if remove then
          blade_routemgr_route_remove (blade_session_route_remove bh bs req_params_nodeid)
            req_params_nodeid
        else
          blade_routemgr_route_add (blade_session_route_add bh bs req_params_nodeid)
            req_params_nodeid (blade_session_id_get bs)
      let res_result := cJSON_CreateObject
      let res := blade_rpc_response_raw_create (blade_rpc_request_messageid_get brpcreq) res_result
      let bh := (blade_session_send bh bs res none 0).2
      some (false, blade_session_read_unlock bh bs)

/-! ## blade.publish -/

/-- The request handler of `blade.publish`
(`blade_protocol_publish_request_handler`). -/
def blade_protocol_publish_request_handler (bh : blade_handle_t)
    (brpcreq : blade_rpc_request_t) (_data : Data) : Option (Bool × blade_handle_t) :=
  match blade_sessionmgr_session_lookup bh (blade_rpc_request_sessionid_get brpcreq) with
  | none => none
  | some (bs, bh) =>
    let req := blade_rpc_request_message_get brpcreq
    match cJSON_GetObjectItem req "params" with
    | none =>
      let res := blade_rpc_error_raw_create (blade_rpc_request_messageid_get brpcreq) (-32602)
        "Missing params object"
      let bh := (blade_session_send bh bs res none 0).2
      some (false, blade_session_read_unlock bh bs)
    | some req_params =>
    match cJSON_GetObjectCstr req_params "protocol" with
    | none =>
      let res := blade_rpc_error_raw_create (blade_rpc_request_messageid_get brpcreq) (-32602)
        "Missing params protocol"
      let bh := (blade_session_send bh bs res none 0).2
      some (false, blade_session_read_unlock bh bs)
    | some req_params_protocol =>
    match cJSON_GetObjectCstr req_params "realm" with
    | none =>
      let res := blade_rpc_error_raw_create (blade_rpc_request_messageid_get brpcreq) (-32602)
        "Missing params realm"
      let bh := (blade_session_send bh bs res none 0).2
      some (false, blade_session_read_unlock bh bs)
    | some req_params_realm =>
    match cJSON_GetObjectCstr req_params "requester-nodeid" with
    | none =>
      let res := blade_rpc_error_raw_create (blade_rpc_request_messageid_get brpcreq) (-32602)
        "Missing params requester-nodeid"
      let bh := (blade_session_send bh bs res none 0).2
      some (false, blade_session_read_unlock bh bs)
    | some req_params_requester_nodeid =>
    match cJSON_GetObjectCstr req_params "responder-nodeid" with
    | none =>
      let res := blade_rpc_error_raw_create (blade_rpc_request_messageid_get brpcreq) (-32602)
        "Missing params responder-nodeid"
      let bh := (blade_session_send bh bs res none 0).2
      some (false, blade_session_read_unlock bh bs)
    | some req_params_responder_nodeid =>
      if !blade_upstreammgr_masterid_compare bh req_params_responder_nodeid then
        let res := blade_rpc_error_raw_create (blade_rpc_request_messageid_get brpcreq) (-32602)
          "Invalid params responder-nodeid"
        let bh := (blade_session_send bh bs res none 0).2
        some (false, blade_session_read_unlock bh bs)
      else
        let bh := blade_mastermgr_controller_add bh req_params_protocol req_params_realm
          req_params_requester_nodeid
        let res_result := cJSON_CreateObject
        let res_result := cJSON_AddStringToObject res_result "protocol" req_params_protocol
        let res_result := cJSON_AddStringToObject res_result "realm" req_params_realm
        let res_result := cJSON_AddStringToObject res_result "requester-nodeid"
          req_params_requester_nodeid
        let res_result := cJSON_AddStringToObject res_result "responder-nodeid"
          req_params_responder_nodeid
        let res := blade_rpc_response_raw_create (blade_rpc_request_messageid_get brpcreq)
          res_result
        let bh := (blade_session_send bh bs res none 0).2
        some (false, blade_session_read_unlock bh bs)

/-! ## blade.locate -/

/-- The request handler of `blade.locate`
(`blade_protocol_locate_request_handler`). -/
def blade_protocol_locate_request_handler (bh : blade_handle_t)
    (brpcreq : blade_rpc_request_t) (_data : Data) : Option (Bool × blade_handle_t) :=
  match blade_sessionmgr_session_lookup bh (blade_rpc_request_sessionid_get brpcreq) with
  | none => none
  | some (bs, bh) =>
    let req := blade_rpc_request_message_get brpcreq
    match cJSON_GetObjectItem req "params" with
    | none =>
      let res := blade_rpc_error_raw_create (blade_rpc_request_messageid_get brpcreq) (-32602)
        "Missing params object"
      let bh := (blade_session_send bh bs res none 0).2
      some (false, blade_session_read_unlock bh bs)
    | some req_params =>
    match cJSON_GetObjectCstr req_params "protocol" with
    | none =>
      let res := blade_rpc_error_raw_create (blade_rpc_request_messageid_get brpcreq) (-32602)
        "Missing params protocol"
      let bh := (blade_session_send bh bs res none 0).2
      some (false, blade_session_read_unlock bh bs)
    | some req_params_protocol =>
    match cJSON_GetObjectCstr req_params "realm" with
    | none =>
      let res := blade_rpc_error_raw_create (blade_rpc_request_messageid_get brpcreq) (-32602)
        "Missing params realm"
      let bh := (blade_session_send bh bs res none 0).2
      some (false, blade_session_read_unlock bh bs)
    | some req_params_realm =>
    match cJSON_GetObjectCstr req_params "requester-nodeid" with
    | none =>
      let res := blade_rpc_error_raw_create (blade_rpc_request_messageid_get brpcreq) (-32602)
        "Missing params requester-nodeid"
      let bh := (blade_session_send bh bs res none 0).2
      some (false, blade_session_read_unlock bh bs)
    | some req_params_requester_nodeid =>
    match cJSON_GetObjectCstr req_params "responder-nodeid" with
    | none =>
      let res := blade_rpc_error_raw_create (blade_rpc_request_messageid_get brpcreq) (-32602)
        "Missing params responder-nodeid"
      let bh := (blade_session_send bh bs res none 0).2
      some (false, blade_session_read_unlock bh bs)
    | some req_params_responder_nodeid =>
      if !blade_upstreammgr_masterid_compare bh req_params_responder_nodeid then
        let res := blade_rpc_error_raw_create (blade_rpc_request_messageid_get brpcreq) (-32602)
          "Invalid params responder-nodeid"
        let bh := (blade_session_send bh bs res none 0).2
        some (false, blade_session_read_unlock bh bs)
      else
        let res_result_controllers := cJSON_CreateObject
        let bp := blade_mastermgr_protocol_lookup bh req_params_protocol req_params_realm
        let res_result_controllers :=
          match bp with
          | some bp =>
            (blade_protocol_controllers_get bp).foldl
              (fun controllers key => cJSON_AddItemToArray controllers (cJSON_CreateString key))
              res_result_controllers
          | none => res_result_controllers
        let res_result := cJSON_CreateObject
        let res_result := cJSON_AddStringToObject res_result "protocol" req_params_protocol
        let res_result := cJSON_AddStringToObject res_result "realm" req_params_realm
        let res_result := cJSON_AddStringToObject res_result "requester-nodeid"
          req_params_requester_nodeid
        let res_result := cJSON_AddStringToObject res_result "responder-nodeid"
          req_params_responder_nodeid
        let res_result := cJSON_AddItemToObject res_result "controllers" res_result_controllers
        let res := blade_rpc_response_raw_create (blade_rpc_request_messageid_get brpcreq)
          res_result
        let bh := (blade_session_send bh bs res none 0).2
        some (false, blade_session_read_unlock bh bs)

/-! ## blade.execute -/

/-- The request generator of `blade.execute` (`blade_protocol_execute`).
`mid` is the fresh message id the envelope helper draws for the request. -/
def blade_protocol_execute (bh : blade_handle_t) (mid : String) (nodeid : String)
    (method : String) (protocol : String) (realm : String) (params : Option cJSON)
    (callback : Option blade_rpc_response_callback_t) (data : Data) :
    Option (ks_status_t × blade_handle_t) :=
  let found :=
    match blade_routemgr_route_lookup bh nodeid with
    | some r => some r
    | none => blade_upstreammgr_session_get bh
  match found with
  | none => some (.KS_STATUS_DISCONNECTED, bh)
  | some (bs, bh) =>
    let req_params := cJSON_CreateObject
    let req_params := cJSON_AddStringToObject req_params "method" method
    let req_params := cJSON_AddStringToObject req_params "protocol" protocol
    let req_params := cJSON_AddStringToObject req_params "realm" realm
    match blade_upstreammgr_localid_copy bh with
    | none => none
    | some localid =>
      let req_params := cJSON_AddStringToObject req_params "requester-nodeid" localid
      let req_params := cJSON_AddStringToObject req_params "responder-nodeid" nodeid
      let req_params :=
        match params with
        | some params => cJSON_AddItemToObject req_params "params" (cJSON_Duplicate params)
        | none => req_params
      let req := blade_rpc_request_raw_create mid "blade.execute" req_params
      let sent := blade_session_send bh bs req callback data
      some (sent.1, blade_session_read_unlock sent.2 bs)

/-- The request handler of `blade.execute`
(`blade_protocol_execute_request_handler`). -/
def blade_protocol_execute_request_handler (bh : blade_handle_t)
    (brpcreq : blade_rpc_request_t) (_data : Data) : Option (Bool × blade_handle_t) :=
  match blade_sessionmgr_session_lookup bh (blade_rpc_request_sessionid_get brpcreq) with
  | none => none
  | some (bs, bh) =>
    let req := blade_rpc_request_message_get brpcreq
    match cJSON_GetObjectItem req "params" with
    | none =>
      let res := blade_rpc_error_raw_create (blade_rpc_request_messageid_get brpcreq) (-32602)
        "Missing params object"
      let bh := (blade_session_send bh bs res none 0).2
      some (false, blade_session_read_unlock bh bs)
    | some req_params =>
    match cJSON_GetObjectCstr req_params "method" with
    | none =>
      let res := blade_rpc_error_raw_create (blade_rpc_request_messageid_get brpcreq) (-32602)
        "Missing params method"
      let bh := (blade_session_send bh bs res none 0).2
      some (false, blade_session_read_unlock bh bs)
    | some req_params_method =>
    match cJSON_GetObjectCstr req_params "protocol" with
    | none =>
      let res := blade_rpc_error_raw_create (blade_rpc_request_messageid_get brpcreq) (-32602)
        "Missing params protocol"
      let bh := (blade_session_send bh bs res none 0).2
      some (false, blade_session_read_unlock bh bs)
    | some req_params_protocol =>
    match cJSON_GetObjectCstr req_params "realm" with
    | none =>
      let res := blade_rpc_error_raw_create (blade_rpc_request_messageid_get brpcreq) (-32602)
        "Missing params realm"
      let bh := (blade_session_send bh bs res none 0).2
      some (false, blade_session_read_unlock bh bs)
    | some req_params_realm =>
    match cJSON_GetObjectCstr req_params "requester-nodeid" with
    | none =>
      let res := blade_rpc_error_raw_create (blade_rpc_request_messageid_get brpcreq) (-32602)
        "Missing params requester-nodeid"
      let bh := (blade_session_send bh bs res none 0).2
      some (false, blade_session_read_unlock bh bs)
    | some _req_params_requester_nodeid =>
    match cJSON_GetObjectCstr req_params "responder-nodeid" with
    | none =>
      let res := blade_rpc_error_raw_create (blade_rpc_request_messageid_get brpcreq) (-32602)
        "Missing params responder-nodeid"
      let bh := (blade_session_send bh bs res none 0).2
      some (false, blade_session_read_unlock bh bs)
    | some _req_params_responder_nodeid =>
    match blade_rpcmgr_protocolrpc_lookup bh req_params_method req_params_protocol
        req_params_realm with
    | none =>
      let res := blade_rpc_error_raw_create (blade_rpc_request_messageid_get brpcreq) (-32602)
        "Unknown params method"
      let bh := (blade_session_send bh bs res none 0).2
      some (false, blade_session_read_unlock bh bs)
    | some brpc =>
      match blade_rpc_callback_get brpc with
      | some callback =>
        let bh := bh.emit (.request_callback callback brpcreq (blade_rpc_callback_data_get brpc))
        let ret := callback brpcreq (blade_rpc_callback_data_get brpc)
        some (ret, blade_session_read_unlock bh bs)
      | none => some (false, blade_session_read_unlock bh bs)

/-- The accessor `blade_protocol_execute_request_requester_nodeid_get`. -/
def blade_protocol_execute_request_requester_nodeid_get (brpcreq : blade_rpc_request_t) :
    Option String :=
  match cJSON_GetObjectItem (blade_rpc_request_message_get brpcreq) "params" with
  | some req_params => cJSON_GetObjectCstr req_params "requester-nodeid"
  | none => none

/-- The accessor `blade_protocol_execute_request_responder_nodeid_get`. -/
def blade_protocol_execute_request_responder_nodeid_get (brpcreq : blade_rpc_request_t) :
    Option String :=
  match cJSON_GetObjectItem (blade_rpc_request_message_get brpcreq) "params" with
  | some req_params => cJSON_GetObjectCstr req_params "responder-nodeid"
  | none => none

/-- The accessor `blade_protocol_execute_request_params_get`. -/
def blade_protocol_execute_request_params_get (brpcreq : blade_rpc_request_t) : Option cJSON :=
  match cJSON_GetObjectItem (blade_rpc_request_message_get brpcreq) "params" with
  | some req_params => cJSON_GetObjectItem req_params "params"
  | none => none

/-- The accessor `blade_protocol_execute_response_result_get`: the member
`result` of the member `result` of the response. -/
def blade_protocol_execute_response_result_get (brpcres : blade_rpc_response_t) : Option cJSON :=
  match cJSON_GetObjectItem (blade_rpc_response_message_get brpcres) "result" with
  | some res_result => cJSON_GetObjectItem res_result "result"
  | none => none

/-- The response helper `blade_protocol_execute_response_send(brpcreq, result)`;
`result` is `none` for a NULL result. -/
def blade_protocol_execute_response_send (bh : blade_handle_t) (brpcreq : blade_rpc_request_t)
    (result : Option cJSON) : Option blade_handle_t :=
  match blade_sessionmgr_session_lookup bh (blade_rpc_request_sessionid_get brpcreq) with
  | none => none
  | some (bs, bh) =>
    let req := blade_rpc_request_message_get brpcreq
    match cJSON_GetObjectItem req "params" with
    | none => none
    | some req_params =>
    match cJSON_GetObjectCstr req_params "protocol" with
    | none => none
    | some req_params_protocol =>
    match cJSON_GetObjectCstr req_params "realm" with
    | none => none
    | some req_params_realm =>
    match cJSON_GetObjectCstr req_params "requester-nodeid" with
    | none => none
    | some req_params_requester_nodeid =>
    match cJSON_GetObjectCstr req_params "responder-nodeid" with
    | none => none
    | some req_params_responder_nodeid =>
      let res_result := cJSON_CreateObject
      let res_result := cJSON_AddStringToObject res_result "protocol" req_params_protocol
      let res_result := cJSON_AddStringToObject res_result "realm" req_params_realm
      let res_result := cJSON_AddStringToObject res_result "requester-nodeid"
        req_params_requester_nodeid
      let res_result := cJSON_AddStringToObject res_result "responder-nodeid"
        req_params_responder_nodeid
      let res_result :=
        match result with
        | some result => cJSON_AddItemToObject res_result "result" (cJSON_Duplicate result)
        | none => res_result
      let res := blade_rpc_response_raw_create (blade_rpc_request_messageid_get brpcreq)
        res_result
      let bh := (blade_session_send bh bs res none 0).2
      some (blade_session_read_unlock bh bs)

/-! ## blade.subscribe -/

/-- The raw request generator of `blade.subscribe`
(`blade_protocol_subscribe_raw`); `mid` is the fresh message id. -/
def blade_protocol_subscribe_raw (bh : blade_handle_t) (mid : String) (event : String)
    (protocol : String) (realm : String) (remove : Bool)
    (callback : Option blade_rpc_response_callback_t) (data : Data) :
    ks_status_t × blade_handle_t :=
  match blade_upstreammgr_session_get bh with
  | none => (.KS_STATUS_DISCONNECTED, bh)
  | some (bs, bh) =>
    let req_params := cJSON_CreateObject
    let req_params := cJSON_AddStringToObject req_params "event" event
    let req_params := cJSON_AddStringToObject req_params "protocol" protocol
    let req_params := cJSON_AddStringToObject req_params "realm" realm
    let req_params := if remove then cJSON_AddTrueToObject req_params "remove" else req_params
    let req := blade_rpc_request_raw_create mid "blade.subscribe" req_params
    let sent := blade_session_send bh bs req callback data
    (sent.1, blade_session_read_unlock sent.2 bs)

/-- The request handler of `blade.subscribe`
(`blade_protocol_subscribe_request_handler`); `mid` is the message id drawn
when the change is propagated upstream. -/
def blade_protocol_subscribe_request_handler (mid : String) (bh : blade_handle_t)
    (brpcreq : blade_rpc_request_t) (_data : Data) : Option (Bool × blade_handle_t) :=
  match blade_sessionmgr_session_lookup bh (blade_rpc_request_sessionid_get brpcreq) with
  | none => none
  | some (bs, bh) =>
    let req := blade_rpc_request_message_get brpcreq
    match cJSON_GetObjectItem req "params" with
    | none =>
      let res := blade_rpc_error_raw_create (blade_rpc_request_messageid_get brpcreq) (-32602)
        "Missing params object"
      let bh := (blade_session_send bh bs res none 0).2
      some (false, blade_session_read_unlock bh bs)
    | some req_params =>
    match cJSON_GetObjectCstr req_params "event" with
    | none =>
      let res := blade_rpc_error_raw_create (blade_rpc_request_messageid_get brpcreq) (-32602)
        "Missing params event"
      let bh := (blade_session_send bh bs res none 0).2
      some (false, blade_session_read_unlock bh bs)
    | some req_params_event =>
    match cJSON_GetObjectCstr req_params "protocol" with
    | none =>
      let res := blade_rpc_error_raw_create (blade_rpc_request_messageid_get brpcreq) (-32602)
        "Missing params protocol"
      let bh := (blade_session_send bh bs res none 0).2
      some (false, blade_session_read_unlock bh bs)
    | some req_params_protocol =>
    match cJSON_GetObjectCstr req_params "realm" with
    | none =>
      let res := blade_rpc_error_raw_create (blade_rpc_request_messageid_get brpcreq) (-32602)
        "Missing params realm"
      let bh := (blade_session_send bh bs res none 0).2
      some (false, blade_session_read_unlock bh bs)
    | some req_params_realm =>
      let req_params_remove := cJSON_GetObjectItem req_params "remove"
      let remove : Bool :=
        match req_params_remove with
        | some item => cJSON_IsTrue item
        | none => false
      let changed :=
        if remove then
          blade_subscriptionmgr_subscriber_remove bh req_params_event req_params_protocol
            req_params_realm (blade_session_id_get bs)
        else
          blade_subscriptionmgr_subscriber_add bh req_params_event req_params_protocol
            req_params_realm (blade_session_id_get bs)
      let propagate := changed.1
      let bh := changed.2
      let bh :=
        if propagate then
          (blade_protocol_subscribe_raw bh mid req_params_event req_params_protocol
            req_params_realm remove none 0).2
        else bh
      let res_result := cJSON_CreateObject
      let res_result := cJSON_AddStringToObject res_result "event" req_params_event
      let res_result := cJSON_AddStringToObject res_result "protocol" req_params_protocol
      let res_result := cJSON_AddStringToObject res_result "realm" req_params_realm
      let res := blade_rpc_response_raw_create (blade_rpc_request_messageid_get brpcreq)
        res_result
      let bh := (blade_session_send bh bs res none 0).2
      some (false, blade_session_read_unlock bh bs)

/-! ## blade.broadcast -/

/-- The request handler of `blade.broadcast`
(`blade_protocol_broadcast_request_handler`). -/
def blade_protocol_broadcast_request_handler (bh : blade_handle_t)
    (brpcreq : blade_rpc_request_t) (_data : Data) : Option (Bool × blade_handle_t) :=
  match blade_sessionmgr_session_lookup bh (blade_rpc_request_sessionid_get brpcreq) with
  | none => none
  | some (bs, bh) =>
    let req := blade_rpc_request_message_get brpcreq
    match cJSON_GetObjectItem req "params" with
    | none =>
      let res := blade_rpc_error_raw_create (blade_rpc_request_messageid_get brpcreq) (-32602)
        "Missing params object"
      let bh := (blade_session_send bh bs res none 0).2
      some (false, blade_session_read_unlock bh bs)
    | some req_params =>
    match cJSON_GetObjectCstr req_params "broadcaster-nodeid" with
    | none =>
      let res := blade_rpc_error_raw_create (blade_rpc_request_messageid_get brpcreq) (-32602)
        "Missing params broadcaster-nodeid"
      let bh := (blade_session_send bh bs res none 0).2
      some (false, blade_session_read_unlock bh bs)
    | some req_params_broadcaster_nodeid =>
    match cJSON_GetObjectCstr req_params "event" with
    | none =>
      let res := blade_rpc_error_raw_create (blade_rpc_request_messageid_get brpcreq) (-32602)
        "Missing params event"
      let bh := (blade_session_send bh bs res none 0).2
      some (false, blade_session_read_unlock bh bs)
    | some req_params_event =>
    match cJSON_GetObjectCstr req_params "protocol" with
    | none =>
      let res := blade_rpc_error_raw_create (blade_rpc_request_messageid_get brpcreq) (-32602)
        "Missing params protocol"
      let bh := (blade_session_send bh bs res none 0).2
      some (false, blade_session_read_unlock bh bs)
    | some req_params_protocol =>
    match cJSON_GetObjectCstr req_params "realm" with
    | none =>
      let res := blade_rpc_error_raw_create (blade_rpc_request_messageid_get brpcreq) (-32602)
        "Missing params realm"
      let bh := (blade_session_send bh bs res none 0).2
      some (false, blade_session_read_unlock bh bs)
    | some req_params_realm =>
      let req_params_params := cJSON_GetObjectItem req_params "params"
      let bh := (blade_subscriptionmgr_broadcast bh req_params_broadcaster_nodeid
        (some (blade_session_id_get bs)) req_params_event req_params_protocol req_params_realm
        req_params_params none 0).2
      let delivered : Option (Bool × blade_handle_t) :=
        match blade_subscriptionmgr_subscription_lookup bh req_params_event req_params_protocol
            req_params_realm with
        | some bsub =>
          match blade_upstreammgr_localid_copy bh with
          | none => none
          | some localid =>
            if localid ∈ blade_subscription_subscribers_get bsub then
              match blade_subscription_callback_get bsub with
              | some callback =>
                some (callback brpcreq (blade_subscription_callback_data_get bsub),
                  bh.emit (.request_callback callback brpcreq
                    (blade_subscription_callback_data_get bsub)))
              | none => some (false, bh)
            else some (false, bh)
        | none => some (false, bh)
      match delivered with
      | none => none
      | some (ret, bh) =>
        let res_result := cJSON_CreateObject
        let res_result := cJSON_AddStringToObject res_result "broadcaster-nodeid"
          req_params_broadcaster_nodeid
        let res_result := cJSON_AddStringToObject res_result "event" req_params_event
        let res_result := cJSON_AddStringToObject res_result "protocol" req_params_protocol
        let res_result := cJSON_AddStringToObject res_result "realm" req_params_realm
        let res := blade_rpc_response_raw_create (blade_rpc_request_messageid_get brpcreq)
          res_result
        let bh := (blade_session_send bh bs res none 0).2
        some (ret, blade_session_read_unlock bh bs)

/-! ## Request generators -/

/-- The request generator of `blade.register` (`blade_protocol_register`);
`mid` is the fresh message id. -/
def blade_protocol_register (bh : blade_handle_t) (mid : String) (nodeid : String)
    (remove : Bool) (callback : Option blade_rpc_response_callback_t) (data : Data) :
    ks_status_t × blade_handle_t :=
  match blade_upstreammgr_session_get bh with
  | none => (.KS_STATUS_DISCONNECTED, bh)
  | some (bs, bh) =>
    let req_params := cJSON_CreateObject
    let req_params := cJSON_AddStringToObject req_params "nodeid" nodeid
    let req_params := if remove then cJSON_AddTrueToObject req_params "remove" else req_params
    let req := blade_rpc_request_raw_create mid "blade.register" req_params
    let sent := blade_session_send bh bs req callback data
    (sent.1, blade_session_read_unlock sent.2 bs)

/-- The request generator of `blade.publish` (`blade_protocol_publish`);
`mid` is the fresh message id. -/
def blade_protocol_publish (bh : blade_handle_t) (mid : String) (name : String)
    (realm : String) (callback : Option blade_rpc_response_callback_t) (data : Data) :
    Option (ks_status_t × blade_handle_t) :=
  match blade_upstreammgr_session_get bh with
  | none => some (.KS_STATUS_DISCONNECTED, bh)
  | some (bs, bh) =>
    let req_params := cJSON_CreateObject
    let req_params := cJSON_AddStringToObject req_params "protocol" name
    let req_params := cJSON_AddStringToObject req_params "realm" realm
    match blade_upstreammgr_localid_copy bh with
    | none => none
    | some id =>
    let req_params := cJSON_AddStringToObject req_params "requester-nodeid" id
    match blade_upstreammgr_masterid_copy bh with
    | none => none
    | some id =>
      let req_params := cJSON_AddStringToObject req_params "responder-nodeid" id
      let req := blade_rpc_request_raw_create mid "blade.publish" req_params
      let sent := blade_session_send bh bs req callback data
      some (sent.1, blade_session_read_unlock sent.2 bs)

/-- The request generator of `blade.locate` (`blade_protocol_locate`);
`mid` is the fresh message id. -/
def blade_protocol_locate (bh : blade_handle_t) (mid : String) (name : String)
    (realm : String) (callback : Option blade_rpc_response_callback_t) (data : Data) :
    Option (ks_status_t × blade_handle_t) :=
  match blade_upstreammgr_session_get bh with
  | none => some (.KS_STATUS_DISCONNECTED, bh)
  | some (bs, bh) =>
    let req_params := cJSON_CreateObject
    let req_params := cJSON_AddStringToObject req_params "protocol" name
    let req_params := cJSON_AddStringToObject req_params "realm" realm
    match blade_upstreammgr_localid_copy bh with
    | none => none
    | some id =>
    let req_params := cJSON_AddStringToObject req_params "requester-nodeid" id
    match blade_upstreammgr_masterid_copy bh with
    | none => none
    | some id =>
      let req_params := cJSON_AddStringToObject req_params "responder-nodeid" id
      let req := blade_rpc_request_raw_create mid "blade.locate" req_params
      let sent := blade_session_send bh bs req callback data
      some (sent.1, blade_session_read_unlock sent.2 bs)

/-- Modelled from the spec: `blade_subscription_callback_set` followed by
`blade_subscription_callback_data_set` on the record of the key: the local
callback and its data are stored in the record. -/
def blade_subscription_callback_set (bh : blade_handle_t) (event : String) (protocol : String)
    (realm : String) (callback : Option blade_rpc_request_callback_t) (data : Data) :
    blade_handle_t :=
  { bh with subscriptionmgr := bh.subscriptionmgr.map (fun bsub =>
      if bsub.event == event && bsub.protocol == protocol && bsub.realm == realm then
        { bsub with callback := callback, callback_data := data }
      else bsub) }

/-- The local request generator of `blade.subscribe` (`blade_protocol_subscribe`);
`mid` is the fresh message id.  The record the subscription manager hands back
through its out-parameter is the record of the key as it stands in the tree
after the change; a record that is no longer in the tree has no effect on the
state. -/
def blade_protocol_subscribe (bh : blade_handle_t) (mid : String) (event : String)
    (protocol : String) (realm : String) (remove : Bool)
    (callback : Option blade_rpc_response_callback_t) (data : Data)
    (event_callback : Option blade_rpc_request_callback_t) (event_data : Data) :
    Option (ks_status_t × blade_handle_t) :=
  match blade_upstreammgr_session_get bh with
  | none => some (.KS_STATUS_DISCONNECTED, bh)
  | some (bs, bh) =>
    match blade_upstreammgr_localid_copy bh with
    | none => none
    | some localid =>
      let changed :=
        if remove then
          blade_subscriptionmgr_subscriber_remove bh event protocol realm localid
        else
          blade_subscriptionmgr_subscriber_add bh event protocol realm localid
      if !remove && event_callback.isNone then none
      else
        let propagate := changed.1
        let bh := changed.2
        let bh :=
          match blade_subscriptionmgr_subscription_lookup bh event protocol realm with
          | some _ => blade_subscription_callback_set bh event protocol realm event_callback
              event_data
          | none => bh
        let sent : ks_status_t × blade_handle_t :=
          if propagate then
            blade_protocol_subscribe_raw bh mid event protocol realm remove callback data
          else (.KS_STATUS_SUCCESS, bh)
        some (sent.1, blade_session_read_unlock sent.2 bs)

/-- The request generator of `blade.broadcast` (`blade_protocol_broadcast`);
`broadcaster_nodeid` is `none` for a NULL argument. -/
def blade_protocol_broadcast (bh : blade_handle_t) (broadcaster_nodeid : Option String)
    (event : String) (protocol : String) (realm : String) (params : Option cJSON)
    (callback : Option blade_rpc_response_callback_t) (data : Data) :
    Option (ks_status_t × blade_handle_t) :=
  let broadcaster : Option String :=
    match broadcaster_nodeid with
    | some nodeid => some nodeid
    | none => blade_upstreammgr_localid_copy bh
  match broadcaster with
  | none => none
  | some broadcaster_nodeid =>
    some (blade_subscriptionmgr_broadcast bh broadcaster_nodeid none event protocol realm params
      callback data)

/-! ## Configuration and startup -/

/-- Modelled from the spec: the configuration, a nested key/value document
(`config_setting_t`): scalar settings, arrays, lists and groups of named
settings. -/
inductive config_setting_t where
  | int (value : Int)
  | float
  | bool (value : Bool)
  | string (value : String)
  | array (elements : List config_setting_t)
  | list (elements : List config_setting_t)
  | group (members : List (String × config_setting_t))

/-- Modelled from the spec: the kinds of setting `config_setting_type` tells
apart. -/
inductive config_type_t where
  | CONFIG_TYPE_INT
  | CONFIG_TYPE_FLOAT
  | CONFIG_TYPE_BOOL
  | CONFIG_TYPE_STRING
  | CONFIG_TYPE_ARRAY
  | CONFIG_TYPE_LIST
  | CONFIG_TYPE_GROUP
  deriving DecidableEq, Repr

/-- Modelled from the spec: `config_setting_type`. -/
def config_setting_type (setting : config_setting_t) : config_type_t :=
  match setting with
  | .int _ => .CONFIG_TYPE_INT
  | .float => .CONFIG_TYPE_FLOAT
  | .bool _ => .CONFIG_TYPE_BOOL
  | .string _ => .CONFIG_TYPE_STRING
  | .array _ => .CONFIG_TYPE_ARRAY
  | .list _ => .CONFIG_TYPE_LIST
  | .group _ => .CONFIG_TYPE_GROUP

/-- Modelled from the spec: `config_setting_is_group`. -/
def config_setting_is_group (setting : config_setting_t) : Bool :=
  match setting with
  | .group _ => true
  | _ => false

/-- Modelled from the spec: `config_setting_get_member`, the member of a group
with the given name, `none` (NULL) when the setting is not a group or has no
such member. -/
def config_setting_get_member (setting : config_setting_t) (name : String) :
    Option config_setting_t :=
  match setting with
  | .group members => (members.find? (fun m => m.1 == name)).map (fun m => m.2)
  | _ => none

/-- Modelled from the spec: `config_lookup_from` for a path that is a single
name, the member of that name. -/
def config_lookup_from (setting : config_setting_t) (path : String) : Option config_setting_t :=
  config_setting_get_member setting path

/-- Modelled from the spec: `config_setting_get_string`, the value of a string
setting, `none` (NULL) for any other setting. -/
def config_setting_get_string (setting : config_setting_t) : Option String :=
  match setting with
  | .string value => some value
  | _ => none

/-- Modelled from the spec: the elements of an array or list, in order. -/
def config_setting_elements (setting : config_setting_t) : List config_setting_t :=
  match setting with
  | .array elements => elements
  | .list elements => elements
  | .group members => members.map (fun m => m.2)
  | _ => []

/-- Modelled from the spec: `config_setting_length`, the number of elements of
an aggregate setting. -/
def config_setting_length (setting : config_setting_t) : Nat :=
  (config_setting_elements setting).length

/-- Modelled from the spec: `config_setting_get_string_elem`, the string value
of the element at `index`, `none` (NULL) when there is no such element or it
is not a string. -/
def config_setting_get_string_elem (setting : config_setting_t) (index : Nat) : Option String :=
  match (config_setting_elements setting)[index]? with
  | some element => config_setting_get_string element
  | none => none

/-- Modelled from the spec: `blade_upstreammgr_localid_set`. -/
def blade_upstreammgr_localid_set (bh : blade_handle_t) (id : Option String) : blade_handle_t :=
  { bh with upstreammgr := { bh.upstreammgr with localid := id } }

/-- Modelled from the spec: `blade_upstreammgr_masterid_set`. -/
def blade_upstreammgr_masterid_set (bh : blade_handle_t) (id : Option String) : blade_handle_t :=
  { bh with upstreammgr := { bh.upstreammgr with masterid := id } }

/-- Modelled from the spec: `blade_upstreammgr_realm_add` puts the realm into
the set of accepted realms. -/
def blade_upstreammgr_realm_add (bh : blade_handle_t) (realm : String) : blade_handle_t :=
  { bh with upstreammgr := { bh.upstreammgr with realms :=
      if realm ∈ bh.upstreammgr.realms then bh.upstreammgr.realms
      else bh.upstreammgr.realms ++ [realm] } }

/-- The loop of `blade_handle_config` over the indices of `master.realms`: each
element must be a string and is added to the realms; the first element that is
not stops the loop with `KS_STATUS_FAIL`. -/
def blade_handle_config_realms (master_realms : config_setting_t) :
    List Nat → blade_handle_t → ks_status_t × blade_handle_t
  | [], bh => (.KS_STATUS_SUCCESS, bh)
  | index :: rest, bh =>
    match config_setting_get_string_elem master_realms index with
    | none => (.KS_STATUS_FAIL, bh)
    | some realm => blade_handle_config_realms master_realms rest
        (blade_upstreammgr_realm_add bh realm)

/-- The configuration step `blade_handle_config(bh, config)`; `config` is
`none` for a NULL pointer. -/
def blade_handle_config (bh : blade_handle_t) (config : Option config_setting_t) :
    ks_status_t × blade_handle_t :=
  match config with
  | none => (.KS_STATUS_FAIL, bh)
  | some config =>
    if !config_setting_is_group config then (.KS_STATUS_FAIL, bh)
    else
      match config_setting_get_member config "master" with
      | none => (.KS_STATUS_SUCCESS, bh)
      | some master =>
        let after_nodeid : ks_status_t × blade_handle_t :=
          match config_lookup_from master "nodeid" with
          | some master_nodeid =>
            if config_setting_type master_nodeid != .CONFIG_TYPE_STRING then (.KS_STATUS_FAIL, bh)
            else
              let nodeid := config_setting_get_string master_nodeid
              (.KS_STATUS_SUCCESS,
                blade_upstreammgr_masterid_set (blade_upstreammgr_localid_set bh nodeid) nodeid)
          | none => (.KS_STATUS_SUCCESS, bh)
        if after_nodeid.1 != .KS_STATUS_SUCCESS then after_nodeid
        else
          let bh := after_nodeid.2
          match config_lookup_from master "realms" with
          | some master_realms =>
            if config_setting_type master_realms != .CONFIG_TYPE_LIST then (.KS_STATUS_FAIL, bh)
            else
              let realms_length := config_setting_length master_realms
              if realms_length > 0 then
                blade_handle_config_realms master_realms (List.range realms_length) bh
              else (.KS_STATUS_SUCCESS, bh)
          | none => (.KS_STATUS_SUCCESS, bh)

/-- Modelled from the spec: `blade_transport_wss_create`, the transport for
secure websockets. -/
def blade_transport_wss_create : blade_transport_t := { name := "wss" }

/-- Modelled from the spec: `blade_transportmgr_default_set`. -/
def blade_transportmgr_default_set (bh : blade_handle_t) (bt : blade_transport_t) :
    blade_handle_t :=
  { bh with transportmgr := { bh.transportmgr with default_transport := some bt } }

/-- Modelled from the spec: `blade_transportmgr_transport_add` registers the
transport under its name. -/
def blade_transportmgr_transport_add (bh : blade_handle_t) (bt : blade_transport_t) :
    blade_handle_t :=
  let transports := bh.transportmgr.transports.filter (fun t => t.name != bt.name) ++ [bt]
  { bh with transportmgr := { bh.transportmgr with transports := transports } }

/-- Modelled from the spec: `blade_transportmgr_startup` starts the transport
listeners. -/
def blade_transportmgr_startup (bh : blade_handle_t) (_config : Option config_setting_t) :
    blade_handle_t :=
  { bh with transportmgr := { bh.transportmgr with started := true } }

/-- Modelled from the spec: `blade_rpc_create(&brpc, bh, method, protocol,
realm, callback, data)` for a core RPC. -/
def blade_rpc_create (method : String) (protocol : Option String) (realm : Option String)
    (callback : core_rpc) (data : Data) : blade_corerpc_t :=
  { method := method, protocol := protocol, realm := realm, callback := callback, data := data }

/-- Modelled from the spec: `blade_rpcmgr_corerpc_add` enters the RPC into
`core_rpcs` under its method name. -/
def blade_rpcmgr_corerpc_add (bh : blade_handle_t) (brpc : blade_corerpc_t) : blade_handle_t :=
  { bh with corerpcs := bh.corerpcs.filter (fun r => r.method != brpc.method) ++ [brpc] }

/-- The startup `blade_handle_startup(bh, config)`. -/
def blade_handle_startup (bh : blade_handle_t) (config : Option config_setting_t) :
    ks_status_t × blade_handle_t :=
  let configured := blade_handle_config bh config
  if configured.1 != .KS_STATUS_SUCCESS then (.KS_STATUS_FAIL, configured.2)
  else
    let bh := configured.2
    let bt := blade_transport_wss_create
    let bh := blade_transportmgr_default_set bh bt
    let bh := blade_transportmgr_transport_add bh bt
    let bh := blade_rpcmgr_corerpc_add bh
      (blade_rpc_create "blade.register" none none .register 0)
    let bh := blade_rpcmgr_corerpc_add bh
      (blade_rpc_create "blade.publish" none none .publish 0)
    let bh := blade_rpcmgr_corerpc_add bh
      (blade_rpc_create "blade.locate" none none .locate 0)
    let bh := blade_rpcmgr_corerpc_add bh
      (blade_rpc_create "blade.execute" none none .execute 0)
    let bh := blade_rpcmgr_corerpc_add bh
      (blade_rpc_create "blade.subscribe" none none .subscribe 0)
    let bh := blade_rpcmgr_corerpc_add bh
      (blade_rpc_create "blade.broadcast" none none .broadcast 0)
    let bh := blade_transportmgr_startup bh config
    (.KS_STATUS_SUCCESS, bh)

/-! ## Connecting upstream -/

/-- Modelled from the spec: `blade_identity_parameter_get`, the value of a
parameter of the identity, `none` (NULL) when it has no such parameter. -/
def blade_identity_parameter_get (target : blade_identity_t) (key : String) : Option String :=
  (target.parameters.find? (fun p => p.1 == key)).map (fun p => p.2)

/-- Modelled from the spec: `blade_upstreammgr_session_established`, whether
the upstream session id is set. -/
def blade_upstreammgr_session_established (bh : blade_handle_t) : Bool :=
  bh.upstreammgr.sessionid.isSome

/-- Modelled from the spec: `blade_transportmgr_transport_lookup(btmgr, name,
ordefault)`, the transport registered under `name`, or the default transport
when there is none and `ordefault` is set. -/
def blade_transportmgr_transport_lookup (bh : blade_handle_t) (name : Option String)
    (ordefault : Bool) : Option blade_transport_t × blade_handle_t :=
  let found : Option blade_transport_t :=
    match name with
    | some name => bh.transportmgr.transports.find? (fun t => t.name == name)
    | none => none
  let bt : Option blade_transport_t :=
    match found with
    | some bt => some bt
    | none => if ordefault then bh.transportmgr.default_transport else none
  (bt, bh.emit (.transportmgr_transport_lookup name ordefault))

/-- The callback `onconnect` of a transport: the status of the connection
attempt toward `target`. -/
abbrev blade_transport_connect_callback_t :=
  blade_transport_t → blade_identity_t → Option String → ks_status_t

/-- The record `blade_transport_callbacks_t` of a transport, of which the core
reads `onconnect` (`none` for a NULL pointer). -/
structure blade_transport_callbacks_t where
  onconnect : Option blade_transport_connect_callback_t

/-- The call `blade_handle_connect(bh, bcP, target, session_id)`.  The
transports own their callbacks: `blade_transport_callbacks_get` is a parameter,
`none` for a transport without callbacks.  `none` as result is a failed
`ks_assert`. -/
def blade_handle_connect
    (blade_transport_callbacks_get : blade_transport_t → Option blade_transport_callbacks_t)
    (bh : blade_handle_t) (target : blade_identity_t) (session_id : Option String) :
    Option (ks_status_t × blade_handle_t) :=
  if blade_upstreammgr_session_established bh then some (.KS_STATUS_DUPLICATE_OPERATION, bh)
  else
    let looked := blade_transportmgr_transport_lookup bh
      (blade_identity_parameter_get target "transport") true
    match looked.1 with
    | none => none
    | some bt =>
      let bh := looked.2
      match blade_transport_callbacks_get bt with
      | none => none
      | some callbacks =>
        match callbacks.onconnect with
        | some onconnect =>
          some (onconnect bt target session_id,
            bh.emit (.transport_onconnect bt target session_id))
        | none => some (.KS_STATUS_SUCCESS, bh)

/-! ## Creation and destruction of the handle -/

/-- The managers a handle owns, the fields of `struct blade_handle_s`. -/
inductive blade_manager_t where
  | transportmgr
  | rpcmgr
  | routemgr
  | subscriptionmgr
  | upstreammgr
  | mastermgr
  | connectionmgr
  | sessionmgr
  deriving DecidableEq, Repr

/-- The actions `ks_pool_cleanup_action_t` a pool passes to a cleanup callback. -/
inductive ks_pool_cleanup_action_t where
  | KS_MPCL_ANNOUNCE
  | KS_MPCL_TEARDOWN
  | KS_MPCL_DESTROY
  deriving DecidableEq, Repr

/-- One step in the life of a handle. -/
inductive lifecycle_t where
  /-- the call `ks_pool_open(&pool)` -/
  | pool_open
  /-- the call `ks_thread_pool_create(&tpool, ...)` -/
  | thread_pool_create
  /-- the call `ks_pool_alloc(pool, sizeof(blade_handle_t))` -/
  | handle_alloc
  /-- the call `blade_<manager>_create(&bh-><manager>, bh)` -/
  | manager_create (manager : blade_manager_t)
  /-- the call `ks_pool_set_cleanup(pool, bh, NULL, blade_handle_cleanup)` -/
  | pool_set_cleanup
  /-- the call `blade_<manager>_shutdown(bh-><manager>)` -/
  | manager_shutdown (manager : blade_manager_t)
  /-- the call `blade_<manager>_destroy(&bh-><manager>)` -/
  | manager_destroy (manager : blade_manager_t)
  /-- the call `ks_thread_pool_destroy(&bh->tpool)` -/
  | thread_pool_destroy
  deriving DecidableEq, Repr

/-- The cleanup callback `blade_handle_cleanup(pool, ptr, arg, action, type)`:
the calls it makes, in order. -/
def blade_handle_cleanup (action : ks_pool_cleanup_action_t) : List lifecycle_t :=
  match action with
  | .KS_MPCL_ANNOUNCE => []
  | .KS_MPCL_TEARDOWN =>
    [ .manager_destroy .transportmgr,
      .manager_destroy .rpcmgr,
      .manager_destroy .routemgr,
      .manager_destroy .subscriptionmgr,
      .manager_destroy .upstreammgr,
      .manager_destroy .mastermgr,
      .manager_destroy .connectionmgr,
      .manager_destroy .sessionmgr,
      .thread_pool_destroy ]
  | .KS_MPCL_DESTROY => []

/-- The creation `blade_handle_create(bhP)`: the calls it makes, in order. -/
def blade_handle_create : List lifecycle_t :=
  [ .pool_open,
    .thread_pool_create,
    .handle_alloc,
    .manager_create .transportmgr,
    .manager_create .rpcmgr,
    .manager_create .routemgr,
    .manager_create .subscriptionmgr,
    .manager_create .upstreammgr,
    .manager_create .mastermgr,
    .manager_create .connectionmgr,
    .manager_create .sessionmgr,
    .pool_set_cleanup ]

/-- The shutdown `blade_handle_shutdown(bh)`: the calls it makes, in order. -/
def blade_handle_shutdown : List lifecycle_t :=
  [ .manager_shutdown .transportmgr,
    .manager_shutdown .connectionmgr,
    .manager_shutdown .sessionmgr ]

/-- Modelled from the spec: `ks_pool_close(&pool)` runs the cleanup callback
registered for the handle with each action in turn. -/
def ks_pool_close (cleanup : ks_pool_cleanup_action_t → List lifecycle_t) : List lifecycle_t :=
  cleanup .KS_MPCL_ANNOUNCE ++ cleanup .KS_MPCL_TEARDOWN ++ cleanup .KS_MPCL_DESTROY

/-- The destruction `blade_handle_destroy(bhP)`: the shutdown, then the close
of the pool. -/
def blade_handle_destroy : List lifecycle_t :=
  blade_handle_shutdown ++ ks_pool_close blade_handle_cleanup

/-! ## Derived notions and example data -/

/-- The controller node ids the registry holds for `(protocol, realm)`, none
when there is no record. -/
def registered_controllers (bh : blade_handle_t) (protocol : String) (realm : String) :
    List String :=
  match blade_mastermgr_protocol_lookup bh protocol realm with
  | some bp => blade_protocol_controllers_get bp
  | none => []

/-- Example data: a session that accepts every message. -/
def example_session (id : String) : blade_session_t :=
  { id := id, routes := [], send_ret := fun _ => .KS_STATUS_SUCCESS }

/-- Example data: a master node `m` owning realm `r`, with two downstream
sessions `s1` and `s2` and nothing registered yet. -/
def example_master : blade_handle_t :=
  { rpcmgr := []
    routemgr := []
    subscriptionmgr := []
    broadcast_ret := .KS_STATUS_SUCCESS
    upstreammgr := { localid := some "m", masterid := some "m", sessionid := none, realms := ["r"] }
    mastermgr := []
    sessionmgr := [example_session "s1", example_session "s2"]
    trace := [] }

/-- Example data: the params `{protocol:"p", realm:"r", requester-nodeid, responder-nodeid}`. -/
def example_params (requester : String) (responder : String) : cJSON :=
  .Object [(some "protocol", .String "p"), (some "realm", .String "r"),
    (some "requester-nodeid", .String requester), (some "responder-nodeid", .String responder)]

/-- Example data: the `blade.publish` request of node `c1` for `(p, r)`,
addressed to `m`, arriving on session `s1` with message id `1`. -/
def example_publish : blade_rpc_request_t :=
  { session_id := "s1"
    message := blade_rpc_request_raw_create "1" "blade.publish" (example_params "c1" "m")
    message_id := "1" }

/-- Example data: a `blade.locate` request of node `c2` for `(p, r)`, addressed
to `m`, arriving on session `s2` with message id `2`. -/
def example_locate : blade_rpc_request_t :=
  { session_id := "s2"
    message := blade_rpc_request_raw_create "2" "blade.locate" (example_params "c2" "m")
    message_id := "2" }

/-- Example data: the master `m` after `c1` has published `(p, r)`. -/
def example_master_published : blade_handle_t :=
  { example_master with mastermgr := [{ name := "p", realm := "r", controllers := ["c1"] }] }

/-- Example data: a `blade.publish` request of `c1` addressed to `x`, which is
not the master id, arriving on session `s1` with message id `5`. -/
def example_publish_misaddressed : blade_rpc_request_t :=
  { session_id := "s1"
    message := blade_rpc_request_raw_create "5" "blade.publish" (example_params "c1" "x")
    message_id := "5" }

/-- The method name `blade_handle_startup` registers the core RPC under. -/
def core_rpc.method : core_rpc → String
  | .register => "blade.register"
  | .publish => "blade.publish"
  | .locate => "blade.locate"
  | .execute => "blade.execute"
  | .subscribe => "blade.subscribe"
  | .broadcast => "blade.broadcast"

/-- The request handler `blade_handle_startup` binds to the core RPC; `mid` is
the message id drawn by a handler that generates a request of its own. -/
def core_rpc.handler (mid : String) :
    core_rpc → blade_handle_t → blade_rpc_request_t → Data → Option (Bool × blade_handle_t)
  | .register => blade_protocol_register_request_handler
  | .publish => blade_protocol_publish_request_handler
  | .locate => blade_protocol_locate_request_handler
  | .execute => blade_protocol_execute_request_handler
  | .subscribe => blade_protocol_subscribe_request_handler mid
  | .broadcast => blade_protocol_broadcast_request_handler

/-- The string params the handler of the core RPC reads with
`cJSON_GetObjectCstr` and refuses to go on without. -/
def core_rpc.required : core_rpc → List String
  | .register => ["nodeid"]
  | .publish => ["protocol", "realm", "requester-nodeid", "responder-nodeid"]
  | .locate => ["protocol", "realm", "requester-nodeid", "responder-nodeid"]
  | .execute => ["method", "protocol", "realm", "requester-nodeid", "responder-nodeid"]
  | .subscribe => ["event", "protocol", "realm"]
  | .broadcast => ["broadcaster-nodeid", "event", "protocol", "realm"]

/-- Example data: a `blade.subscribe` request without `event`, arriving on
session `s1` with message id `6`. -/
def example_subscribe_no_event : blade_rpc_request_t :=
  { session_id := "s1"
    message := blade_rpc_request_raw_create "6" "blade.subscribe"
      (.Object [(some "protocol", .String "p"), (some "realm", .String "r")])
    message_id := "6" }

/-- Example data: a protocol handler that answers synchronously. -/
def example_ping : blade_rpc_request_callback_t := fun _ _ => true

/-- Example data: the node `m` with the handler of `admin.ping` in `(p, r)`
registered with data `7`, and a route to node `c9` through session `s2`. -/
def example_node_with_ping : blade_handle_t :=
  { example_master with
    rpcmgr := [{ method := "admin.ping", protocol := some "p", realm := some "r",
                 callback := some example_ping, data := 7 }]
    routemgr := [("c9", "s2")] }

/-- Example data: the params of a `blade.execute` of `admin.ping` in `(p, r)`
from `c1` to `responder`. -/
def example_execute_params (responder : String) : cJSON :=
  .Object [(some "method", .String "admin.ping"), (some "protocol", .String "p"),
    (some "realm", .String "r"), (some "requester-nodeid", .String "c1"),
    (some "responder-nodeid", .String responder)]

/-- Example data: that `blade.execute` request, arriving on session `s1` with
message id `3`. -/
def example_execute (responder : String) : blade_rpc_request_t :=
  { session_id := "s1"
    message := blade_rpc_request_raw_create "3" "blade.execute" (example_execute_params responder)
    message_id := "3" }

/-- Example data: a child node `c1` of the master `m`, with the upstream
session `u` and no downstream route. -/
def example_child : blade_handle_t :=
  { rpcmgr := []
    routemgr := []
    subscriptionmgr := []
    broadcast_ret := .KS_STATUS_SUCCESS
    upstreammgr := { localid := some "c1", masterid := some "m", sessionid := some "u",
                     realms := [] }
    mastermgr := []
    sessionmgr := [example_session "u"]
    trace := [] }

/-- The `blade.execute` request the generator builds: the envelope with the
drawn message id and the params `method`, `protocol`, `realm`,
`requester-nodeid`, `responder-nodeid` and, when given, `params`. -/
def execute_request (mid : String) (localid : String) (nodeid : String) (method : String)
    (protocol : String) (realm : String) (params : Option cJSON) : cJSON :=
  .Object [(some "jsonrpc", .String "2.0"), (some "id", .String mid),
    (some "method", .String "blade.execute"),
    (some "params", .Object ([(some "method", .String method), (some "protocol", .String protocol),
      (some "realm", .String realm), (some "requester-nodeid", .String localid),
      (some "responder-nodeid", .String nodeid)] ++
      match params with
      | some params => [(some "params", params)]
      | none => []))]

/-- The `remove` flag of a request as the register and subscribe handlers read
it: set exactly when the params have a member `remove` that is the JSON
literal `true`. -/
def params_remove_flag (req_params : cJSON) : Bool :=
  match cJSON_GetObjectItem req_params "remove" with
  | some item => cJSON_IsTrue item
  | none => false

/-- The route set held on the session with the given id, empty when there is
no such session. -/
def session_routes (bh : blade_handle_t) (sessionid : String) : List String :=
  match bh.sessionmgr.find? (fun bs => bs.id == sessionid) with
  | some bs => bs.routes
  | none => []

/-- The session id the global route table records for a node id. -/
def route_of (bh : blade_handle_t) (nodeid : String) : Option String :=
  (bh.routemgr.find? (fun r => r.1 == nodeid)).map (fun r => r.2)

/-- Example data: a `blade.register` request for `nodeid` arriving on session
`sessionid` with message id `mid`, with `remove: true` when `remove` is set. -/
def example_register (sessionid : String) (mid : String) (nodeid : String) (remove : Bool) :
    blade_rpc_request_t :=
  { session_id := sessionid
    message := blade_rpc_request_raw_create mid "blade.register"
      (.Object ([(some "nodeid", .String nodeid)] ++
        if remove then [(some "remove", cJSON.True)] else []))
    message_id := mid }

/-- The subscribers the subscription tree holds for `(protocol, realm, event)`,
none when there is no record. -/
def subscribers_of (bh : blade_handle_t) (event : String) (protocol : String) (realm : String) :
    List String :=
  match blade_subscriptionmgr_subscription_lookup bh event protocol realm with
  | some bsub => blade_subscription_subscribers_get bsub
  | none => []

/-- The `blade.subscribe` request the raw generator builds: the envelope with
the drawn message id and the params `event`, `protocol`, `realm` and, for a
removal, `remove: true`. -/
def subscribe_request (mid : String) (event : String) (protocol : String) (realm : String)
    (remove : Bool) : cJSON :=
  .Object [(some "jsonrpc", .String "2.0"), (some "id", .String mid),
    (some "method", .String "blade.subscribe"),
    (some "params", .Object ([(some "event", .String event), (some "protocol", .String protocol),
      (some "realm", .String realm)] ++ if remove then [(some "remove", cJSON.True)] else []))]

/-- The requests sent on the session `sessionid` according to a trace: the
messages of its `session_send` events that have a `method`. -/
def requests_sent_on (sessionid : String) (trace : List Event) : List cJSON :=
  trace.filterMap (fun e =>
    match e with
    | .session_send sid json _ _ =>
      if sid == sessionid && (cJSON_GetObjectCstr json "method").isSome then some json else none
    | _ => none)

/-- A well-formed `blade.subscribe` wire request for the key
`(protocol, realm, event)`: a params object with these three strings. -/
def subscribe_wellformed (brpcreq : blade_rpc_request_t) (event : String) (protocol : String)
    (realm : String) : Prop :=
  ∃ req_params, cJSON_GetObjectItem brpcreq.message "params" = some req_params ∧
    cJSON_GetObjectCstr req_params "event" = some event ∧
    cJSON_GetObjectCstr req_params "protocol" = some protocol ∧
    cJSON_GetObjectCstr req_params "realm" = some realm

/-- The `remove` flag of a request. -/
def request_remove_flag (brpcreq : blade_rpc_request_t) : Bool :=
  match cJSON_GetObjectItem brpcreq.message "params" with
  | some req_params => params_remove_flag req_params
  | none => false

/-- The subscribe handler run over a sequence of wire requests, each paired
with the message id drawn should it propagate upstream. -/
def subscribe_requests_run (bh : blade_handle_t) :
    List (String × blade_rpc_request_t) → Option blade_handle_t
  | [] => some bh
  | (mid, brpcreq) :: rest =>
    match blade_protocol_subscribe_request_handler mid bh brpcreq 0 with
    | some (_, bh) => subscribe_requests_run bh rest
    | none => none

/-- The subscriber set of a key after one change, as the specification words
it: a removal takes the subscriber out, an addition puts it in. -/
def spec_subscribers_after (subscribers : List String) (subscriber : String) (remove : Bool) :
    List String :=
  if remove then subscribers.filter (fun n => n != subscriber)
  else if subscriber ∈ subscribers then subscribers else subscribers ++ [subscriber]

/-- The upstream emissions of the specification ("refcount at the edge") for a
sequence of changes `(message id, subscriber, remove)` to the subscriber set of
one key: a `blade.subscribe` for each change that takes the set from empty to
non-empty, a `blade.subscribe` with `remove: true` for each change that takes
it from non-empty to empty, nothing for any other change. -/
def spec_subscribe_emissions (event : String) (protocol : String) (realm : String) :
    List String → List (String × String × Bool) → List cJSON
  | _, [] => []
  | subscribers, (mid, subscriber, remove) :: rest =>
    let after := spec_subscribers_after subscribers subscriber remove
    (if subscribers.isEmpty && !after.isEmpty then
        [subscribe_request mid event protocol realm false]
      else if !subscribers.isEmpty && after.isEmpty then
        [subscribe_request mid event protocol realm true]
      else []) ++
    spec_subscribe_emissions event protocol realm after rest

/-- Example data: a `blade.subscribe` wire request for event `e` of `(p, r)`
arriving on session `sessionid` with message id `mid`. -/
def example_subscribe (sessionid : String) (mid : String) (remove : Bool) : blade_rpc_request_t :=
  { session_id := sessionid
    message := blade_rpc_request_raw_create mid "blade.subscribe"
      (.Object ([(some "event", .String "e"), (some "protocol", .String "p"),
        (some "realm", .String "r")] ++ if remove then [(some "remove", cJSON.True)] else []))
    message_id := mid }

/-- Example data: the intermediate node `c1` with the upstream session `u` and
the downstream sessions `d2` and `d3`. -/
def example_intermediate : blade_handle_t :=
  { example_child with
    sessionmgr := [example_session "u", example_session "d2", example_session "d3"] }

/-- Example data: an event callback that does not answer synchronously. -/
def example_on_event : blade_rpc_request_callback_t := fun _ _ => false

/-- Example data: the master `m` whose subscription tree holds, for event `e`
of `(p, r)`, the subscribers `s2` and `m` itself with the local callback
`example_on_event` and data `9`. -/
def example_master_subscribed : blade_handle_t :=
  { example_master with
    subscriptionmgr := [{ event := "e", protocol := "p", realm := "r",
                          subscribers := ["s2", "m"],
                          callback := some example_on_event, callback_data := 9 }] }

/-- Example data: a `blade.broadcast` request of `broadcaster` for event `e` of
`(p, r)`, arriving on session `s1` with message id `50`. -/
def example_broadcast (broadcaster : String) : blade_rpc_request_t :=
  { session_id := "s1"
    message := blade_rpc_request_raw_create "50" "blade.broadcast"
      (.Object [(some "broadcaster-nodeid", .String broadcaster), (some "event", .String "e"),
        (some "protocol", .String "p"), (some "realm", .String "r")])
    message_id := "50" }

/-- The result responses sent on the session `sessionid` according to a trace:
the messages of its `session_send` events that have a `result`. -/
def results_sent_on (sessionid : String) (trace : List Event) : List cJSON :=
  trace.filterMap (fun e =>
    match e with
    | .session_send sid json _ _ =>
      if sid == sessionid && (cJSON_GetObjectItem json "result").isSome then some json else none
    | _ => none)

/-- Example data: the configuration of the master `m` owning the realms `r`
and `q`. -/
def example_config : config_setting_t :=
  .group [("master", .group [("nodeid", .string "m"),
    ("realms", .list [.string "r", .string "q"])])]

/-- Example data: a handle on which nothing has been configured or registered. -/
def example_fresh : blade_handle_t :=
  { rpcmgr := []
    routemgr := []
    subscriptionmgr := []
    broadcast_ret := .KS_STATUS_SUCCESS
    upstreammgr := { localid := none, masterid := none, sessionid := none, realms := [] }
    mastermgr := []
    sessionmgr := []
    trace := [] }

/-- Example data: an identity to connect to over the transport `wss`. -/
def example_target : blade_identity_t :=
  { uri := "m@example.org", parameters := [("transport", "wss")] }

/-- Example data: every transport has a connect callback, which reports
success. -/
def example_transport_callbacks : blade_transport_t → Option blade_transport_callbacks_t :=
  fun _ => some { onconnect := some (fun _ _ _ => .KS_STATUS_SUCCESS) }

/-- The managers created according to a list of calls, in the order of their
creation. -/
def managers_allocated (calls : List lifecycle_t) : List blade_manager_t :=
  calls.filterMap (fun c =>
    match c with
    | .manager_create manager => some manager
    | _ => none)

/-- The managers destroyed according to a list of calls, in the order of their
destruction. -/
def managers_freed (calls : List lifecycle_t) : List blade_manager_t :=
  calls.filterMap (fun c =>
    match c with
    | .manager_destroy manager => some manager
    | _ => none)

/-- Whether, according to a list of calls, the manager `first` is destroyed and
the manager `second` is destroyed later. -/
def freed_before (calls : List lifecycle_t) (first second : blade_manager_t) : Bool :=
  decide (first ∈ managers_freed calls) && decide (second ∈ managers_freed calls) &&
    decide ((managers_freed calls).indexOf first < (managers_freed calls).indexOf second)

/-- The request a node receives on session `sessionid` when a peer sent it the
message `json` with id `mid`. -/
def received_request (sessionid : String) (mid : String) (json : cJSON) : blade_rpc_request_t :=
  { session_id := sessionid, message := json, message_id := mid }

/-- The params `{protocol, realm, requester-nodeid, responder-nodeid}` of a
request addressed to the master. -/
def master_request_params (P R L M : String) : cJSON :=
  .Object [(some "protocol", .String P), (some "realm", .String R),
    (some "requester-nodeid", .String L), (some "responder-nodeid", .String M)]

/-- The read-lock count of the session `sessionid` according to a trace: the
number of times it was obtained read-locked less the number of times it was
read-unlocked. -/
def read_lock_count (sessionid : String) (trace : List Event) : Int :=
  (trace.map (fun e =>
    match e with
    | .session_read_lock sid => if sid = sessionid then (1 : Int) else 0
    | .session_read_unlock sid => if sid = sessionid then (-1 : Int) else 0
    | _ => 0)).sum

/-- The subscription-record invariant for the local node id `localid`: in
every record of the subscription tree the local node id is among the
subscribers exactly when the record has a local callback installed. -/
def subscription_record_invariant (localid : String) (bh : blade_handle_t) : Bool :=
  bh.subscriptionmgr.all (fun bsub =>
    decide (localid ∈ blade_subscription_subscribers_get bsub) ==
      (blade_subscription_callback_get bsub).isSome)

/-- One step in the subscription history of a node: a local call of
`blade_protocol_subscribe` that adds (with a callback for the events), a local
call that removes (with whatever the caller passes as callback for the
events), or a `blade.subscribe` request from the wire given to the subscribe
request handler. -/
inductive subscribe_op where
  | local_add (mid event protocol realm : String)
      (callback : Option blade_rpc_response_callback_t) (data : Data)
      (event_callback : blade_rpc_request_callback_t) (event_data : Data)
  | local_remove (mid event protocol realm : String)
      (callback : Option blade_rpc_response_callback_t) (data : Data)
      (event_callback : Option blade_rpc_request_callback_t) (event_data : Data)
  | wire (mid : String) (brpcreq : blade_rpc_request_t) (data : Data)

/-- The state after one step of the subscription history, `none` when an
assertion fails. -/
def subscribe_op.run (bh : blade_handle_t) : subscribe_op → Option blade_handle_t
  | .local_add mid event protocol realm callback data event_callback event_data =>
    (blade_protocol_subscribe bh mid event protocol realm false callback data
      (some event_callback) event_data).map (fun r => r.2)
  | .local_remove mid event protocol realm callback data event_callback event_data =>
    (blade_protocol_subscribe bh mid event protocol realm true callback data
      event_callback event_data).map (fun r => r.2)
  | .wire mid brpcreq data =>
    (blade_protocol_subscribe_request_handler mid bh brpcreq data).map (fun r => r.2)

/-- The state after a sequence of steps of the subscription history. -/
def subscribe_ops_run : blade_handle_t → List subscribe_op → Option blade_handle_t
  | bh, [] => some bh
  | bh, op :: rest =>
    match op.run bh with
    | some bh => subscribe_ops_run bh rest
    | none => none

/-- Whether the step is not a local remove that passes a callback for the
events. -/
def subscribe_op.remove_without_callback : subscribe_op → Bool
  | .local_remove _ _ _ _ _ _ event_callback _ => event_callback.isNone
  | _ => true

/-- Whether the step is not a request from the wire arriving on a session
whose id is `localid`. -/
def subscribe_op.session_differs_from (localid : String) : subscribe_op → Bool
  | .wire _ brpcreq _ => brpcreq.session_id != localid
  | _ => true

/-- Whether the step is not a request from the wire on a session the session
manager of `bh` does not know. -/
def subscribe_op.on_known_session (bh : blade_handle_t) : subscribe_op → Bool
  | .wire _ brpcreq _ => bh.sessionmgr.any (fun bs => bs.id == brpcreq.session_id)
  | _ => true

/-! ## Auxiliary facts -/

/-- A session whose id is known to the session manager is found by the lookup,
which read-locks it. -/
theorem session_lookup_of_mem (bh : blade_handle_t) (sid : String)
    (h : sid ∈ bh.sessionmgr.map (fun bs => bs.id)) :
    ∃ bs, bs.id = sid ∧
      blade_sessionmgr_session_lookup bh sid = some (bs, bh.emit (.session_read_lock sid)) := by
  unfold blade_sessionmgr_session_lookup
  cases hf : bh.sessionmgr.find? (fun bs => bs.id == sid) with
  | none =>
    rw [List.find?_eq_none] at hf
    simp only [List.mem_map] at h
    obtain ⟨bs, hbs, hid⟩ := h
    have := hf bs hbs
    simp [hid] at this
  | some bs =>
    have hid : bs.id = sid := by
      have := List.find?_some hf
      simpa using this
    exact ⟨bs, hid, by simp [hid]⟩

/-- Looking a key up in a table whose matching entries were rewritten by a
function that keeps the key. -/
theorem find?_map_of_keep {α : Type} (p : α → Bool) (f : α → α) (l : List α)
    (hkeep : ∀ a, p (f a) = p a) :
    (l.map f).find? p = (l.find? p).map f := by
  induction l with
  | nil => rfl
  | cons a l ih =>
    simp only [List.map_cons, List.find?_cons, hkeep]
    cases p a <;> simp [ih]

/-- After `blade_mastermgr_controller_add` the record of `(protocol, realm)`
exists and holds the controller. -/
theorem controller_add_lookup (bh : blade_handle_t) (protocol realm controller : String) :
    ∃ bp, blade_mastermgr_protocol_lookup
        (blade_mastermgr_controller_add bh protocol realm controller) protocol realm = some bp ∧
      controller ∈ bp.controllers := by
  unfold blade_mastermgr_controller_add
  cases hl : blade_mastermgr_protocol_lookup bh protocol realm with
  | none =>
    refine ⟨{ name := protocol, realm := realm, controllers := [controller] }, ?_, by simp⟩
    unfold blade_mastermgr_protocol_lookup at hl ⊢
    simp [List.find?_append, hl]
  | some bp0 =>
    refine ⟨blade_protocol_controllers_add bp0 controller, ?_, ?_⟩
    · unfold blade_mastermgr_protocol_lookup at hl ⊢
      simp only []
      rw [find?_map_of_keep, hl]
      · have hk := List.find?_some hl
        simp only [] at hk
        simp only [Option.map_some', hk, if_true]
      · intro a
        by_cases h : (a.name == protocol && a.realm == realm) = true
        · simp only [h, if_true, blade_protocol_controllers_add]
        · rw [if_neg h]
    · unfold blade_protocol_controllers_add
      by_cases h : controller ∈ bp0.controllers <;> simp [h]

/-- The trace and the tables other than the registry are untouched by
`blade_mastermgr_controller_add`. -/
theorem controller_add_frame (bh : blade_handle_t) (protocol realm controller : String) :
    (blade_mastermgr_controller_add bh protocol realm controller).trace = bh.trace ∧
    (blade_mastermgr_controller_add bh protocol realm controller).sessionmgr = bh.sessionmgr ∧
    (blade_mastermgr_controller_add bh protocol realm controller).upstreammgr = bh.upstreammgr ∧
    (blade_mastermgr_controller_add bh protocol realm controller).routemgr = bh.routemgr ∧
    (blade_mastermgr_controller_add bh protocol realm controller).rpcmgr = bh.rpcmgr ∧
    (blade_mastermgr_controller_add bh protocol realm controller).subscriptionmgr =
      bh.subscriptionmgr := by
  unfold blade_mastermgr_controller_add
  cases blade_mastermgr_protocol_lookup bh protocol realm <;> simp

/-- The accepting path of the publish handler, in closed form. -/
theorem publish_handler_accept (bh : blade_handle_t) (brpcreq : blade_rpc_request_t)
    (data : Data) (req_params : cJSON) (P R X M : String)
    (hs : brpcreq.session_id ∈ bh.sessionmgr.map (fun bs => bs.id))
    (hparams : cJSON_GetObjectItem brpcreq.message "params" = some req_params)
    (hP : cJSON_GetObjectCstr req_params "protocol" = some P)
    (hR : cJSON_GetObjectCstr req_params "realm" = some R)
    (hX : cJSON_GetObjectCstr req_params "requester-nodeid" = some X)
    (hM : cJSON_GetObjectCstr req_params "responder-nodeid" = some M)
    (hmaster : bh.upstreammgr.masterid = some M) :
    blade_protocol_publish_request_handler bh brpcreq data = some (false,
      (((blade_mastermgr_controller_add (bh.emit (.session_read_lock brpcreq.session_id))
          P R X).emit
        (.session_send brpcreq.session_id
          (blade_rpc_response_raw_create brpcreq.message_id
            (.Object [(some "protocol", .String P), (some "realm", .String R),
              (some "requester-nodeid", .String X), (some "responder-nodeid", .String M)]))
          none 0)).emit
        (.session_read_unlock brpcreq.session_id))) := by
  obtain ⟨bs, hid, hl⟩ := session_lookup_of_mem bh brpcreq.session_id hs
  unfold blade_protocol_publish_request_handler
  simp only [blade_rpc_request_sessionid_get, blade_rpc_request_message_get,
    blade_rpc_request_messageid_get, hl, hparams, hP, hR, hX, hM,
    blade_upstreammgr_masterid_compare, blade_handle_t.emit, hmaster,
    blade_session_send, blade_session_read_unlock, hid]
  simp [cJSON_AddStringToObject, cJSON_AddItemToObject, cJSON_CreateObject, cJSON_CreateString]

/-- Appending string items one by one with `cJSON_AddItemToArray` to a node
created as an object leaves an object whose children are the strings, without
member names. -/
theorem foldl_AddItemToArray_Object (keys : List String) (child : List (Option String × cJSON)) :
    keys.foldl (fun controllers key => cJSON_AddItemToArray controllers (cJSON_CreateString key))
      (cJSON.Object child) =
    cJSON.Object (child ++ keys.map (fun key => (none, cJSON.String key))) := by
  induction keys generalizing child with
  | nil => simp
  | cons key keys ih =>
    simp only [List.foldl_cons, cJSON_AddItemToArray, cJSON_CreateString, List.map_cons]
    have h := ih (child ++ [(none, cJSON.String key)])
    simp only [cJSON_CreateString, cJSON_AddItemToArray] at h
    rw [h]
    simp

/-- The answering path of the locate handler, in closed form. -/
theorem locate_handler_accept (bh : blade_handle_t) (brpcreq : blade_rpc_request_t)
    (data : Data) (req_params : cJSON) (P R Y M : String)
    (hs : brpcreq.session_id ∈ bh.sessionmgr.map (fun bs => bs.id))
    (hparams : cJSON_GetObjectItem brpcreq.message "params" = some req_params)
    (hP : cJSON_GetObjectCstr req_params "protocol" = some P)
    (hR : cJSON_GetObjectCstr req_params "realm" = some R)
    (hY : cJSON_GetObjectCstr req_params "requester-nodeid" = some Y)
    (hM : cJSON_GetObjectCstr req_params "responder-nodeid" = some M)
    (hmaster : bh.upstreammgr.masterid = some M) :
    blade_protocol_locate_request_handler bh brpcreq data = some (false,
      (((bh.emit (.session_read_lock brpcreq.session_id)).emit
        (.session_send brpcreq.session_id
          (blade_rpc_response_raw_create brpcreq.message_id
            (.Object [(some "protocol", .String P), (some "realm", .String R),
              (some "requester-nodeid", .String Y), (some "responder-nodeid", .String M),
              (some "controllers",
                .Object ((registered_controllers bh P R).map
                  (fun key => (none, cJSON.String key))))]))
          none 0)).emit
        (.session_read_unlock brpcreq.session_id))) := by
  obtain ⟨bs, hid, hl⟩ := session_lookup_of_mem bh brpcreq.session_id hs
  unfold blade_protocol_locate_request_handler
  simp only [blade_rpc_request_sessionid_get, blade_rpc_request_message_get,
    blade_rpc_request_messageid_get, hl, hparams, hP, hR, hY, hM,
    blade_upstreammgr_masterid_compare, blade_handle_t.emit, hmaster,
    blade_session_send, blade_session_read_unlock, hid, registered_controllers,
    blade_mastermgr_protocol_lookup]
  cases hbp : bh.mastermgr.find? (fun bp => bp.name == P && bp.realm == R) with
  | none =>
    simp [cJSON_AddStringToObject, cJSON_AddItemToObject, cJSON_CreateObject, cJSON_CreateString]
  | some bp =>
    have hf := foldl_AddItemToArray_Object (blade_protocol_controllers_get bp) []
    simp only [List.nil_append] at hf
    simp only [cJSON_CreateString] at hf
    simp [cJSON_AddStringToObject, cJSON_AddItemToObject, cJSON_CreateObject, cJSON_CreateString,
      hf]

/-- The registry after `blade_mastermgr_controller_add`: the controller set of
the key gains the controller, every other controller set is as before. -/
theorem controller_add_registered (bh : blade_handle_t) (protocol realm controller : String)
    (protocol' realm' c : String) :
    c ∈ registered_controllers (blade_mastermgr_controller_add bh protocol realm controller)
        protocol' realm' ↔
      (c ∈ registered_controllers bh protocol' realm' ∨
        (protocol' = protocol ∧ realm' = realm ∧ c = controller)) := by
  unfold blade_mastermgr_controller_add
  cases hl : blade_mastermgr_protocol_lookup bh protocol realm with
  | none =>
    unfold registered_controllers blade_mastermgr_protocol_lookup at *
    simp only [List.find?_append]
    cases hl' : bh.mastermgr.find? (fun bp => bp.name == protocol' && bp.realm == realm') with
    | some bp' =>
      simp only [Option.or, blade_protocol_controllers_get]
      constructor
      · intro h; exact Or.inl h
      · rintro (h | ⟨h1, h2, _⟩)
        · exact h
        · subst h1 h2; rw [hl] at hl'; cases hl'
    | none =>
      by_cases hk : protocol' = protocol ∧ realm' = realm
      · obtain ⟨h1, h2⟩ := hk
        subst h1 h2
        simp [blade_protocol_controllers_get]
      · have : (protocol == protocol' && realm == realm') = false := by
          simp only [Bool.and_eq_false_imp, beq_iff_eq, beq_eq_false_iff_ne, ne_eq]
          intro h1 h2
          exact hk ⟨h1.symm, h2.symm⟩
        simp only [Option.or, List.find?_cons, this, List.find?_nil, List.not_mem_nil, false_or,
          false_iff]
        rintro ⟨h1, h2, _⟩
        exact hk ⟨h1, h2⟩
  | some bp0 =>
    unfold registered_controllers blade_mastermgr_protocol_lookup at *
    simp only []
    rw [find?_map_of_keep]
    · cases hl' : bh.mastermgr.find? (fun bp => bp.name == protocol' && bp.realm == realm') with
      | none => 
        simp only [Option.map_none', List.not_mem_nil, false_or]
        constructor
        · intro h; exact h.elim
        · rintro ⟨h1, h2, _⟩
          subst h1 h2; rw [hl] at hl'; cases hl'
      | some bp' =>
        have hk' := List.find?_some hl'
        simp only [Bool.and_eq_true, beq_iff_eq] at hk'
        simp only [Option.map_some', blade_protocol_controllers_get]
        by_cases hk : protocol' = protocol ∧ realm' = realm
        · obtain ⟨h1, h2⟩ := hk
          subst h1 h2
          simp only [hk'.1, hk'.2, beq_self_eq_true, Bool.and_self, if_true,
            blade_protocol_controllers_add, true_and]
          by_cases hc : controller ∈ bp'.controllers
          · simp only [hc, if_true]
            constructor
            · intro h; exact Or.inl h
            · rintro (h | h)
              · exact h
              · rw [h]; exact hc
          · simp [hc]
        · have hne : ¬ ((bp'.name == protocol && bp'.realm == realm) = true) := by
            simp only [Bool.and_eq_true, beq_iff_eq]
            rintro ⟨h1, h2⟩
            exact hk ⟨hk'.1.symm.trans h1, hk'.2.symm.trans h2⟩
          rw [if_neg hne]
          constructor
          · intro h; exact Or.inl h
          · rintro (h | ⟨h1, h2, _⟩)
            · exact h
            · exact (hk ⟨h1, h2⟩).elim
    · intro a
      by_cases h : (a.name == protocol && a.realm == realm) = true
      · simp only [h, if_true, blade_protocol_controllers_add]
      · rw [if_neg h]

/-! ## Publish and locate at the master -/

/-- C1. Publish/locate round trip at the master: from any registry state, once
the publish handler has accepted a `blade.publish` request
`{protocol:P, realm:R, requester-nodeid:X, responder-nodeid:M}` with `M` the
master id, the locate handler, given a well-formed `blade.locate` request for
`(P, R)` addressed to `M`, sends a result whose `controllers` collection
contains `X`. -/
theorem publish_then_locate_contains_publisher
    (bh : blade_handle_t) (pub loc : blade_rpc_request_t) (d1 d2 : Data)
    (pub_params loc_params : cJSON) (P R X Y M : String)
    (hmaster : bh.upstreammgr.masterid = some M)
    (hpub_s : pub.session_id ∈ bh.sessionmgr.map (fun bs => bs.id))
    (hpub : cJSON_GetObjectItem pub.message "params" = some pub_params)
    (hpubP : cJSON_GetObjectCstr pub_params "protocol" = some P)
    (hpubR : cJSON_GetObjectCstr pub_params "realm" = some R)
    (hpubX : cJSON_GetObjectCstr pub_params "requester-nodeid" = some X)
    (hpubM : cJSON_GetObjectCstr pub_params "responder-nodeid" = some M)
    (hloc_s : loc.session_id ∈ bh.sessionmgr.map (fun bs => bs.id))
    (hloc : cJSON_GetObjectItem loc.message "params" = some loc_params)
    (hlocP : cJSON_GetObjectCstr loc_params "protocol" = some P)
    (hlocR : cJSON_GetObjectCstr loc_params "realm" = some R)
    (hlocY : cJSON_GetObjectCstr loc_params "requester-nodeid" = some Y)
    (hlocM : cJSON_GetObjectCstr loc_params "responder-nodeid" = some M) :
    ∃ bh1 bh2 res res_result controllers,
      blade_protocol_publish_request_handler bh pub d1 = some (false, bh1) ∧
      blade_protocol_locate_request_handler bh1 loc d2 = some (false, bh2) ∧
      bh2.trace = bh1.trace ++
        [.session_read_lock loc.session_id,
         .session_send loc.session_id res none 0,
         .session_read_unlock loc.session_id] ∧
      cJSON_GetObjectItem res "result" = some res_result ∧
      cJSON_GetObjectItem res_result "controllers" = some controllers ∧
      cJSON.String X ∈ cJSON_GetArrayItems controllers := by
  have h1 := publish_handler_accept bh pub d1 pub_params P R X M hpub_s hpub hpubP hpubR hpubX
    hpubM hmaster
  obtain ⟨_, hfs, hfu, _, _, _⟩ := controller_add_frame
    (bh.emit (.session_read_lock pub.session_id)) P R X
  obtain ⟨bp, hbp, hmem⟩ := controller_add_lookup
    (bh.emit (.session_read_lock pub.session_id)) P R X
  generalize hbh1 : ((blade_mastermgr_controller_add (bh.emit (.session_read_lock pub.session_id))
    P R X).emit (.session_send pub.session_id
      (blade_rpc_response_raw_create pub.message_id
        (.Object [(some "protocol", .String P), (some "realm", .String R),
          (some "requester-nodeid", .String X), (some "responder-nodeid", .String M)]))
      none 0)).emit (.session_read_unlock pub.session_id) = bh1 at h1
  have hs1 : loc.session_id ∈ bh1.sessionmgr.map (fun bs => bs.id) := by
    rw [← hbh1]
    show loc.session_id ∈ (blade_mastermgr_controller_add
      (bh.emit (.session_read_lock pub.session_id)) P R X).sessionmgr.map (fun bs => bs.id)
    rw [hfs]
    exact hloc_s
  have hm1 : bh1.upstreammgr.masterid = some M := by
    rw [← hbh1]
    show (blade_mastermgr_controller_add
      (bh.emit (.session_read_lock pub.session_id)) P R X).upstreammgr.masterid = some M
    rw [hfu]
    exact hmaster
  have hreg : registered_controllers bh1 P R = bp.controllers := by
    rw [← hbh1]
    unfold registered_controllers blade_mastermgr_protocol_lookup at *
    simp only [blade_handle_t.emit] at hbp ⊢
    rw [hbp]
    rfl
  have h2 := locate_handler_accept bh1 loc d2 loc_params P R Y M hs1 hloc hlocP hlocR hlocY
    hlocM hm1
  refine ⟨bh1, _,
    blade_rpc_response_raw_create loc.message_id
      (.Object [(some "protocol", .String P), (some "realm", .String R),
        (some "requester-nodeid", .String Y), (some "responder-nodeid", .String M),
        (some "controllers", .Object ((registered_controllers bh1 P R).map
          (fun key => (none, cJSON.String key))))]),
    .Object [(some "protocol", .String P), (some "realm", .String R),
      (some "requester-nodeid", .String Y), (some "responder-nodeid", .String M),
      (some "controllers", .Object ((registered_controllers bh1 P R).map
        (fun key => (none, cJSON.String key))))],
    .Object ((registered_controllers bh1 P R).map (fun key => (none, cJSON.String key))),
    h1, h2, ?_, ?_, ?_, ?_⟩
  · simp [blade_handle_t.emit]
  · simp [blade_rpc_response_raw_create, cJSON_GetObjectItem, cJSON_AddItemToObject,
      cJSON_AddStringToObject, cJSON_CreateObject]
  · simp [cJSON_GetObjectItem]
  · rw [hreg]
    simp [cJSON_GetArrayItems, hmem]

/-- C1, instance: `c1` publishes `(p, r)` at master `m`, then `c2` locates it. -/
theorem publish_then_locate_contains_publisher_witness :
    ∃ bh1 bh2 res res_result controllers,
      blade_protocol_publish_request_handler example_master example_publish 0 =
        some (false, bh1) ∧
      blade_protocol_locate_request_handler bh1 example_locate 0 = some (false, bh2) ∧
      bh2.trace = bh1.trace ++
        [.session_read_lock "s2", .session_send "s2" res none 0, .session_read_unlock "s2"] ∧
      cJSON_GetObjectItem res "result" = some res_result ∧
      cJSON_GetObjectItem res_result "controllers" = some controllers ∧
      cJSON.String "c1" ∈ cJSON_GetArrayItems controllers :=
  publish_then_locate_contains_publisher example_master example_publish example_locate 0 0
    (example_params "c1" "m") (example_params "c2" "m") "p" "r" "c1" "c2" "m"
    rfl (by simp [example_master, example_publish, example_session]) rfl rfl rfl rfl rfl
    (by simp [example_master, example_locate, example_session]) rfl rfl rfl rfl rfl

/-- C2, evaluated: at the master `m` whose registry holds controller `c1` for
`(p, r)`, the locate handler answers the well-formed request of `c2` with one
result response having the members `protocol`, `realm`, `requester-nodeid`,
`responder-nodeid` and `controllers`; the node ids are the children of
`controllers`, but that member is created with `cJSON_CreateObject`, so it is
a JSON object with unnamed members and not a JSON array. -/
theorem locate_controllers_member_is_object :
    ∃ bh' res_result controllers,
      blade_protocol_locate_request_handler example_master_published example_locate 0 =
        some (false, bh') ∧
      bh'.trace =
        [.session_read_lock "s2",
         .session_send "s2" (blade_rpc_response_raw_create "2" res_result) none 0,
         .session_read_unlock "s2"] ∧
      res_result = .Object [(some "protocol", .String "p"), (some "realm", .String "r"),
        (some "requester-nodeid", .String "c2"), (some "responder-nodeid", .String "m"),
        (some "controllers", controllers)] ∧
      cJSON_GetArrayItems controllers = [.String "c1"] ∧
      controllers = .Object [(none, .String "c1")] ∧
      cJSON_IsArray controllers = false ∧
      controllers ≠ .Array [.String "c1"] :=
  ⟨_, _, _, rfl, rfl, rfl, rfl, rfl, rfl, by intro h; cases h⟩

/-- C3. A `blade.publish` request whose params hold the strings `protocol`,
`realm`, `requester-nodeid` and `responder-nodeid`, the last being the master
id, makes the publish handler add the requester to the controller set of
`(protocol, realm)` (no other controller set changes) and send exactly one
message, on the session the request arrived on: a result response with the
request's message id whose result echoes the four values. -/
theorem publish_handler_adds_controller_and_echoes
    (bh : blade_handle_t) (brpcreq : blade_rpc_request_t) (data : Data)
    (req_params : cJSON) (P R X M : String)
    (hs : brpcreq.session_id ∈ bh.sessionmgr.map (fun bs => bs.id))
    (hparams : cJSON_GetObjectItem brpcreq.message "params" = some req_params)
    (hP : cJSON_GetObjectCstr req_params "protocol" = some P)
    (hR : cJSON_GetObjectCstr req_params "realm" = some R)
    (hX : cJSON_GetObjectCstr req_params "requester-nodeid" = some X)
    (hM : cJSON_GetObjectCstr req_params "responder-nodeid" = some M)
    (hmaster : bh.upstreammgr.masterid = some M) :
    ∃ bh' res res_result,
      blade_protocol_publish_request_handler bh brpcreq data = some (false, bh') ∧
      X ∈ registered_controllers bh' P R ∧
      (∀ P' R' c, c ∈ registered_controllers bh' P' R' ↔
        (c ∈ registered_controllers bh P' R' ∨ (P' = P ∧ R' = R ∧ c = X))) ∧
      bh'.trace = bh.trace ++
        [.session_read_lock brpcreq.session_id,
         .session_send brpcreq.session_id res none 0,
         .session_read_unlock brpcreq.session_id] ∧
      cJSON_GetObjectCstr res "id" = some brpcreq.message_id ∧
      cJSON_GetObjectItem res "error" = none ∧
      cJSON_GetObjectItem res "result" = some res_result ∧
      cJSON_GetObjectCstr res_result "protocol" = some P ∧
      cJSON_GetObjectCstr res_result "realm" = some R ∧
      cJSON_GetObjectCstr res_result "requester-nodeid" = some X ∧
      cJSON_GetObjectCstr res_result "responder-nodeid" = some M := by
  have h1 := publish_handler_accept bh brpcreq data req_params P R X M hs hparams hP hR hX hM
    hmaster
  have hreg : ∀ P' R' c, c ∈ registered_controllers
      (((blade_mastermgr_controller_add (bh.emit (.session_read_lock brpcreq.session_id))
        P R X).emit
        (.session_send brpcreq.session_id
          (blade_rpc_response_raw_create brpcreq.message_id
            (.Object [(some "protocol", .String P), (some "realm", .String R),
              (some "requester-nodeid", .String X), (some "responder-nodeid", .String M)]))
          none 0)).emit
        (.session_read_unlock brpcreq.session_id)) P' R' ↔
      (c ∈ registered_controllers bh P' R' ∨ (P' = P ∧ R' = R ∧ c = X)) := by
    intro P' R' c
    exact controller_add_registered (bh.emit (.session_read_lock brpcreq.session_id)) P R X
      P' R' c
  obtain ⟨htr, _⟩ := controller_add_frame (bh.emit (.session_read_lock brpcreq.session_id)) P R X
  refine ⟨_, blade_rpc_response_raw_create brpcreq.message_id
      (.Object [(some "protocol", .String P), (some "realm", .String R),
        (some "requester-nodeid", .String X), (some "responder-nodeid", .String M)]),
    .Object [(some "protocol", .String P), (some "realm", .String R),
        (some "requester-nodeid", .String X), (some "responder-nodeid", .String M)],
    h1, ?_, hreg, ?_, ?_, ?_, ?_, ?_, ?_, ?_, ?_⟩
  · exact (hreg P R X).2 (Or.inr ⟨rfl, rfl, rfl⟩)
  · show ((blade_mastermgr_controller_add (bh.emit (.session_read_lock brpcreq.session_id))
      P R X).trace ++ _) ++ _ = _
    rw [htr]
    simp [blade_handle_t.emit]
  all_goals
    simp [blade_rpc_response_raw_create, cJSON_GetObjectCstr, cJSON_GetObjectItem,
      cJSON_AddItemToObject, cJSON_AddStringToObject, cJSON_CreateObject, cJSON_CreateString]

/-- C3, instance: the publish request of `c1` at the master `m`. -/
theorem publish_handler_adds_controller_and_echoes_witness :
    ∃ bh' res res_result,
      blade_protocol_publish_request_handler example_master example_publish 0 =
        some (false, bh') ∧
      "c1" ∈ registered_controllers bh' "p" "r" ∧
      (∀ P' R' c, c ∈ registered_controllers bh' P' R' ↔
        (c ∈ registered_controllers example_master P' R' ∨
          (P' = "p" ∧ R' = "r" ∧ c = "c1"))) ∧
      bh'.trace = example_master.trace ++
        [.session_read_lock example_publish.session_id,
         .session_send example_publish.session_id res none 0,
         .session_read_unlock example_publish.session_id] ∧
      cJSON_GetObjectCstr res "id" = some example_publish.message_id ∧
      cJSON_GetObjectItem res "error" = none ∧
      cJSON_GetObjectItem res "result" = some res_result ∧
      cJSON_GetObjectCstr res_result "protocol" = some "p" ∧
      cJSON_GetObjectCstr res_result "realm" = some "r" ∧
      cJSON_GetObjectCstr res_result "requester-nodeid" = some "c1" ∧
      cJSON_GetObjectCstr res_result "responder-nodeid" = some "m" :=
  publish_handler_adds_controller_and_echoes example_master example_publish 0
    (example_params "c1" "m") "p" "r" "c1" "m"
    (by simp [example_master, example_publish, example_session]) rfl rfl rfl rfl rfl rfl

/-- C4. A `blade.publish` request with all four string params whose
`responder-nodeid` is not the master id makes the publish handler send exactly
one message, the JSON-RPC error `-32602` "Invalid params responder-nodeid" on
the request's id, and change nothing else: the protocol registry (like every
other table) is as before. -/
theorem publish_handler_rejects_foreign_responder
    (bh : blade_handle_t) (brpcreq : blade_rpc_request_t) (data : Data)
    (req_params : cJSON) (P R X N : String)
    (hs : brpcreq.session_id ∈ bh.sessionmgr.map (fun bs => bs.id))
    (hparams : cJSON_GetObjectItem brpcreq.message "params" = some req_params)
    (hP : cJSON_GetObjectCstr req_params "protocol" = some P)
    (hR : cJSON_GetObjectCstr req_params "realm" = some R)
    (hX : cJSON_GetObjectCstr req_params "requester-nodeid" = some X)
    (hN : cJSON_GetObjectCstr req_params "responder-nodeid" = some N)
    (hmaster : bh.upstreammgr.masterid ≠ some N) :
    ∃ bh',
      blade_protocol_publish_request_handler bh brpcreq data = some (false, bh') ∧
      bh' = { bh with trace := bh.trace ++
        [.session_read_lock brpcreq.session_id,
         .session_send brpcreq.session_id
           (.Object [(some "jsonrpc", .String "2.0"), (some "id", .String brpcreq.message_id),
             (some "error", .Object [(some "code", .Number (-32602)),
               (some "message", .String "Invalid params responder-nodeid")])])
           none 0,
         .session_read_unlock brpcreq.session_id] } ∧
      bh'.mastermgr = bh.mastermgr ∧
      ∀ P' R', registered_controllers bh' P' R' = registered_controllers bh P' R' := by
  obtain ⟨bs, hid, hl⟩ := session_lookup_of_mem bh brpcreq.session_id hs
  refine ⟨_, ?_, rfl, rfl, fun _ _ => rfl⟩
  unfold blade_protocol_publish_request_handler
  simp only [blade_rpc_request_sessionid_get, blade_rpc_request_message_get,
    blade_rpc_request_messageid_get, hl, hparams, hP, hR, hX, hN,
    blade_upstreammgr_masterid_compare, blade_handle_t.emit,
    blade_session_send, blade_session_read_unlock, hid]
  simp [hmaster, blade_rpc_error_raw_create, cJSON_AddStringToObject, cJSON_AddItemToObject,
    cJSON_AddNumberToObject, cJSON_CreateObject, cJSON_CreateString]

/-- C4, instance: at the master `m`, a publish request addressed to `x`. -/
theorem publish_handler_rejects_foreign_responder_witness :
    ∃ bh',
      blade_protocol_publish_request_handler example_master example_publish_misaddressed 0 =
        some (false, bh') ∧
      bh' = { example_master with trace := example_master.trace ++
        [.session_read_lock example_publish_misaddressed.session_id,
         .session_send example_publish_misaddressed.session_id
           (.Object [(some "jsonrpc", .String "2.0"),
             (some "id", .String example_publish_misaddressed.message_id),
             (some "error", .Object [(some "code", .Number (-32602)),
               (some "message", .String "Invalid params responder-nodeid")])])
           none 0,
         .session_read_unlock example_publish_misaddressed.session_id] } ∧
      bh'.mastermgr = example_master.mastermgr ∧
      ∀ P' R', registered_controllers bh' P' R' = registered_controllers example_master P' R' :=
  publish_handler_rejects_foreign_responder example_master example_publish_misaddressed 0
    (example_params "c1" "x") "p" "r" "c1" "x"
    (by simp [example_master, example_publish_misaddressed, example_session])
    rfl rfl rfl rfl rfl (by simp [example_master])

/-! ## Missing params -/

/-- C5. For each of the six core request handlers: when the request has no
`params` object, or lacks one of the string params the handler requires, the
handler returns `false` and its whole effect is one message on the inbound
session, a JSON-RPC error with code `-32602` on the request's message id.
The resulting state differs from the initial one in the trace only, so the
route table, the sessions' route sets, the protocol registry and the
subscription tree are unchanged, and the trace gains no callback call and no
fan-out. -/
theorem core_handlers_reject_missing_params (mid : String) (rpc : core_rpc)
    (bh : blade_handle_t) (brpcreq : blade_rpc_request_t) (data : Data)
    (hs : brpcreq.session_id ∈ bh.sessionmgr.map (fun bs => bs.id))
    (hmissing : cJSON_GetObjectItem brpcreq.message "params" = none ∨
      ∃ req_params k, cJSON_GetObjectItem brpcreq.message "params" = some req_params ∧
        k ∈ rpc.required ∧ cJSON_GetObjectCstr req_params k = none) :
    ∃ message,
      rpc.handler mid bh brpcreq data = some (false,
        { bh with trace := bh.trace ++
          [.session_read_lock brpcreq.session_id,
           .session_send brpcreq.session_id
             (.Object [(some "jsonrpc", .String "2.0"), (some "id", .String brpcreq.message_id),
               (some "error", .Object [(some "code", .Number (-32602)),
                 (some "message", .String message)])])
             none 0,
           .session_read_unlock brpcreq.session_id] }) := by
  obtain ⟨bs, hid, hl⟩ := session_lookup_of_mem bh brpcreq.session_id hs
  have herr : ∀ msg : String,
      (some (false, blade_session_read_unlock
        (blade_session_send (bh.emit (.session_read_lock brpcreq.session_id)) bs
          (blade_rpc_error_raw_create (blade_rpc_request_messageid_get brpcreq) (-32602) msg)
          none 0).2 bs) : Option (Bool × blade_handle_t)) =
      some (false,
        { bh with trace := bh.trace ++
          [.session_read_lock brpcreq.session_id,
           .session_send brpcreq.session_id
             (.Object [(some "jsonrpc", .String "2.0"), (some "id", .String brpcreq.message_id),
               (some "error", .Object [(some "code", .Number (-32602)),
                 (some "message", .String msg)])])
             none 0,
           .session_read_unlock brpcreq.session_id] }) := by
    intro msg
    simp [blade_session_read_unlock, blade_session_send, blade_handle_t.emit, hid,
      blade_rpc_error_raw_create, blade_rpc_request_messageid_get, cJSON_AddStringToObject,
      cJSON_AddItemToObject, cJSON_AddNumberToObject, cJSON_CreateObject, cJSON_CreateString]
  rcases hmissing with hnone | ⟨req_params, k, hparams, hk, hkn⟩
  · cases rpc <;>
      exact ⟨_, by
        simp only [core_rpc.handler]
        first
          | unfold blade_protocol_register_request_handler
          | unfold blade_protocol_publish_request_handler
          | unfold blade_protocol_locate_request_handler
          | unfold blade_protocol_execute_request_handler
          | unfold blade_protocol_subscribe_request_handler
          | unfold blade_protocol_broadcast_request_handler
        simp only [blade_rpc_request_sessionid_get, blade_rpc_request_message_get, hl, hnone]
        exact herr _⟩
  · cases rpc <;>
      simp only [core_rpc.required, List.mem_cons, List.mem_singleton, List.not_mem_nil,
        or_false] at hk <;>
      simp only [core_rpc.handler] <;>
      first
        | unfold blade_protocol_register_request_handler
        | unfold blade_protocol_publish_request_handler
        | unfold blade_protocol_locate_request_handler
        | unfold blade_protocol_execute_request_handler
        | unfold blade_protocol_subscribe_request_handler
        | unfold blade_protocol_broadcast_request_handler
    all_goals
      simp only [blade_rpc_request_sessionid_get, blade_rpc_request_message_get, hl, hparams]
    all_goals
      rcases hk with rfl | rfl | rfl | rfl | rfl
    all_goals
      simp only [hkn]
    all_goals
      repeat' split
    all_goals
      exact ⟨_, herr _⟩

/-- C5, instance: a `blade.subscribe` request without `event` at the master. -/
theorem core_handlers_reject_missing_params_witness :
    ∃ message,
      core_rpc.subscribe.handler "7" example_master example_subscribe_no_event 0 = some (false,
        { example_master with trace := example_master.trace ++
          [.session_read_lock example_subscribe_no_event.session_id,
           .session_send example_subscribe_no_event.session_id
             (.Object [(some "jsonrpc", .String "2.0"),
               (some "id", .String example_subscribe_no_event.message_id),
               (some "error", .Object [(some "code", .Number (-32602)),
                 (some "message", .String message)])])
             none 0,
           .session_read_unlock example_subscribe_no_event.session_id] }) :=
  core_handlers_reject_missing_params "7" .subscribe example_master example_subscribe_no_event 0
    (by simp [example_master, example_subscribe_no_event, example_session])
    (Or.inr ⟨.Object [(some "protocol", .String "p"), (some "realm", .String "r")], "event",
      rfl, by simp [core_rpc.required], rfl⟩)

/-! ## Execute: the request handler -/

/-- The execute handler on a well-formed request whose method is not in the
protocol RPC table, in closed form. -/
theorem execute_handler_unknown (bh : blade_handle_t) (brpcreq : blade_rpc_request_t)
    (data : Data) (req_params : cJSON) (method P R X N : String)
    (hs : brpcreq.session_id ∈ bh.sessionmgr.map (fun bs => bs.id))
    (hparams : cJSON_GetObjectItem brpcreq.message "params" = some req_params)
    (hmethod : cJSON_GetObjectCstr req_params "method" = some method)
    (hP : cJSON_GetObjectCstr req_params "protocol" = some P)
    (hR : cJSON_GetObjectCstr req_params "realm" = some R)
    (hX : cJSON_GetObjectCstr req_params "requester-nodeid" = some X)
    (hN : cJSON_GetObjectCstr req_params "responder-nodeid" = some N)
    (hnone : blade_rpcmgr_protocolrpc_lookup bh method P R = none) :
    blade_protocol_execute_request_handler bh brpcreq data = some (false,
      { bh with trace := bh.trace ++
        [.session_read_lock brpcreq.session_id,
         .session_send brpcreq.session_id
           (.Object [(some "jsonrpc", .String "2.0"), (some "id", .String brpcreq.message_id),
             (some "error", .Object [(some "code", .Number (-32602)),
               (some "message", .String "Unknown params method")])])
           none 0,
         .session_read_unlock brpcreq.session_id] }) := by
  obtain ⟨bs, hid, hl⟩ := session_lookup_of_mem bh brpcreq.session_id hs
  have hnone' : blade_rpcmgr_protocolrpc_lookup (bh.emit (.session_read_lock brpcreq.session_id))
      method P R = none := hnone
  unfold blade_protocol_execute_request_handler
  simp only [blade_rpc_request_sessionid_get, blade_rpc_request_message_get,
    blade_rpc_request_messageid_get, hl, hparams, hmethod, hP, hR, hX, hN, hnone']
  simp [blade_session_read_unlock, blade_session_send, blade_handle_t.emit, hid,
    blade_rpc_error_raw_create, cJSON_AddStringToObject,
    cJSON_AddItemToObject, cJSON_AddNumberToObject, cJSON_CreateObject, cJSON_CreateString]

/-- The execute handler on a well-formed request whose method is in the
protocol RPC table, in closed form: the registered callback, when there is
one, is called once and nothing is sent. -/
theorem execute_handler_known (bh : blade_handle_t) (brpcreq : blade_rpc_request_t)
    (data : Data) (req_params : cJSON) (method P R X N : String) (brpc : blade_rpc_t)
    (hs : brpcreq.session_id ∈ bh.sessionmgr.map (fun bs => bs.id))
    (hparams : cJSON_GetObjectItem brpcreq.message "params" = some req_params)
    (hmethod : cJSON_GetObjectCstr req_params "method" = some method)
    (hP : cJSON_GetObjectCstr req_params "protocol" = some P)
    (hR : cJSON_GetObjectCstr req_params "realm" = some R)
    (hX : cJSON_GetObjectCstr req_params "requester-nodeid" = some X)
    (hN : cJSON_GetObjectCstr req_params "responder-nodeid" = some N)
    (hsome : blade_rpcmgr_protocolrpc_lookup bh method P R = some brpc) :
    blade_protocol_execute_request_handler bh brpcreq data =
      match brpc.callback with
      | some h => some (h brpcreq brpc.data,
          { bh with trace := bh.trace ++
            [.session_read_lock brpcreq.session_id,
             .request_callback h brpcreq brpc.data,
             .session_read_unlock brpcreq.session_id] })
      | none => some (false,
          { bh with trace := bh.trace ++
            [.session_read_lock brpcreq.session_id,
             .session_read_unlock brpcreq.session_id] }) := by
  obtain ⟨bs, hid, hl⟩ := session_lookup_of_mem bh brpcreq.session_id hs
  have hsome' : blade_rpcmgr_protocolrpc_lookup (bh.emit (.session_read_lock brpcreq.session_id))
      method P R = some brpc := hsome
  unfold blade_protocol_execute_request_handler
  simp only [blade_rpc_request_sessionid_get, blade_rpc_request_message_get,
    blade_rpc_request_messageid_get, hl, hparams, hmethod, hP, hR, hX, hN, hsome',
    blade_rpc_callback_get, blade_rpc_callback_data_get]
  cases brpc.callback <;>
    simp [blade_session_read_unlock, blade_handle_t.emit, hid]

/-- C6, as stated, fails: at the node `m` with an empty protocol RPC table the
well-formed execute request for `admin.ping` is answered with error code
`-32602`, not `-32601`. -/
theorem execute_handler_unknown_method_code_not_32601 :
    blade_rpcmgr_protocolrpc_lookup example_master "admin.ping" "p" "r" = none ∧
    ∃ bh' res error,
      blade_protocol_execute_request_handler example_master (example_execute "m") 0 =
        some (false, bh') ∧
      bh'.trace =
        [.session_read_lock "s1", .session_send "s1" res none 0, .session_read_unlock "s1"] ∧
      cJSON_GetObjectItem res "error" = some error ∧
      cJSON_GetObjectItem error "code" = some (.Number (-32602)) ∧
      cJSON_GetObjectItem error "code" ≠ some (.Number (-32601)) :=
  ⟨rfl, _, _, _, rfl, rfl, rfl, rfl, by intro h; cases h⟩

/-- C6, amended. A well-formed `blade.execute` request whose
`(method, protocol, realm)` has no entry in the protocol RPC table is answered,
on the inbound session and the request's id, with the JSON-RPC error `-32602`
"Unknown params method"; no handler is called and nothing else changes. -/
theorem execute_handler_unknown_method_error
    (bh : blade_handle_t) (brpcreq : blade_rpc_request_t) (data : Data)
    (req_params : cJSON) (method P R X N : String)
    (hs : brpcreq.session_id ∈ bh.sessionmgr.map (fun bs => bs.id))
    (hparams : cJSON_GetObjectItem brpcreq.message "params" = some req_params)
    (hmethod : cJSON_GetObjectCstr req_params "method" = some method)
    (hP : cJSON_GetObjectCstr req_params "protocol" = some P)
    (hR : cJSON_GetObjectCstr req_params "realm" = some R)
    (hX : cJSON_GetObjectCstr req_params "requester-nodeid" = some X)
    (hN : cJSON_GetObjectCstr req_params "responder-nodeid" = some N)
    (hnone : blade_rpcmgr_protocolrpc_lookup bh method P R = none) :
    ∃ res error,
      blade_protocol_execute_request_handler bh brpcreq data = some (false,
        { bh with trace := bh.trace ++
          [.session_read_lock brpcreq.session_id,
           .session_send brpcreq.session_id res none 0,
           .session_read_unlock brpcreq.session_id] }) ∧
      cJSON_GetObjectCstr res "id" = some brpcreq.message_id ∧
      cJSON_GetObjectItem res "result" = none ∧
      cJSON_GetObjectItem res "error" = some error ∧
      cJSON_GetObjectItem error "code" = some (.Number (-32602)) ∧
      cJSON_GetObjectCstr error "message" = some "Unknown params method" :=
  ⟨_, _, execute_handler_unknown bh brpcreq data req_params method P R X N hs hparams hmethod
    hP hR hX hN hnone, rfl, rfl, rfl, rfl, rfl⟩

/-- C6, amended, instance: `admin.ping` at the node `m` with an empty table. -/
theorem execute_handler_unknown_method_error_witness :
    ∃ res error,
      blade_protocol_execute_request_handler example_master (example_execute "m") 0 =
        some (false,
        { example_master with trace := example_master.trace ++
          [.session_read_lock (example_execute "m").session_id,
           .session_send (example_execute "m").session_id res none 0,
           .session_read_unlock (example_execute "m").session_id] }) ∧
      cJSON_GetObjectCstr res "id" = some (example_execute "m").message_id ∧
      cJSON_GetObjectItem res "result" = none ∧
      cJSON_GetObjectItem res "error" = some error ∧
      cJSON_GetObjectItem error "code" = some (.Number (-32602)) ∧
      cJSON_GetObjectCstr error "message" = some "Unknown params method" :=
  execute_handler_unknown_method_error example_master (example_execute "m") 0
    (example_execute_params "m") "admin.ping" "p" "r" "c1" "m"
    (by simp [example_master, example_execute, example_session]) rfl rfl rfl rfl rfl rfl rfl

/-- C7. A well-formed `blade.execute` request addressed to the local node id
whose `(method, protocol, realm)` is registered in the protocol RPC table with
a handler `h`: the execute handler calls `h` exactly once, with the request
object and the data registered with `h`, sends no message of its own, and
returns the boolean `h` returned. -/
theorem execute_handler_invokes_registered_handler
    (bh : blade_handle_t) (brpcreq : blade_rpc_request_t) (data : Data)
    (req_params : cJSON) (method P R X N : String) (brpc : blade_rpc_t)
    (h : blade_rpc_request_callback_t)
    (hs : brpcreq.session_id ∈ bh.sessionmgr.map (fun bs => bs.id))
    (hparams : cJSON_GetObjectItem brpcreq.message "params" = some req_params)
    (hmethod : cJSON_GetObjectCstr req_params "method" = some method)
    (hP : cJSON_GetObjectCstr req_params "protocol" = some P)
    (hR : cJSON_GetObjectCstr req_params "realm" = some R)
    (hX : cJSON_GetObjectCstr req_params "requester-nodeid" = some X)
    (hN : cJSON_GetObjectCstr req_params "responder-nodeid" = some N)
    (_hlocal : bh.upstreammgr.localid = some N)
    (hregistered : blade_rpcmgr_protocolrpc_lookup bh method P R = some brpc)
    (hh : brpc.callback = some h) :
    blade_protocol_execute_request_handler bh brpcreq data = some (h brpcreq brpc.data,
      { bh with trace := bh.trace ++
        [.session_read_lock brpcreq.session_id,
         .request_callback h brpcreq brpc.data,
         .session_read_unlock brpcreq.session_id] }) := by
  have hk := execute_handler_known bh brpcreq data req_params method P R X N brpc hs hparams
    hmethod hP hR hX hN hregistered
  rw [hh] at hk
  exact hk

/-- C7, instance: `admin.ping` addressed to the node `m`, where it is
registered with data `7`. -/
theorem execute_handler_invokes_registered_handler_witness :
    blade_protocol_execute_request_handler example_node_with_ping (example_execute "m") 0 =
      some (example_ping (example_execute "m") 7,
      { example_node_with_ping with trace := example_node_with_ping.trace ++
        [.session_read_lock (example_execute "m").session_id,
         .request_callback example_ping (example_execute "m") 7,
         .session_read_unlock (example_execute "m").session_id] }) :=
  execute_handler_invokes_registered_handler example_node_with_ping (example_execute "m") 0
    (example_execute_params "m") "admin.ping" "p" "r" "c1" "m"
    { method := "admin.ping", protocol := some "p", realm := some "r",
      callback := some example_ping, data := 7 }
    example_ping
    (by simp [example_node_with_ping, example_master, example_execute, example_session])
    rfl rfl rfl rfl rfl rfl rfl rfl rfl

/-- C8, as stated, fails: the node `m` has a route to `c9` through session
`s2`, and the well-formed execute request for `admin.ping` arriving on `s1` is
addressed to `c9`; the execute handler nevertheless calls the locally
registered handler, and sends nothing on `s2` or on any other session. -/
theorem execute_handler_remote_responder_handled_locally :
    example_node_with_ping.upstreammgr.localid = some "m" ∧
    cJSON_GetObjectCstr (example_execute_params "c9") "responder-nodeid" = some "c9" ∧
    (blade_routemgr_route_lookup example_node_with_ping "c9").map (fun r => r.1.id) = some "s2" ∧
    ∃ bh',
      blade_protocol_execute_request_handler example_node_with_ping (example_execute "c9") 0 =
        some (true, bh') ∧
      bh'.trace =
        [.session_read_lock "s1",
         .request_callback example_ping (example_execute "c9") 7,
         .session_read_unlock "s1"] :=
  ⟨rfl, rfl, rfl, _, rfl, rfl⟩

/-- C8, amended. On a well-formed `blade.execute` request whose
`responder-nodeid` is not the local node id the execute handler never re-sends
the request: it consults the local protocol RPC table only.  When
`(method, protocol, realm)` is registered with a handler it calls that handler
once and returns its boolean, sending nothing; when the entry has no handler
it does nothing; when there is no entry its only message is the error
`-32602` on the inbound session. -/
theorem execute_handler_never_forwards
    (bh : blade_handle_t) (brpcreq : blade_rpc_request_t) (data : Data)
    (req_params : cJSON) (method P R X N : String)
    (hs : brpcreq.session_id ∈ bh.sessionmgr.map (fun bs => bs.id))
    (hparams : cJSON_GetObjectItem brpcreq.message "params" = some req_params)
    (hmethod : cJSON_GetObjectCstr req_params "method" = some method)
    (hP : cJSON_GetObjectCstr req_params "protocol" = some P)
    (hR : cJSON_GetObjectCstr req_params "realm" = some R)
    (hX : cJSON_GetObjectCstr req_params "requester-nodeid" = some X)
    (hN : cJSON_GetObjectCstr req_params "responder-nodeid" = some N)
    (_hremote : bh.upstreammgr.localid ≠ some N) :
    blade_protocol_execute_request_handler bh brpcreq data =
      match blade_rpcmgr_protocolrpc_lookup bh method P R with
      | some brpc =>
        match brpc.callback with
        | some h => some (h brpcreq brpc.data,
            { bh with trace := bh.trace ++
              [.session_read_lock brpcreq.session_id,
               .request_callback h brpcreq brpc.data,
               .session_read_unlock brpcreq.session_id] })
        | none => some (false,
            { bh with trace := bh.trace ++
              [.session_read_lock brpcreq.session_id,
               .session_read_unlock brpcreq.session_id] })
      | none => some (false,
          { bh with trace := bh.trace ++
            [.session_read_lock brpcreq.session_id,
             .session_send brpcreq.session_id
               (.Object [(some "jsonrpc", .String "2.0"), (some "id", .String brpcreq.message_id),
                 (some "error", .Object [(some "code", .Number (-32602)),
                   (some "message", .String "Unknown params method")])])
               none 0,
             .session_read_unlock brpcreq.session_id] }) := by
  cases hl : blade_rpcmgr_protocolrpc_lookup bh method P R with
  | none =>
    exact execute_handler_unknown bh brpcreq data req_params method P R X N hs hparams hmethod
      hP hR hX hN hl
  | some brpc =>
    exact execute_handler_known bh brpcreq data req_params method P R X N brpc hs hparams
      hmethod hP hR hX hN hl

/-- C8, amended, instance: `admin.ping` addressed to `c9`, arriving at `m`. -/
theorem execute_handler_never_forwards_witness :
    blade_protocol_execute_request_handler example_node_with_ping (example_execute "c9") 0 =
      match blade_rpcmgr_protocolrpc_lookup example_node_with_ping "admin.ping" "p" "r" with
      | some brpc =>
        match brpc.callback with
        | some h => some (h (example_execute "c9") brpc.data,
            { example_node_with_ping with trace := example_node_with_ping.trace ++
              [.session_read_lock (example_execute "c9").session_id,
               .request_callback h (example_execute "c9") brpc.data,
               .session_read_unlock (example_execute "c9").session_id] })
        | none => some (false,
            { example_node_with_ping with trace := example_node_with_ping.trace ++
              [.session_read_lock (example_execute "c9").session_id,
               .session_read_unlock (example_execute "c9").session_id] })
      | none => some (false,
          { example_node_with_ping with trace := example_node_with_ping.trace ++
            [.session_read_lock (example_execute "c9").session_id,
             .session_send (example_execute "c9").session_id
               (.Object [(some "jsonrpc", .String "2.0"),
                 (some "id", .String (example_execute "c9").message_id),
                 (some "error", .Object [(some "code", .Number (-32602)),
                   (some "message", .String "Unknown params method")])])
               none 0,
             .session_read_unlock (example_execute "c9").session_id] }) :=
  execute_handler_never_forwards example_node_with_ping (example_execute "c9") 0
    (example_execute_params "c9") "admin.ping" "p" "r" "c1" "c9"
    (by simp [example_node_with_ping, example_master, example_execute, example_session])
    rfl rfl rfl rfl rfl rfl (by simp [example_node_with_ping, example_master])

/-! ## Execute: the request generator -/

/-- A session returned by the session manager comes with its read lock
recorded, and nothing else changed. -/
theorem session_lookup_some (bh bh1 : blade_handle_t) (id : String) (bs : blade_session_t)
    (h : blade_sessionmgr_session_lookup bh id = some (bs, bh1)) :
    bh1 = bh.emit (.session_read_lock bs.id) := by
  unfold blade_sessionmgr_session_lookup at h
  cases hf : bh.sessionmgr.find? (fun bs => bs.id == id) with
  | none => rw [hf] at h; cases h
  | some bs' =>
    rw [hf] at h
    simp only [Option.some.injEq, Prod.mk.injEq] at h
    obtain ⟨h1, h2⟩ := h
    subst h1
    exact h2.symm

/-- A session returned by the route lookup comes with its read lock recorded. -/
theorem route_lookup_some (bh bh1 : blade_handle_t) (target : String) (bs : blade_session_t)
    (h : blade_routemgr_route_lookup bh target = some (bs, bh1)) :
    bh1 = bh.emit (.session_read_lock bs.id) := by
  unfold blade_routemgr_route_lookup at h
  cases hf : bh.routemgr.find? (fun r => r.1 == target) with
  | none => rw [hf] at h; cases h
  | some r =>
    rw [hf] at h
    exact session_lookup_some bh bh1 r.2 bs h

/-- The upstream session comes with its read lock recorded. -/
theorem upstream_session_some (bh bh1 : blade_handle_t) (bs : blade_session_t)
    (h : blade_upstreammgr_session_get bh = some (bs, bh1)) :
    bh1 = bh.emit (.session_read_lock bs.id) := by
  unfold blade_upstreammgr_session_get at h
  cases hf : bh.upstreammgr.sessionid with
  | none => rw [hf] at h; cases h
  | some sessionid =>
    rw [hf] at h
    exact session_lookup_some bh bh1 sessionid bs h

/-- The generator once a session has been chosen, in closed form. -/
theorem execute_generator_send (bh : blade_handle_t) (bs : blade_session_t) (mid nodeid method
    protocol realm L : String) (params : Option cJSON)
    (callback : Option blade_rpc_response_callback_t) (data : Data)
    (hL : bh.upstreammgr.localid = some L)
    (hfound : (match blade_routemgr_route_lookup bh nodeid with
      | some r => some r
      | none => blade_upstreammgr_session_get bh) =
      some (bs, bh.emit (.session_read_lock bs.id))) :
    blade_protocol_execute bh mid nodeid method protocol realm params callback data =
      some (bs.send_ret (execute_request mid L nodeid method protocol realm params),
        { bh with trace := bh.trace ++
          [.session_read_lock bs.id,
           .session_send bs.id (execute_request mid L nodeid method protocol realm params)
             callback data,
           .session_read_unlock bs.id] }) := by
  unfold blade_protocol_execute
  simp only [hfound]
  have hL' : blade_upstreammgr_localid_copy (bh.emit (.session_read_lock bs.id)) = some L := hL
  simp only [hL']
  cases params <;>
    simp [blade_session_read_unlock, blade_session_send, blade_handle_t.emit, execute_request,
      blade_rpc_request_raw_create, cJSON_AddStringToObject, cJSON_AddItemToObject,
      cJSON_CreateObject, cJSON_CreateString, cJSON_Duplicate]

/-- C9. The `blade.execute` generator chooses its session in this order: the
session the route table lookup of the target node id returns, if any;
otherwise the upstream session, if any.  With a session found (and the local
node id set, which the generator asserts) it sends exactly one
`blade.execute` request, on that session, together with the response callback,
and returns the status of that send.  With neither it returns `DISCONNECTED`
and the state, trace included, is untouched: nothing is sent and the response
callback is neither registered nor called. -/
theorem execute_generator_session_choice (bh : blade_handle_t) (mid nodeid method protocol
    realm : String) (params : Option cJSON) (callback : Option blade_rpc_response_callback_t)
    (data : Data) :
    (∀ bs bh1 L, blade_routemgr_route_lookup bh nodeid = some (bs, bh1) →
      bh.upstreammgr.localid = some L →
      blade_protocol_execute bh mid nodeid method protocol realm params callback data =
        some (bs.send_ret (execute_request mid L nodeid method protocol realm params),
          { bh with trace := bh.trace ++
            [.session_read_lock bs.id,
             .session_send bs.id (execute_request mid L nodeid method protocol realm params)
               callback data,
             .session_read_unlock bs.id] })) ∧
    (∀ bs bh1 L, blade_routemgr_route_lookup bh nodeid = none →
      blade_upstreammgr_session_get bh = some (bs, bh1) →
      bh.upstreammgr.localid = some L →
      blade_protocol_execute bh mid nodeid method protocol realm params callback data =
        some (bs.send_ret (execute_request mid L nodeid method protocol realm params),
          { bh with trace := bh.trace ++
            [.session_read_lock bs.id,
             .session_send bs.id (execute_request mid L nodeid method protocol realm params)
               callback data,
             .session_read_unlock bs.id] })) ∧
    (blade_routemgr_route_lookup bh nodeid = none →
      blade_upstreammgr_session_get bh = none →
      blade_protocol_execute bh mid nodeid method protocol realm params callback data =
        some (.KS_STATUS_DISCONNECTED, bh)) := by
  refine ⟨?_, ?_, ?_⟩
  · intro bs bh1 L hroute hL
    have hb := route_lookup_some bh bh1 nodeid bs hroute
    subst hb
    exact execute_generator_send bh bs mid nodeid method protocol realm L params callback data hL
      (by rw [hroute])
  · intro bs bh1 L hroute hup hL
    have hb := upstream_session_some bh bh1 bs hup
    subst hb
    exact execute_generator_send bh bs mid nodeid method protocol realm L params callback data hL
      (by rw [hroute, hup])
  · intro hroute hup
    unfold blade_protocol_execute
    simp only [hroute, hup]

/-- C9, instances: at the node `m` an execute for `c9` goes out on the routed
session `s2`; at the child `c1` an execute for `m` goes out on the upstream
session `u`; at the master `m`, without route and without upstream, an execute
for `zz` returns `DISCONNECTED`. -/
theorem execute_generator_session_choice_witness :
    blade_protocol_execute example_node_with_ping "8" "c9" "admin.ping" "p" "r" none none 0 =
      some (.KS_STATUS_SUCCESS,
        { example_node_with_ping with trace :=
          [.session_read_lock "s2",
           .session_send "s2" (execute_request "8" "m" "c9" "admin.ping" "p" "r" none) none 0,
           .session_read_unlock "s2"] }) ∧
    blade_protocol_execute example_child "9" "m" "admin.ping" "p" "r" (some .True) none 4 =
      some (.KS_STATUS_SUCCESS,
        { example_child with trace :=
          [.session_read_lock "u",
           .session_send "u" (execute_request "9" "c1" "m" "admin.ping" "p" "r" (some .True))
             none 4,
           .session_read_unlock "u"] }) ∧
    blade_protocol_execute example_master "10" "zz" "admin.ping" "p" "r" none none 0 =
      some (.KS_STATUS_DISCONNECTED, example_master) :=
  ⟨(execute_generator_session_choice example_node_with_ping "8" "c9" "admin.ping" "p" "r"
      none none 0).1 (example_session "s2")
      (example_node_with_ping.emit (.session_read_lock "s2")) "m" rfl rfl,
   (execute_generator_session_choice example_child "9" "m" "admin.ping" "p" "r"
      (some .True) none 4).2.1 (example_session "u")
      (example_child.emit (.session_read_lock "u")) "c1" rfl rfl rfl,
   (execute_generator_session_choice example_master "10" "zz" "admin.ping" "p" "r"
      none none 0).2.2 rfl rfl⟩

/-! ## Execute: the response helper -/

/-- C10. For a `blade.execute` request carrying `protocol`, `realm`,
`requester-nodeid` and `responder-nodeid` and a result JSON value `r`,
`blade_protocol_execute_response_send` sends one message on the session of the
request: it has the request's message id and a result object whose
`protocol`, `realm`, `requester-nodeid` and `responder-nodeid` are the
request's values and whose member `result` is `r`; hence
`blade_protocol_execute_response_result_get` on a response with that message
returns `r`. -/
theorem execute_response_send_envelope
    (bh : blade_handle_t) (brpcreq : blade_rpc_request_t)
    (req_params : cJSON) (P R X N : String) (r : cJSON)
    (hs : brpcreq.session_id ∈ bh.sessionmgr.map (fun bs => bs.id))
    (hparams : cJSON_GetObjectItem brpcreq.message "params" = some req_params)
    (hP : cJSON_GetObjectCstr req_params "protocol" = some P)
    (hR : cJSON_GetObjectCstr req_params "realm" = some R)
    (hX : cJSON_GetObjectCstr req_params "requester-nodeid" = some X)
    (hN : cJSON_GetObjectCstr req_params "responder-nodeid" = some N) :
    ∃ res res_result,
      blade_protocol_execute_response_send bh brpcreq (some r) =
        some { bh with trace := bh.trace ++
          [.session_read_lock brpcreq.session_id,
           .session_send brpcreq.session_id res none 0,
           .session_read_unlock brpcreq.session_id] } ∧
      cJSON_GetObjectCstr res "id" = some brpcreq.message_id ∧
      cJSON_GetObjectItem res "error" = none ∧
      cJSON_GetObjectItem res "result" = some res_result ∧
      cJSON_GetObjectCstr res_result "protocol" = some P ∧
      cJSON_GetObjectCstr res_result "realm" = some R ∧
      cJSON_GetObjectCstr res_result "requester-nodeid" = some X ∧
      cJSON_GetObjectCstr res_result "responder-nodeid" = some N ∧
      cJSON_GetObjectItem res_result "result" = some r ∧
      ∀ brpcres : blade_rpc_response_t, brpcres.message = res →
        blade_protocol_execute_response_result_get brpcres = some r := by
  obtain ⟨bs, hid, hl⟩ := session_lookup_of_mem bh brpcreq.session_id hs
  refine ⟨.Object [(some "jsonrpc", .String "2.0"), (some "id", .String brpcreq.message_id),
      (some "result", .Object [(some "protocol", .String P), (some "realm", .String R),
        (some "requester-nodeid", .String X), (some "responder-nodeid", .String N),
        (some "result", r)])],
    .Object [(some "protocol", .String P), (some "realm", .String R),
      (some "requester-nodeid", .String X), (some "responder-nodeid", .String N),
      (some "result", r)],
    ?_, rfl, rfl, rfl, rfl, rfl, rfl, rfl, rfl, ?_⟩
  · unfold blade_protocol_execute_response_send
    simp only [blade_rpc_request_sessionid_get, blade_rpc_request_message_get,
      blade_rpc_request_messageid_get, hl, hparams, hP, hR, hX, hN]
    simp [blade_session_read_unlock, blade_session_send, blade_handle_t.emit, hid,
      blade_rpc_response_raw_create, cJSON_AddStringToObject, cJSON_AddItemToObject,
      cJSON_CreateObject, cJSON_CreateString, cJSON_Duplicate]
  · intro brpcres hres
    unfold blade_protocol_execute_response_result_get blade_rpc_response_message_get
    rw [hres]
    rfl

/-- C10, instance: the handler of `admin.ping` at `m` answers the request of
`c1` with `{"pong":true}`. -/
theorem execute_response_send_envelope_witness :
    ∃ res res_result,
      blade_protocol_execute_response_send example_node_with_ping (example_execute "m")
        (some (.Object [(some "pong", .True)])) =
        some { example_node_with_ping with trace := example_node_with_ping.trace ++
          [.session_read_lock (example_execute "m").session_id,
           .session_send (example_execute "m").session_id res none 0,
           .session_read_unlock (example_execute "m").session_id] } ∧
      cJSON_GetObjectCstr res "id" = some (example_execute "m").message_id ∧
      cJSON_GetObjectItem res "error" = none ∧
      cJSON_GetObjectItem res "result" = some res_result ∧
      cJSON_GetObjectCstr res_result "protocol" = some "p" ∧
      cJSON_GetObjectCstr res_result "realm" = some "r" ∧
      cJSON_GetObjectCstr res_result "requester-nodeid" = some "c1" ∧
      cJSON_GetObjectCstr res_result "responder-nodeid" = some "m" ∧
      cJSON_GetObjectItem res_result "result" = some (.Object [(some "pong", .True)]) ∧
      ∀ brpcres : blade_rpc_response_t, brpcres.message = res →
        blade_protocol_execute_response_result_get brpcres =
          some (.Object [(some "pong", .True)]) :=
  execute_response_send_envelope example_node_with_ping (example_execute "m")
    (example_execute_params "m") "p" "r" "c1" "m" (.Object [(some "pong", .True)])
    (by simp [example_node_with_ping, example_master, example_execute, example_session])
    rfl rfl rfl rfl rfl

/-! ## Register: the request handler -/

/-- Looking up a key in a table from which the entries of another key were
dropped. -/
theorem find?_filter_of_ne {α : Type} (p q : α → Bool) (l : List α)
    (h : ∀ a, p a = true → q a = true) :
    (l.filter q).find? p = l.find? p := by
  induction l with
  | nil => rfl
  | cons a l ih =>
    by_cases hq : q a = true
    · simp only [List.filter_cons, hq, if_true, List.find?_cons, ih]
    · have hp : p a = false := by
        cases hpa : p a with
        | false => rfl
        | true => exact absurd (h a hpa) hq
      rw [List.filter_cons_of_neg hq, ih, List.find?_cons_of_neg]
      simp [hp]

/-- Looking up a key in a table from which the entries of that key were
dropped finds nothing. -/
theorem find?_filter_self {α : Type} (p q : α → Bool) (l : List α)
    (h : ∀ a, p a = true → q a = false) :
    (l.filter q).find? p = none := by
  rw [List.find?_eq_none]
  intro a ha
  rw [List.mem_filter] at ha
  intro hp
  have := h a hp
  rw [ha.2] at this
  cases this

/-- The register handler on a request with a string `nodeid`, in closed form. -/
theorem register_handler_wellformed (bh : blade_handle_t) (brpcreq : blade_rpc_request_t)
    (data : Data) (req_params : cJSON) (N : String)
    (hs : brpcreq.session_id ∈ bh.sessionmgr.map (fun bs => bs.id))
    (hparams : cJSON_GetObjectItem brpcreq.message "params" = some req_params)
    (hN : cJSON_GetObjectCstr req_params "nodeid" = some N) :
    blade_protocol_register_request_handler bh brpcreq data = some (false,
      { bh with
        sessionmgr :=
          if params_remove_flag req_params then
            bh.sessionmgr.map (fun s =>
              if s.id = brpcreq.session_id then
                { s with routes := s.routes.filter (fun n => n != N) }
              else s)
          else
            bh.sessionmgr.map (fun s =>
              if s.id = brpcreq.session_id then
                { s with routes := if N ∈ s.routes then s.routes else s.routes ++ [N] }
              else s)
        routemgr :=
          if params_remove_flag req_params then
            bh.routemgr.filter (fun r => r.1 != N)
          else
            bh.routemgr.filter (fun r => r.1 != N) ++ [(N, brpcreq.session_id)]
        trace := bh.trace ++
          [.session_read_lock brpcreq.session_id,
           .session_send brpcreq.session_id
             (.Object [(some "jsonrpc", .String "2.0"), (some "id", .String brpcreq.message_id),
               (some "result", .Object [])])
             none 0,
           .session_read_unlock brpcreq.session_id] }) := by
  obtain ⟨bs, hid, hl⟩ := session_lookup_of_mem bh brpcreq.session_id hs
  unfold blade_protocol_register_request_handler
  simp only [blade_rpc_request_sessionid_get, blade_rpc_request_message_get,
    blade_rpc_request_messageid_get, hl, hparams, hN]
  unfold params_remove_flag
  cases hr : cJSON_GetObjectItem req_params "remove" with
  | none =>
    simp [blade_session_read_unlock, blade_session_send, blade_handle_t.emit, hid,
      blade_routemgr_route_add, blade_session_route_add, blade_session_id_get,
      blade_rpc_response_raw_create, cJSON_AddStringToObject, cJSON_AddItemToObject,
      cJSON_CreateObject, cJSON_CreateString]
  | some item =>
    cases item <;>
      simp [blade_session_read_unlock, blade_session_send, blade_handle_t.emit, hid,
        blade_routemgr_route_add, blade_session_route_add, blade_session_id_get,
        blade_routemgr_route_remove, blade_session_route_remove, cJSON_IsTrue,
        blade_rpc_response_raw_create, cJSON_AddStringToObject, cJSON_AddItemToObject,
        cJSON_CreateObject, cJSON_CreateString]

/-- The `remove` flag is set exactly for the JSON literal `true`. -/
theorem params_remove_flag_iff (req_params : cJSON) :
    params_remove_flag req_params = true ↔
      cJSON_GetObjectItem req_params "remove" = some .True := by
  unfold params_remove_flag
  cases cJSON_GetObjectItem req_params "remove" with
  | none => simp
  | some item => cases item <;> simp [cJSON_IsTrue]

/-- Rewriting the route sets of the sessions with one id leaves the lookup of
a session by id in step. -/
theorem sessions_find?_map (l : List blade_session_t) (g : List String → List String)
    (S sid : String) :
    (l.map (fun s => if s.id = S then { s with routes := g s.routes } else s)).find?
        (fun bs => bs.id == sid) =
      (l.find? (fun bs => bs.id == sid)).map
        (fun s => if s.id = S then { s with routes := g s.routes } else s) := by
  apply find?_map_of_keep
  intro a
  by_cases h : a.id = S <;> simp [h]

/-- The route set of the session whose sets were rewritten. -/
theorem session_routes_map_self (bh bh' : blade_handle_t) (g : List String → List String)
    (S : String) (hS : S ∈ bh.sessionmgr.map (fun bs => bs.id))
    (h : bh'.sessionmgr = bh.sessionmgr.map
      (fun s => if s.id = S then { s with routes := g s.routes } else s)) :
    session_routes bh' S = g (session_routes bh S) := by
  obtain ⟨bs, hid, hl⟩ := session_lookup_of_mem bh S hS
  unfold blade_sessionmgr_session_lookup at hl
  unfold session_routes
  rw [h, sessions_find?_map]
  cases hf : bh.sessionmgr.find? (fun bs => bs.id == S) with
  | none => rw [hf] at hl; cases hl
  | some s =>
    have hk := List.find?_some hf
    simp only [beq_iff_eq] at hk
    simp [hk]

/-- The route sets of the other sessions. -/
theorem session_routes_map_other (bh bh' : blade_handle_t) (g : List String → List String)
    (S sid : String) (hne : sid ≠ S)
    (h : bh'.sessionmgr = bh.sessionmgr.map
      (fun s => if s.id = S then { s with routes := g s.routes } else s)) :
    session_routes bh' sid = session_routes bh sid := by
  unfold session_routes
  rw [h, sessions_find?_map]
  cases hf : bh.sessionmgr.find? (fun bs => bs.id == sid) with
  | none => rfl
  | some s =>
    have hk := List.find?_some hf
    simp only [beq_iff_eq] at hk
    have : ¬ s.id = S := by rw [hk]; exact hne
    simp [this]

/-- The route table after the entry of a node id was replaced. -/
theorem route_of_add (l : List (String × String)) (N S n : String) :
    ((l.filter (fun r => r.1 != N) ++ [(N, S)]).find? (fun r => r.1 == n)).map (fun r => r.2) =
      if n = N then some S else (l.find? (fun r => r.1 == n)).map (fun r => r.2) := by
  by_cases h : n = N
  · subst h
    rw [List.find?_append, find?_filter_self]
    · simp
    · intro a ha
      simp only [beq_iff_eq] at ha
      simp [ha]
  · rw [List.find?_append, find?_filter_of_ne]
    · simp only [if_neg h]
      cases l.find? (fun r => r.1 == n) with
      | some r => simp
      | none =>
        have : (N == n) = false := by simpa using fun h' => h h'.symm
        simp [List.find?_cons, this]
    · intro a ha
      simp only [beq_iff_eq] at ha
      simp only [bne_iff_ne, ne_eq, ha]
      exact h

/-- The route table after the entry of a node id was dropped. -/
theorem route_of_remove (l : List (String × String)) (N n : String) :
    ((l.filter (fun r => r.1 != N)).find? (fun r => r.1 == n)).map (fun r => r.2) =
      if n = N then none else (l.find? (fun r => r.1 == n)).map (fun r => r.2) := by
  by_cases h : n = N
  · subst h
    rw [find?_filter_self]
    · simp
    · intro a ha
      simp only [beq_iff_eq] at ha
      simp [ha]
  · rw [find?_filter_of_ne]
    · simp only [if_neg h]
    · intro a ha
      simp only [beq_iff_eq] at ha
      simp only [bne_iff_ne, ne_eq, ha]
      exact h

/-- C11. A `blade.register` request with a string `nodeid` N arriving on
session S: when `params.remove` is the JSON literal `true` the handler takes N
out of the route set of S and out of the global route table; otherwise
(`remove` absent or anything else) it puts N into the route set of S and
records `N → S` in the global route table.  The route sets of the other
sessions and the routes of the other node ids are untouched.  In both cases
the handler then sends exactly one message, the result response with the
request's id and an empty result object, on S; no request goes upstream. -/
theorem register_handler_updates_routes
    (bh : blade_handle_t) (brpcreq : blade_rpc_request_t) (data : Data)
    (req_params : cJSON) (N : String)
    (hs : brpcreq.session_id ∈ bh.sessionmgr.map (fun bs => bs.id))
    (hparams : cJSON_GetObjectItem brpcreq.message "params" = some req_params)
    (hN : cJSON_GetObjectCstr req_params "nodeid" = some N) :
    ∃ bh',
      blade_protocol_register_request_handler bh brpcreq data = some (false, bh') ∧
      bh'.trace = bh.trace ++
        [.session_read_lock brpcreq.session_id,
         .session_send brpcreq.session_id
           (.Object [(some "jsonrpc", .String "2.0"), (some "id", .String brpcreq.message_id),
             (some "result", .Object [])])
           none 0,
         .session_read_unlock brpcreq.session_id] ∧
      (cJSON_GetObjectItem req_params "remove" = some .True →
        session_routes bh' brpcreq.session_id =
          (session_routes bh brpcreq.session_id).filter (fun n => n != N) ∧
        N ∉ session_routes bh' brpcreq.session_id ∧
        route_of bh' N = none) ∧
      (cJSON_GetObjectItem req_params "remove" ≠ some .True →
        (∀ n, n ∈ session_routes bh' brpcreq.session_id ↔
          (n = N ∨ n ∈ session_routes bh brpcreq.session_id)) ∧
        N ∈ session_routes bh' brpcreq.session_id ∧
        route_of bh' N = some brpcreq.session_id) ∧
      (∀ sid, sid ≠ brpcreq.session_id → session_routes bh' sid = session_routes bh sid) ∧
      (∀ n, n ≠ N → route_of bh' n = route_of bh n) := by
  have hw := register_handler_wellformed bh brpcreq data req_params N hs hparams hN
  have hflag := params_remove_flag_iff req_params
  refine ⟨_, hw, rfl, ?_, ?_, ?_, ?_⟩
  · intro hrm
    have hf : params_remove_flag req_params = true := hflag.2 hrm
    have hroutes := session_routes_map_self bh
      { bh with sessionmgr := bh.sessionmgr.map (fun s =>
          if s.id = brpcreq.session_id then
            { s with routes := s.routes.filter (fun n => n != N) }
          else s) }
      (fun routes => routes.filter (fun n => n != N)) brpcreq.session_id hs rfl
    simp only [hf, if_true]
    refine ⟨hroutes, ?_, ?_⟩
    · show N ∉ session_routes { bh with sessionmgr := bh.sessionmgr.map (fun s =>
          if s.id = brpcreq.session_id then
            { s with routes := s.routes.filter (fun n => n != N) }
          else s) } brpcreq.session_id
      rw [hroutes]
      simp
    · unfold route_of
      simp only []
      rw [route_of_remove]
      simp
  · intro hrm
    have hf : params_remove_flag req_params = false := by
      cases h : params_remove_flag req_params with
      | false => rfl
      | true => exact absurd (hflag.1 h) hrm
    have hroutes := session_routes_map_self bh
      { bh with sessionmgr := bh.sessionmgr.map (fun s =>
          if s.id = brpcreq.session_id then
            { s with routes := if N ∈ s.routes then s.routes else s.routes ++ [N] }
          else s) }
      (fun routes => if N ∈ routes then routes else routes ++ [N]) brpcreq.session_id hs rfl
    simp only [hf]
    have hmem : ∀ n, n ∈ session_routes { bh with sessionmgr := bh.sessionmgr.map (fun s =>
          if s.id = brpcreq.session_id then
            { s with routes := if N ∈ s.routes then s.routes else s.routes ++ [N] }
          else s) } brpcreq.session_id ↔
        (n = N ∨ n ∈ session_routes bh brpcreq.session_id) := by
      intro n
      rw [hroutes]
      by_cases hin : N ∈ session_routes bh brpcreq.session_id
      · simp only [hin, if_true]
        constructor
        · intro h; exact Or.inr h
        · rintro (h | h)
          · rw [h]; exact hin
          · exact h
      · simp only [hin, if_false, List.mem_append, List.mem_singleton]
        constructor
        · rintro (h | h)
          · exact Or.inr h
          · exact Or.inl h
        · rintro (h | h)
          · exact Or.inr h
          · exact Or.inl h
    refine ⟨hmem, (hmem N).2 (Or.inl rfl), ?_⟩
    unfold route_of
    simp only [Bool.false_eq_true, if_false]
    rw [route_of_add]
    simp
  · intro sid hne
    by_cases hf : params_remove_flag req_params = true
    · simp only [hf, if_true]
      exact session_routes_map_other bh _ (fun routes => routes.filter (fun n => n != N))
        brpcreq.session_id sid hne rfl
    · simp only [hf]
      exact session_routes_map_other bh _
        (fun routes => if N ∈ routes then routes else routes ++ [N])
        brpcreq.session_id sid hne rfl
  · intro n hne
    unfold route_of
    by_cases hf : params_remove_flag req_params = true
    · simp only [hf, if_true]
      rw [route_of_remove, if_neg hne]
    · simp only [hf]
      simp only [Bool.false_eq_true, if_false]
      rw [route_of_add, if_neg hne]

/-- C11, instance: `c1` registers through session `s1` at the node `m`. -/
theorem register_handler_updates_routes_witness :
    ∃ bh',
      blade_protocol_register_request_handler example_master
        (example_register "s1" "11" "c1" false) 0 = some (false, bh') ∧
      bh'.trace =
        [.session_read_lock "s1",
         .session_send "s1"
           (.Object [(some "jsonrpc", .String "2.0"), (some "id", .String "11"),
             (some "result", .Object [])])
           none 0,
         .session_read_unlock "s1"] ∧
      "c1" ∈ session_routes bh' "s1" ∧
      route_of bh' "c1" = some "s1" ∧
      session_routes bh' "s2" = session_routes example_master "s2" :=
  let ⟨bh', h1, h2, _, hadd, hsessions, _⟩ :=
    register_handler_updates_routes example_master (example_register "s1" "11" "c1" false) 0
      (.Object [(some "nodeid", .String "c1")]) "c1"
      (by simp [example_master, example_register, example_session]) rfl rfl
  ⟨bh', h1, h2,
    (hadd (fun h => Option.noConfusion (h : (none : Option cJSON) = some cJSON.True))).2.1,
    (hadd (fun h => Option.noConfusion (h : (none : Option cJSON) = some cJSON.True))).2.2,
    hsessions "s2" (by decide)⟩

/-- C12, evaluated: from the node `m` with no route, `c1` is registered
through session `s1` and then through session `s2`: `c1` is now in the route
sets of both sessions while the global table maps it to `s2`.  The removal of
`c1` arriving on `s2` then empties the table entry and the set of `s2`, but
`c1` stays in the route set of `s1`. -/
theorem register_handler_same_node_on_two_sessions :
    ∃ bh1 bh2 bh3,
      blade_protocol_register_request_handler example_master
        (example_register "s1" "11" "c1" false) 0 = some (false, bh1) ∧
      blade_protocol_register_request_handler bh1
        (example_register "s2" "12" "c1" false) 0 = some (false, bh2) ∧
      blade_protocol_register_request_handler bh2
        (example_register "s2" "13" "c1" true) 0 = some (false, bh3) ∧
      example_master.routemgr = [] ∧
      session_routes example_master "s1" = [] ∧
      session_routes example_master "s2" = [] ∧
      route_of bh2 "c1" = some "s2" ∧
      session_routes bh2 "s1" = ["c1"] ∧
      session_routes bh2 "s2" = ["c1"] ∧
      route_of bh3 "c1" = none ∧
      session_routes bh3 "s1" = ["c1"] ∧
      session_routes bh3 "s2" = [] :=
  ⟨_, _, _, rfl, rfl, rfl, rfl, rfl, rfl, rfl, rfl, rfl, rfl, rfl, rfl⟩

/-! ## Subscribe: the subscription tree -/

/-- The subscription manager's `subscriber_add`, related to the subscriber set
of the key: on a tree whose record of the key, if any, has a subscriber, it
returns `true` exactly when the set was empty, the set afterwards is the set
with the target added, and nothing but the tree changes. -/
theorem subscriber_add_spec (bh : blade_handle_t) (E P R target : String)
    (hinv : ∀ bsub, blade_subscriptionmgr_subscription_lookup bh E P R = some bsub →
      bsub.subscribers ≠ []) :
    (blade_subscriptionmgr_subscriber_add bh E P R target).1 =
        (subscribers_of bh E P R).isEmpty ∧
      subscribers_of (blade_subscriptionmgr_subscriber_add bh E P R target).2 E P R =
        spec_subscribers_after (subscribers_of bh E P R) target false ∧
      subscribers_of (blade_subscriptionmgr_subscriber_add bh E P R target).2 E P R ≠ [] ∧
      (blade_subscriptionmgr_subscriber_add bh E P R target).2.sessionmgr = bh.sessionmgr ∧
      (blade_subscriptionmgr_subscriber_add bh E P R target).2.upstreammgr = bh.upstreammgr ∧
      (blade_subscriptionmgr_subscriber_add bh E P R target).2.trace = bh.trace := by
  unfold blade_subscriptionmgr_subscriber_add subscribers_of spec_subscribers_after
  cases hl : blade_subscriptionmgr_subscription_lookup bh E P R with
  | none =>
    unfold blade_subscriptionmgr_subscription_lookup at hl ⊢
    simp [List.find?_append, hl, blade_subscription_subscribers_get]
  | some bsub =>
    have hne := hinv bsub hl
    unfold blade_subscriptionmgr_subscription_lookup at hl ⊢
    have hk := List.find?_some hl
    simp only [] at hk
    have hfind : (bh.subscriptionmgr.map (fun bsub =>
        if (bsub.event == E && bsub.protocol == P && bsub.realm == R) = true then
          { bsub with subscribers :=
              if target ∈ bsub.subscribers then bsub.subscribers
              else bsub.subscribers ++ [target] }
        else bsub)).find? (fun bsub => bsub.event == E && bsub.protocol == P && bsub.realm == R) =
        some { bsub with subscribers :=
              if target ∈ bsub.subscribers then bsub.subscribers
              else bsub.subscribers ++ [target] } := by
      rw [find?_map_of_keep, hl]
      · simp only [Option.map_some', hk, if_true]
      · intro a
        by_cases h : (a.event == E && a.protocol == P && a.realm == R) = true
        · simp only [h, if_true]
        · rw [if_neg h]
    simp only [hfind, blade_subscription_subscribers_get, Bool.false_eq_true, if_false]
    refine ⟨?_, trivial, ?_, trivial, trivial, trivial⟩
    · cases hsub : bsub.subscribers with
      | nil => exact absurd hsub hne
      | cons a l => rfl
    · by_cases hmem : target ∈ bsub.subscribers
      · simp only [hmem, if_true]; exact hne
      · simp [hmem]

/-- The subscription manager's `subscriber_remove`, related to the subscriber
set of the key: it returns `true` exactly when the set was non-empty and is
empty afterwards, the set afterwards is the set without the target, a record
that is left has a subscriber, and nothing but the tree changes. -/
theorem subscriber_remove_spec (bh : blade_handle_t) (E P R target : String)
    (hinv : ∀ bsub, blade_subscriptionmgr_subscription_lookup bh E P R = some bsub →
      bsub.subscribers ≠ []) :
    (blade_subscriptionmgr_subscriber_remove bh E P R target).1 =
        (!(subscribers_of bh E P R).isEmpty &&
          (spec_subscribers_after (subscribers_of bh E P R) target true).isEmpty) ∧
      subscribers_of (blade_subscriptionmgr_subscriber_remove bh E P R target).2 E P R =
        spec_subscribers_after (subscribers_of bh E P R) target true ∧
      (∀ bsub, blade_subscriptionmgr_subscription_lookup
          (blade_subscriptionmgr_subscriber_remove bh E P R target).2 E P R = some bsub →
        bsub.subscribers ≠ []) ∧
      (blade_subscriptionmgr_subscriber_remove bh E P R target).2.sessionmgr = bh.sessionmgr ∧
      (blade_subscriptionmgr_subscriber_remove bh E P R target).2.upstreammgr = bh.upstreammgr ∧
      (blade_subscriptionmgr_subscriber_remove bh E P R target).2.trace = bh.trace := by
  unfold blade_subscriptionmgr_subscriber_remove subscribers_of spec_subscribers_after
  cases hl : blade_subscriptionmgr_subscription_lookup bh E P R with
  | none =>
    simp only [hl, List.isEmpty_nil, Bool.not_true, Bool.false_and, if_true, List.filter_nil,
      true_and]
    constructor
    · intro bsub h
      cases h
    · trivial
  | some bsub =>
    have hne := hinv bsub hl
    simp only [if_true, blade_subscription_subscribers_get]
    by_cases hdel : target ∈ bsub.subscribers ∧
        bsub.subscribers.filter (fun n => n != target) = []
    · rw [if_pos hdel]
      have hnone : blade_subscriptionmgr_subscription_lookup
          { bh with subscriptionmgr := bh.subscriptionmgr.filter (fun b =>
            !(b.event == E && b.protocol == P && b.realm == R)) } E P R = none := by
        unfold blade_subscriptionmgr_subscription_lookup
        apply find?_filter_self
        intro a ha
        simp [ha]
      simp only [hnone, hdel.2, List.isEmpty_nil, Bool.and_true]
      refine ⟨?_, trivial, ?_, trivial, trivial, trivial⟩
      · cases hsub : bsub.subscribers with
        | nil => exact absurd hsub hne
        | cons a l => rfl
      · intro b h; cases h
    · rw [if_neg hdel]
      have hfilter : bsub.subscribers.filter (fun n => n != target) ≠ [] := by
        intro hf
        apply hdel
        refine ⟨?_, hf⟩
        cases hsub : bsub.subscribers with
        | nil => exact absurd hsub hne
        | cons a l =>
          rw [hsub] at hf
          have ha : a ∈ List.filter (fun n => n != target) (a :: l) → False := by
            rw [hf]; intro h; cases h
          by_cases hat : a = target
          · rw [hat]; exact List.mem_cons_self _ _
          · exact (ha (List.mem_filter.2 ⟨List.mem_cons_self _ _, by simpa using hat⟩)).elim
      unfold blade_subscriptionmgr_subscription_lookup at hl ⊢
      have hk := List.find?_some hl
      simp only [] at hk
      have hfind : (bh.subscriptionmgr.map (fun b =>
          if (b.event == E && b.protocol == P && b.realm == R) = true then
            { b with subscribers := b.subscribers.filter (fun n => n != target) }
          else b)).find? (fun bsub => bsub.event == E && bsub.protocol == P && bsub.realm == R) =
          some { bsub with subscribers := bsub.subscribers.filter (fun n => n != target) } := by
        rw [find?_map_of_keep, hl]
        · simp only [Option.map_some', hk, if_true]
        · intro a
          by_cases h : (a.event == E && a.protocol == P && a.realm == R) = true
          · simp only [h, if_true]
          · rw [if_neg h]
      simp only [hfind]
      refine ⟨?_, trivial, ?_, trivial, trivial, trivial⟩
      · cases hf : bsub.subscribers.filter (fun n => n != target) with
        | nil => exact absurd hf hfilter
        | cons a l => simp
      · intro b h
        simp only [Option.some.injEq] at h
        rw [← h]
        exact hfilter

/-- The raw subscribe generator with an upstream session, in closed form. -/
theorem subscribe_raw_upstream (bh : blade_handle_t) (mid E P R U : String) (remove : Bool)
    (callback : Option blade_rpc_response_callback_t) (data : Data)
    (hup : bh.upstreammgr.sessionid = some U)
    (hU : U ∈ bh.sessionmgr.map (fun bs => bs.id)) :
    ∃ bs : blade_session_t, bs.id = U ∧
      blade_protocol_subscribe_raw bh mid E P R remove callback data =
        (bs.send_ret (subscribe_request mid E P R remove),
          { bh with trace := bh.trace ++
            [.session_read_lock U,
             .session_send U (subscribe_request mid E P R remove) callback data,
             .session_read_unlock U] }) := by
  obtain ⟨bs, hid, hl⟩ := session_lookup_of_mem bh U hU
  refine ⟨bs, hid, ?_⟩
  unfold blade_protocol_subscribe_raw blade_upstreammgr_session_get
  simp only [hup, hl]
  cases remove <;>
    simp [blade_session_read_unlock, blade_session_send, blade_handle_t.emit, hid,
      subscribe_request, blade_rpc_request_raw_create, cJSON_AddStringToObject,
      cJSON_AddItemToObject, cJSON_AddTrueToObject, cJSON_CreateObject, cJSON_CreateString]

/-- The subscribe handler on a well-formed request, in closed form. -/
theorem subscribe_handler_wellformed (mid : String) (bh : blade_handle_t)
    (brpcreq : blade_rpc_request_t) (data : Data) (req_params : cJSON) (E P R : String)
    (hs : brpcreq.session_id ∈ bh.sessionmgr.map (fun bs => bs.id))
    (hparams : cJSON_GetObjectItem brpcreq.message "params" = some req_params)
    (hE : cJSON_GetObjectCstr req_params "event" = some E)
    (hP : cJSON_GetObjectCstr req_params "protocol" = some P)
    (hR : cJSON_GetObjectCstr req_params "realm" = some R) :
    blade_protocol_subscribe_request_handler mid bh brpcreq data =
      some (false,
        (((if (if params_remove_flag req_params then
              blade_subscriptionmgr_subscriber_remove
                (bh.emit (.session_read_lock brpcreq.session_id)) E P R brpcreq.session_id
            else
              blade_subscriptionmgr_subscriber_add
                (bh.emit (.session_read_lock brpcreq.session_id)) E P R brpcreq.session_id).1
          then
            (blade_protocol_subscribe_raw
              (if params_remove_flag req_params then
                blade_subscriptionmgr_subscriber_remove
                  (bh.emit (.session_read_lock brpcreq.session_id)) E P R brpcreq.session_id
              else
                blade_subscriptionmgr_subscriber_add
                  (bh.emit (.session_read_lock brpcreq.session_id)) E P R brpcreq.session_id).2
              mid E P R (params_remove_flag req_params) none 0).2
          else
            (if params_remove_flag req_params then
              blade_subscriptionmgr_subscriber_remove
                (bh.emit (.session_read_lock brpcreq.session_id)) E P R brpcreq.session_id
            else
              blade_subscriptionmgr_subscriber_add
                (bh.emit (.session_read_lock brpcreq.session_id)) E P R brpcreq.session_id).2).emit
          (.session_send brpcreq.session_id
            (.Object [(some "jsonrpc", .String "2.0"), (some "id", .String brpcreq.message_id),
              (some "result", .Object [(some "event", .String E), (some "protocol", .String P),
                (some "realm", .String R)])])
            none 0)).emit
          (.session_read_unlock brpcreq.session_id))) := by
  obtain ⟨bs, hid, hl⟩ := session_lookup_of_mem bh brpcreq.session_id hs
  unfold blade_protocol_subscribe_request_handler
  simp only [blade_rpc_request_sessionid_get, blade_rpc_request_message_get,
    blade_rpc_request_messageid_get, hl, hparams, hE, hP, hR, blade_session_id_get, hid]
  simp only [params_remove_flag, blade_session_read_unlock, blade_session_send,
    blade_rpc_response_raw_create, cJSON_AddStringToObject,
    cJSON_AddItemToObject, cJSON_CreateObject, cJSON_CreateString, hid, List.nil_append,
    List.cons_append]

/-- The requests on a session according to a trace made of two parts. -/
theorem requests_sent_on_append (U : String) (t1 t2 : List Event) :
    requests_sent_on U (t1 ++ t2) = requests_sent_on U t1 ++ requests_sent_on U t2 := by
  unfold requests_sent_on
  exact List.filterMap_append _ _ _

/-- The part of the subscribe handler after the change to the tree, with an
upstream session: what is sent, and that nothing but the trace changes. -/
theorem subscribe_handler_propagation (changed : Bool × blade_handle_t) (bh : blade_handle_t)
    (S U mid E P R : String) (remove : Bool) (res : cJSON)
    (hfs : changed.2.sessionmgr = bh.sessionmgr)
    (hfu : changed.2.upstreammgr = bh.upstreammgr)
    (hft : changed.2.trace = bh.trace ++ [.session_read_lock S])
    (hup : bh.upstreammgr.sessionid = some U)
    (hU : U ∈ bh.sessionmgr.map (fun bs => bs.id))
    (hres : cJSON_GetObjectCstr res "method" = none) :
    ((((if changed.1 then (blade_protocol_subscribe_raw changed.2 mid E P R remove none 0).2
        else changed.2).emit (.session_send S res none 0)).emit
        (.session_read_unlock S)).sessionmgr = bh.sessionmgr) ∧
    ((((if changed.1 then (blade_protocol_subscribe_raw changed.2 mid E P R remove none 0).2
        else changed.2).emit (.session_send S res none 0)).emit
        (.session_read_unlock S)).upstreammgr = bh.upstreammgr) ∧
    ((((if changed.1 then (blade_protocol_subscribe_raw changed.2 mid E P R remove none 0).2
        else changed.2).emit (.session_send S res none 0)).emit
        (.session_read_unlock S)).subscriptionmgr = changed.2.subscriptionmgr) ∧
    ((((if changed.1 then (blade_protocol_subscribe_raw changed.2 mid E P R remove none 0).2
        else changed.2).emit (.session_send S res none 0)).emit
        (.session_read_unlock S)).trace =
      bh.trace ++ [.session_read_lock S] ++
        (if changed.1 then
          [.session_read_lock U,
           .session_send U (subscribe_request mid E P R remove) none 0,
           .session_read_unlock U]
         else []) ++
        [.session_send S res none 0, .session_read_unlock S]) ∧
    (requests_sent_on U (((if changed.1 then
          (blade_protocol_subscribe_raw changed.2 mid E P R remove none 0).2
        else changed.2).emit (.session_send S res none 0)).emit
        (.session_read_unlock S)).trace =
      requests_sent_on U bh.trace ++
        (if changed.1 then [subscribe_request mid E P R remove] else [])) := by
  obtain ⟨bs, _, hraw⟩ := subscribe_raw_upstream changed.2 mid E P R U remove none 0
    (by rw [hfu]; exact hup) (by rw [hfs]; exact hU)
  have hmethod : cJSON_GetObjectCstr (subscribe_request mid E P R remove) "method" =
      some "blade.subscribe" := by
    cases remove <;> rfl
  cases hc : changed.1 with
  | false =>
    simp only [Bool.false_eq_true, if_false, blade_handle_t.emit, hfs, hfu, hft,
      List.append_nil, List.append_assoc, List.singleton_append, true_and]
    simp [requests_sent_on, List.filterMap_append, hres]
  | true =>
    simp only [if_true, hraw, blade_handle_t.emit, hfs, hfu, hft,
      List.append_assoc, List.singleton_append, List.cons_append, true_and]
    simp [requests_sent_on, List.filterMap_append, hres, hmethod]

/-- One well-formed wire request at a node with an upstream session: the tree
follows the specification's subscriber set, and a request goes upstream
exactly on a transition between empty and non-empty. -/
theorem subscribe_handler_step (mid : String) (bh : blade_handle_t)
    (brpcreq : blade_rpc_request_t) (E P R U : String)
    (hs : brpcreq.session_id ∈ bh.sessionmgr.map (fun bs => bs.id))
    (hwf : subscribe_wellformed brpcreq E P R)
    (hup : bh.upstreammgr.sessionid = some U)
    (hU : U ∈ bh.sessionmgr.map (fun bs => bs.id))
    (hinv : ∀ bsub, blade_subscriptionmgr_subscription_lookup bh E P R = some bsub →
      bsub.subscribers ≠ []) :
    ∃ bh',
      blade_protocol_subscribe_request_handler mid bh brpcreq 0 = some (false, bh') ∧
      bh'.sessionmgr = bh.sessionmgr ∧
      bh'.upstreammgr = bh.upstreammgr ∧
      subscribers_of bh' E P R =
        spec_subscribers_after (subscribers_of bh E P R) brpcreq.session_id
          (request_remove_flag brpcreq) ∧
      (∀ bsub, blade_subscriptionmgr_subscription_lookup bh' E P R = some bsub →
        bsub.subscribers ≠ []) ∧
      requests_sent_on U bh'.trace = requests_sent_on U bh.trace ++
        spec_subscribe_emissions E P R (subscribers_of bh E P R)
          [(mid, brpcreq.session_id, request_remove_flag brpcreq)] := by
  obtain ⟨req_params, hparams, hE, hP, hR⟩ := hwf
  have hw := subscribe_handler_wellformed mid bh brpcreq 0 req_params E P R hs hparams hE hP hR
  have hflag : request_remove_flag brpcreq = params_remove_flag req_params := by
    unfold request_remove_flag
    rw [hparams]
  have hres : cJSON_GetObjectCstr
      (.Object [(some "jsonrpc", .String "2.0"), (some "id", .String brpcreq.message_id),
        (some "result", .Object [(some "event", .String E), (some "protocol", .String P),
          (some "realm", .String R)])]) "method" = none := rfl
  rw [hflag]
  cases hrm : params_remove_flag req_params with
  | false =>
    rw [hrm] at hw
    simp only [Bool.false_eq_true, if_false] at hw
    obtain ⟨h1, h2, h3, h4, h5, h6⟩ := subscriber_add_spec
      (bh.emit (.session_read_lock brpcreq.session_id)) E P R brpcreq.session_id hinv
    obtain ⟨p1, p2, p3, _, p5⟩ := subscribe_handler_propagation
      (blade_subscriptionmgr_subscriber_add (bh.emit (.session_read_lock brpcreq.session_id))
        E P R brpcreq.session_id) bh brpcreq.session_id U mid E P R false _ h4 h5 h6 hup hU hres
    have hlook : ∀ b : blade_handle_t, b.subscriptionmgr =
        (blade_subscriptionmgr_subscriber_add (bh.emit (.session_read_lock brpcreq.session_id))
          E P R brpcreq.session_id).2.subscriptionmgr →
        blade_subscriptionmgr_subscription_lookup b E P R =
          blade_subscriptionmgr_subscription_lookup
            (blade_subscriptionmgr_subscriber_add
              (bh.emit (.session_read_lock brpcreq.session_id))
              E P R brpcreq.session_id).2 E P R := by
      intro b hb
      unfold blade_subscriptionmgr_subscription_lookup
      rw [hb]
    refine ⟨_, hw, p1, p2, ?_, ?_, ?_⟩
    · unfold subscribers_of
      rw [hlook _ p3]
      exact h2
    · intro bsub hl
      rw [hlook _ p3] at hl
      have : subscribers_of (blade_subscriptionmgr_subscriber_add
          (bh.emit (.session_read_lock brpcreq.session_id))
          E P R brpcreq.session_id).2 E P R = bsub.subscribers := by
        unfold subscribers_of
        rw [hl]
        rfl
      rw [← this]
      exact h3
    · rw [p5, h1]
      have hne : (spec_subscribers_after (subscribers_of bh E P R) brpcreq.session_id
          false).isEmpty = false := by
        have h3' := h3
        rw [h2] at h3'
        cases hx : spec_subscribers_after
            (subscribers_of (bh.emit (.session_read_lock brpcreq.session_id)) E P R)
            brpcreq.session_id false with
        | nil => exact absurd hx h3'
        | cons a l =>
          have : subscribers_of (bh.emit (.session_read_lock brpcreq.session_id)) E P R =
            subscribers_of bh E P R := rfl
          rw [this] at hx
          rw [hx]; rfl
      have hsame : subscribers_of (bh.emit (.session_read_lock brpcreq.session_id)) E P R =
          subscribers_of bh E P R := rfl
      rw [hsame]
      simp only [spec_subscribe_emissions, hne, Bool.not_false, Bool.and_true,
        Bool.and_false, Bool.false_eq_true, if_false, List.append_nil]
  | true =>
    rw [hrm] at hw
    simp only [if_true] at hw
    obtain ⟨h1, h2, h3, h4, h5, h6⟩ := subscriber_remove_spec
      (bh.emit (.session_read_lock brpcreq.session_id)) E P R brpcreq.session_id hinv
    obtain ⟨p1, p2, p3, _, p5⟩ := subscribe_handler_propagation
      (blade_subscriptionmgr_subscriber_remove (bh.emit (.session_read_lock brpcreq.session_id))
        E P R brpcreq.session_id) bh brpcreq.session_id U mid E P R true _ h4 h5 h6 hup hU hres
    have hlook : ∀ b : blade_handle_t, b.subscriptionmgr =
        (blade_subscriptionmgr_subscriber_remove
          (bh.emit (.session_read_lock brpcreq.session_id))
          E P R brpcreq.session_id).2.subscriptionmgr →
        blade_subscriptionmgr_subscription_lookup b E P R =
          blade_subscriptionmgr_subscription_lookup
            (blade_subscriptionmgr_subscriber_remove
              (bh.emit (.session_read_lock brpcreq.session_id))
              E P R brpcreq.session_id).2 E P R := by
      intro b hb
      unfold blade_subscriptionmgr_subscription_lookup
      rw [hb]
    have hsame : subscribers_of (bh.emit (.session_read_lock brpcreq.session_id)) E P R =
        subscribers_of bh E P R := rfl
    rw [hsame] at h1 h2
    refine ⟨_, hw, p1, p2, ?_, ?_, ?_⟩
    · unfold subscribers_of
      rw [hlook _ p3]
      exact h2
    · intro bsub hl
      rw [hlook _ p3] at hl
      exact h3 bsub hl
    · rw [p5, h1]
      have hfirst : ((subscribers_of bh E P R).isEmpty &&
          !(spec_subscribers_after (subscribers_of bh E P R) brpcreq.session_id
            true).isEmpty) = false := by
        cases hx : subscribers_of bh E P R with
        | nil => simp [spec_subscribers_after]
        | cons a l => simp
      simp only [spec_subscribe_emissions, hfirst, Bool.false_eq_true, if_false,
        List.append_nil]

/-- C13. Subscribe refcount at a node with an upstream session, on a
subscription tree whose record of the key, if any, has a subscriber: for every
sequence of well-formed `blade.subscribe` wire requests for the key
`(protocol, realm, event)` the subscribe handler handles them all, and the
requests it sends on the upstream session are exactly the emissions of the
specification: one `blade.subscribe` with the same event, protocol and realm
for each request that takes the subscriber set from empty to non-empty, one
with `remove: true` for each request that takes it from non-empty to empty,
and nothing for any other request. -/
theorem subscribe_handler_refcount (E P R U : String)
    (reqs : List (String × blade_rpc_request_t)) (bh : blade_handle_t)
    (hup : bh.upstreammgr.sessionid = some U)
    (hU : U ∈ bh.sessionmgr.map (fun bs => bs.id))
    (hinv : ∀ bsub, blade_subscriptionmgr_subscription_lookup bh E P R = some bsub →
      bsub.subscribers ≠ [])
    (hreqs : ∀ r ∈ reqs, r.2.session_id ∈ bh.sessionmgr.map (fun bs => bs.id) ∧
      subscribe_wellformed r.2 E P R) :
    ∃ bh',
      subscribe_requests_run bh reqs = some bh' ∧
      requests_sent_on U bh'.trace = requests_sent_on U bh.trace ++
        spec_subscribe_emissions E P R (subscribers_of bh E P R)
          (reqs.map (fun r => (r.1, r.2.session_id, request_remove_flag r.2))) := by
  induction reqs generalizing bh with
  | nil =>
    exact ⟨bh, rfl, by simp [spec_subscribe_emissions]⟩
  | cons r rest ih =>
    obtain ⟨mid, brpcreq⟩ := r
    have hr := hreqs (mid, brpcreq) (List.mem_cons_self _ _)
    obtain ⟨bh1, h1, hfs, hfu, hsubs, hinv1, hsent⟩ :=
      subscribe_handler_step mid bh brpcreq E P R U hr.1 hr.2 hup hU hinv
    obtain ⟨bh', hrun, hsent'⟩ := ih bh1 (by rw [hfu]; exact hup) (by rw [hfs]; exact hU) hinv1
      (by
        intro r' hr'
        rw [hfs]
        exact hreqs r' (List.mem_cons_of_mem _ hr'))
    refine ⟨bh', ?_, ?_⟩
    · simp only [subscribe_requests_run, h1]
      exact hrun
    · rw [hsent', hsent, hsubs]
      simp only [List.map_cons, spec_subscribe_emissions, List.append_nil, List.append_assoc]

/-- C13, instance: at the intermediate node `c1` with upstream session `u`,
the sessions `d2` and `d3` subscribe to `e` of `(p, r)` (`d2` twice) and then
both unsubscribe: one `blade.subscribe` goes upstream, for the first request,
and one with `remove: true`, for the last. -/
theorem subscribe_handler_refcount_witness :
    ∃ bh',
      subscribe_requests_run example_intermediate
        [("20", example_subscribe "d2" "30" false), ("21", example_subscribe "d2" "31" false),
         ("22", example_subscribe "d3" "32" false), ("23", example_subscribe "d2" "33" true),
         ("24", example_subscribe "d3" "34" true)] = some bh' ∧
      requests_sent_on "u" bh'.trace =
        [subscribe_request "20" "e" "p" "r" false, subscribe_request "24" "e" "p" "r" true] :=
  let ⟨bh', h1, h2⟩ := subscribe_handler_refcount "e" "p" "r" "u"
    [("20", example_subscribe "d2" "30" false), ("21", example_subscribe "d2" "31" false),
     ("22", example_subscribe "d3" "32" false), ("23", example_subscribe "d2" "33" true),
     ("24", example_subscribe "d3" "34" true)] example_intermediate rfl
    (by simp [example_intermediate, example_session])
    (by intro bsub h; cases h)
    (by
      intro r hr
      simp only [List.mem_cons, List.mem_singleton, List.not_mem_nil, or_false] at hr
      rcases hr with rfl | rfl | rfl | rfl | rfl <;>
        exact ⟨by simp [example_intermediate, example_session, example_subscribe],
          ⟨_, rfl, rfl, rfl, rfl⟩⟩)
  ⟨bh', h1, h2.trans rfl⟩

/-! ## Subscribe: the local generator -/

/-- After `subscriber_add` the record of the key exists and holds the target. -/
theorem subscriber_add_lookup (bh : blade_handle_t) (E P R target : String) :
    ∃ bsub, blade_subscriptionmgr_subscription_lookup
        (blade_subscriptionmgr_subscriber_add bh E P R target).2 E P R = some bsub ∧
      target ∈ bsub.subscribers := by
  unfold blade_subscriptionmgr_subscriber_add
  cases hl : blade_subscriptionmgr_subscription_lookup bh E P R with
  | none =>
    unfold blade_subscriptionmgr_subscription_lookup at hl ⊢
    refine ⟨{ event := E, protocol := P, realm := R, subscribers := [target],
              callback := none, callback_data := 0 }, ?_, by simp⟩
    simp [List.find?_append, hl]
  | some bsub =>
    unfold blade_subscriptionmgr_subscription_lookup at hl ⊢
    have hk := List.find?_some hl
    simp only [] at hk
    refine ⟨{ bsub with subscribers :=
        if target ∈ bsub.subscribers then bsub.subscribers
        else bsub.subscribers ++ [target] }, ?_, ?_⟩
    · simp only []
      rw [find?_map_of_keep, hl]
      · simp only [Option.map_some', hk, if_true]
      · intro a
        by_cases h : (a.event == E && a.protocol == P && a.realm == R) = true
        · simp only [h, if_true]
        · rw [if_neg h]
    · by_cases hmem : target ∈ bsub.subscribers <;> simp [hmem]

/-- After `blade_subscription_callback_set` the record of the key, when there
is one, holds the callback and the data; its subscribers are as before. -/
theorem callback_set_lookup (bh : blade_handle_t) (E P R : String)
    (cb : Option blade_rpc_request_callback_t) (d : Data) (bsub : blade_subscription_t)
    (hl : blade_subscriptionmgr_subscription_lookup bh E P R = some bsub) :
    blade_subscriptionmgr_subscription_lookup
        (blade_subscription_callback_set bh E P R cb d) E P R =
      some { bsub with callback := cb, callback_data := d } := by
  unfold blade_subscription_callback_set
  unfold blade_subscriptionmgr_subscription_lookup at hl ⊢
  have hk := List.find?_some hl
  simp only [] at hk
  simp only []
  rw [find?_map_of_keep, hl]
  · simp only [Option.map_some', hk, if_true]
  · intro a
    by_cases h : (a.event == E && a.protocol == P && a.realm == R) = true
    · simp only [h, if_true]
    · rw [if_neg h]

/-- The record of a key is read from the subscription tree alone. -/
theorem subscription_lookup_congr (bh bh' : blade_handle_t) (E P R : String)
    (h : bh.subscriptionmgr = bh'.subscriptionmgr) :
    blade_subscriptionmgr_subscription_lookup bh E P R =
      blade_subscriptionmgr_subscription_lookup bh' E P R := by
  unfold blade_subscriptionmgr_subscription_lookup
  rw [h]

/-- The raw subscribe generator changes nothing but the trace. -/
theorem subscribe_raw_frame (bh : blade_handle_t) (mid E P R : String) (remove : Bool)
    (callback : Option blade_rpc_response_callback_t) (data : Data) :
    (blade_protocol_subscribe_raw bh mid E P R remove callback data).2.subscriptionmgr =
        bh.subscriptionmgr ∧
      (blade_protocol_subscribe_raw bh mid E P R remove callback data).2.routemgr =
        bh.routemgr ∧
      (blade_protocol_subscribe_raw bh mid E P R remove callback data).2.mastermgr =
        bh.mastermgr := by
  unfold blade_protocol_subscribe_raw
  cases hu : blade_upstreammgr_session_get bh with
  | none => exact ⟨rfl, rfl, rfl⟩
  | some r =>
    obtain ⟨bs, bh1⟩ := r
    have := upstream_session_some bh bh1 bs hu
    subst this
    exact ⟨rfl, rfl, rfl⟩

/-- C14, as stated, fails: the master `m` has no upstream session; the local
generator called there with `remove = false` and a callback returns
`DISCONNECTED` and the subscription tree has no record for the key. -/
theorem subscribe_generator_disconnected_at_master :
    blade_upstreammgr_session_get example_master = none ∧
    ∃ bh',
      blade_protocol_subscribe example_master "40" "e" "p" "r" false none 0
        (some example_ping) 5 = some (.KS_STATUS_DISCONNECTED, bh') ∧
      blade_subscriptionmgr_subscription_lookup bh' "e" "p" "r" = none :=
  ⟨rfl, _, rfl, rfl⟩

/-- C14, amended. At a node with an upstream session (and its local id set,
which the generator asserts), for every key `(protocol, realm, event)` and
every callback `cb` with data `d`: after the local generator
`blade_protocol_subscribe` is called with `remove = false` the subscription
record of the key exists, has the local node id among its subscribers and
holds `cb` and `d`.  At a node without upstream session, the master included,
the generator returns `DISCONNECTED` and changes nothing. -/
theorem subscribe_generator_installs_callback (bh : blade_handle_t) (mid E P R : String)
    (callback : Option blade_rpc_response_callback_t) (data : Data)
    (cb : blade_rpc_request_callback_t) (d : Data) :
    (∀ U L, bh.upstreammgr.sessionid = some U → U ∈ bh.sessionmgr.map (fun bs => bs.id) →
      bh.upstreammgr.localid = some L →
      ∃ status bh' bsub,
        blade_protocol_subscribe bh mid E P R false callback data (some cb) d =
          some (status, bh') ∧
        blade_subscriptionmgr_subscription_lookup bh' E P R = some bsub ∧
        L ∈ blade_subscription_subscribers_get bsub ∧
        blade_subscription_callback_get bsub = some cb ∧
        blade_subscription_callback_data_get bsub = d) ∧
    (blade_upstreammgr_session_get bh = none →
      blade_protocol_subscribe bh mid E P R false callback data (some cb) d =
        some (.KS_STATUS_DISCONNECTED, bh)) := by
  constructor
  · intro U L hup hU hL
    obtain ⟨bs, hid, hl⟩ := session_lookup_of_mem bh U hU
    obtain ⟨bsub, hadd, hmem⟩ := subscriber_add_lookup
      (bh.emit (.session_read_lock U)) E P R L
    have hset := callback_set_lookup _ E P R (some cb) d bsub hadd
    have hL' : blade_upstreammgr_localid_copy (bh.emit (.session_read_lock U)) = some L := hL
    have hgen : blade_protocol_subscribe bh mid E P R false callback data (some cb) d =
        some ((if (blade_subscriptionmgr_subscriber_add (bh.emit (.session_read_lock U))
            E P R L).1 then
          blade_protocol_subscribe_raw
            (blade_subscription_callback_set
              (blade_subscriptionmgr_subscriber_add (bh.emit (.session_read_lock U)) E P R L).2
              E P R (some cb) d) mid E P R false callback data
          else (.KS_STATUS_SUCCESS, blade_subscription_callback_set
              (blade_subscriptionmgr_subscriber_add (bh.emit (.session_read_lock U)) E P R L).2
              E P R (some cb) d)).1,
          blade_session_read_unlock
            (if (blade_subscriptionmgr_subscriber_add (bh.emit (.session_read_lock U))
              E P R L).1 then
            blade_protocol_subscribe_raw
              (blade_subscription_callback_set
                (blade_subscriptionmgr_subscriber_add (bh.emit (.session_read_lock U)) E P R L).2
                E P R (some cb) d) mid E P R false callback data
            else (.KS_STATUS_SUCCESS, blade_subscription_callback_set
                (blade_subscriptionmgr_subscriber_add (bh.emit (.session_read_lock U)) E P R L).2
                E P R (some cb) d)).2 bs) := by
      unfold blade_protocol_subscribe blade_upstreammgr_session_get
      simp only [hup, hl, hL']
      simp [hadd]
    refine ⟨_, _, { bsub with callback := some cb, callback_data := d }, hgen, ?_,
      hmem, rfl, rfl⟩
    have hframe := (subscribe_raw_frame (blade_subscription_callback_set
      (blade_subscriptionmgr_subscriber_add (bh.emit (.session_read_lock U)) E P R L).2
      E P R (some cb) d) mid E P R false callback data).1
    rw [← hset]
    apply subscription_lookup_congr
    show ((if (blade_subscriptionmgr_subscriber_add (bh.emit (.session_read_lock U))
        E P R L).1 then
      blade_protocol_subscribe_raw
        (blade_subscription_callback_set
          (blade_subscriptionmgr_subscriber_add (bh.emit (.session_read_lock U)) E P R L).2
          E P R (some cb) d) mid E P R false callback data
      else (.KS_STATUS_SUCCESS, blade_subscription_callback_set
          (blade_subscriptionmgr_subscriber_add (bh.emit (.session_read_lock U)) E P R L).2
          E P R (some cb) d)).2).subscriptionmgr = _
    split
    · exact hframe
    · rfl
  · intro hnone
    unfold blade_protocol_subscribe
    simp only [hnone]

/-- C14, amended, instances: at the child `c1` with upstream session `u` the
record of `e` in `(p, r)` is created with `c1` and the callback; at the master
`m` the generator returns `DISCONNECTED`. -/
theorem subscribe_generator_installs_callback_witness :
    (∃ status bh' bsub,
      blade_protocol_subscribe example_child "41" "e" "p" "r" false none 0
        (some example_ping) 5 = some (status, bh') ∧
      blade_subscriptionmgr_subscription_lookup bh' "e" "p" "r" = some bsub ∧
      "c1" ∈ blade_subscription_subscribers_get bsub ∧
      blade_subscription_callback_get bsub = some example_ping ∧
      blade_subscription_callback_data_get bsub = 5) ∧
    blade_protocol_subscribe example_master "40" "e" "p" "r" false none 0
      (some example_ping) 5 = some (.KS_STATUS_DISCONNECTED, example_master) :=
  ⟨(subscribe_generator_installs_callback example_child "41" "e" "p" "r" none 0
      example_ping 5).1 "u" "c1" rfl (by simp [example_child, example_session]) rfl,
   (subscribe_generator_installs_callback example_master "40" "e" "p" "r" none 0
      example_ping 5).2 rfl⟩

/-! ## Broadcast -/

/-- The broadcast handler on a well-formed request up to the local delivery,
in closed form. -/
theorem broadcast_handler_wellformed (bh : blade_handle_t) (brpcreq : blade_rpc_request_t)
    (data : Data) (req_params : cJSON) (B E P R : String)
    (hs : brpcreq.session_id ∈ bh.sessionmgr.map (fun bs => bs.id))
    (hparams : cJSON_GetObjectItem brpcreq.message "params" = some req_params)
    (hB : cJSON_GetObjectCstr req_params "broadcaster-nodeid" = some B)
    (hE : cJSON_GetObjectCstr req_params "event" = some E)
    (hP : cJSON_GetObjectCstr req_params "protocol" = some P)
    (hR : cJSON_GetObjectCstr req_params "realm" = some R) :
    blade_protocol_broadcast_request_handler bh brpcreq data =
      match (match blade_subscriptionmgr_subscription_lookup bh E P R with
        | some bsub =>
          match bh.upstreammgr.localid with
          | none => none
          | some localid =>
            if localid ∈ bsub.subscribers then
              match bsub.callback with
              | some callback => some (callback brpcreq bsub.callback_data,
                  [Event.request_callback callback brpcreq bsub.callback_data])
              | none => some (false, [])
            else some (false, [])
        | none => some (false, [])) with
      | none => none
      | some (ret, delivered) =>
        some (ret, { bh with trace := bh.trace ++
          [.session_read_lock brpcreq.session_id,
           .subscriptionmgr_broadcast B (some brpcreq.session_id) E P R
             (cJSON_GetObjectItem req_params "params") none 0] ++
          delivered ++
          [.session_send brpcreq.session_id
             (.Object [(some "jsonrpc", .String "2.0"), (some "id", .String brpcreq.message_id),
               (some "result", .Object [(some "broadcaster-nodeid", .String B),
                 (some "event", .String E), (some "protocol", .String P),
                 (some "realm", .String R)])])
             none 0,
           .session_read_unlock brpcreq.session_id] }) := by
  obtain ⟨bs, hid, hl⟩ := session_lookup_of_mem bh brpcreq.session_id hs
  unfold blade_protocol_broadcast_request_handler
  simp only [blade_rpc_request_sessionid_get, blade_rpc_request_message_get,
    blade_rpc_request_messageid_get, hl, hparams, hB, hE, hP, hR, blade_session_id_get, hid,
    blade_subscriptionmgr_broadcast, blade_subscriptionmgr_subscription_lookup,
    blade_handle_t.emit, blade_upstreammgr_localid_copy,
    blade_subscription_subscribers_get, blade_subscription_callback_get,
    blade_subscription_callback_data_get]
  cases bh.subscriptionmgr.find? (fun bsub => bsub.event == E && bsub.protocol == P &&
      bsub.realm == R) with
  | none =>
    simp [blade_session_read_unlock, blade_session_send, blade_handle_t.emit, hid,
      blade_rpc_response_raw_create, cJSON_AddStringToObject, cJSON_AddItemToObject,
      cJSON_CreateObject, cJSON_CreateString]
  | some bsub =>
    cases bh.upstreammgr.localid with
    | none => simp
    | some localid =>
      by_cases hmem : localid ∈ bsub.subscribers
      · cases hcb : bsub.callback <;>
          simp [hmem, hcb, blade_session_read_unlock, blade_session_send, blade_handle_t.emit,
            hid, blade_rpc_response_raw_create, cJSON_AddStringToObject, cJSON_AddItemToObject,
            cJSON_CreateObject, cJSON_CreateString]
      · simp [hmem, blade_session_read_unlock, blade_session_send, blade_handle_t.emit, hid,
          blade_rpc_response_raw_create, cJSON_AddStringToObject, cJSON_AddItemToObject,
          cJSON_CreateObject, cJSON_CreateString]

/-- C15. A well-formed `blade.broadcast` request arriving on session S: the
handler hands the event to the subscription fan-out with the id of S as the
excluded session.  When a subscription record of `(protocol, realm, event)`
exists, the local node id is among its subscribers and a callback is
installed, it calls that callback exactly once, with the request and the
callback data, and returns its boolean; when no record exists, or the local
node id is not a subscriber, it calls no callback.  In each case it then
answers on S. -/
theorem broadcast_handler_fanout_and_local_delivery
    (bh : blade_handle_t) (brpcreq : blade_rpc_request_t) (data : Data)
    (req_params : cJSON) (B E P R : String)
    (hs : brpcreq.session_id ∈ bh.sessionmgr.map (fun bs => bs.id))
    (hparams : cJSON_GetObjectItem brpcreq.message "params" = some req_params)
    (hB : cJSON_GetObjectCstr req_params "broadcaster-nodeid" = some B)
    (hE : cJSON_GetObjectCstr req_params "event" = some E)
    (hP : cJSON_GetObjectCstr req_params "protocol" = some P)
    (hR : cJSON_GetObjectCstr req_params "realm" = some R) :
    (∀ bsub L cb, blade_subscriptionmgr_subscription_lookup bh E P R = some bsub →
      bh.upstreammgr.localid = some L →
      L ∈ blade_subscription_subscribers_get bsub →
      blade_subscription_callback_get bsub = some cb →
      blade_protocol_broadcast_request_handler bh brpcreq data =
        some (cb brpcreq (blade_subscription_callback_data_get bsub),
          { bh with trace := bh.trace ++
            [.session_read_lock brpcreq.session_id,
             .subscriptionmgr_broadcast B (some brpcreq.session_id) E P R
               (cJSON_GetObjectItem req_params "params") none 0,
             .request_callback cb brpcreq (blade_subscription_callback_data_get bsub),
             .session_send brpcreq.session_id
               (.Object [(some "jsonrpc", .String "2.0"), (some "id", .String brpcreq.message_id),
                 (some "result", .Object [(some "broadcaster-nodeid", .String B),
                   (some "event", .String E), (some "protocol", .String P),
                   (some "realm", .String R)])])
               none 0,
             .session_read_unlock brpcreq.session_id] })) ∧
    (blade_subscriptionmgr_subscription_lookup bh E P R = none →
      blade_protocol_broadcast_request_handler bh brpcreq data =
        some (false,
          { bh with trace := bh.trace ++
            [.session_read_lock brpcreq.session_id,
             .subscriptionmgr_broadcast B (some brpcreq.session_id) E P R
               (cJSON_GetObjectItem req_params "params") none 0,
             .session_send brpcreq.session_id
               (.Object [(some "jsonrpc", .String "2.0"), (some "id", .String brpcreq.message_id),
                 (some "result", .Object [(some "broadcaster-nodeid", .String B),
                   (some "event", .String E), (some "protocol", .String P),
                   (some "realm", .String R)])])
               none 0,
             .session_read_unlock brpcreq.session_id] })) ∧
    (∀ bsub L, blade_subscriptionmgr_subscription_lookup bh E P R = some bsub →
      bh.upstreammgr.localid = some L →
      L ∉ blade_subscription_subscribers_get bsub →
      blade_protocol_broadcast_request_handler bh brpcreq data =
        some (false,
          { bh with trace := bh.trace ++
            [.session_read_lock brpcreq.session_id,
             .subscriptionmgr_broadcast B (some brpcreq.session_id) E P R
               (cJSON_GetObjectItem req_params "params") none 0,
             .session_send brpcreq.session_id
               (.Object [(some "jsonrpc", .String "2.0"), (some "id", .String brpcreq.message_id),
                 (some "result", .Object [(some "broadcaster-nodeid", .String B),
                   (some "event", .String E), (some "protocol", .String P),
                   (some "realm", .String R)])])
               none 0,
             .session_read_unlock brpcreq.session_id] })) := by
  have hw := broadcast_handler_wellformed bh brpcreq data req_params B E P R hs hparams hB hE
    hP hR
  refine ⟨?_, ?_, ?_⟩
  · intro bsub L cb hl hL hmem hcb
    unfold blade_subscription_subscribers_get at hmem
    unfold blade_subscription_callback_get at hcb
    rw [hw, hl, hL]
    simp [hmem, hcb, blade_subscription_callback_data_get]
  · intro hl
    rw [hw, hl]
    simp
  · intro bsub L hl hL hmem
    unfold blade_subscription_subscribers_get at hmem
    rw [hw, hl, hL]
    simp [hmem]

/-- C15, instances: a broadcast of `c1` for `e` of `(p, r)` arrives on `s1` at
the master `m`: with `m` subscribed and the callback installed the callback is
called once; with no record, or with only `s2` subscribed, none is called. -/
theorem broadcast_handler_fanout_and_local_delivery_witness :
    blade_protocol_broadcast_request_handler example_master_subscribed
        (example_broadcast "c1") 0 =
      some (example_on_event (example_broadcast "c1") 9,
        { example_master_subscribed with trace :=
          [.session_read_lock "s1",
           .subscriptionmgr_broadcast "c1" (some "s1") "e" "p" "r" none none 0,
           .request_callback example_on_event (example_broadcast "c1") 9,
           .session_send "s1"
             (.Object [(some "jsonrpc", .String "2.0"), (some "id", .String "50"),
               (some "result", .Object [(some "broadcaster-nodeid", .String "c1"),
                 (some "event", .String "e"), (some "protocol", .String "p"),
                 (some "realm", .String "r")])])
             none 0,
           .session_read_unlock "s1"] }) ∧
    blade_protocol_broadcast_request_handler example_master (example_broadcast "c1") 0 =
      some (false,
        { example_master with trace :=
          [.session_read_lock "s1",
           .subscriptionmgr_broadcast "c1" (some "s1") "e" "p" "r" none none 0,
           .session_send "s1"
             (.Object [(some "jsonrpc", .String "2.0"), (some "id", .String "50"),
               (some "result", .Object [(some "broadcaster-nodeid", .String "c1"),
                 (some "event", .String "e"), (some "protocol", .String "p"),
                 (some "realm", .String "r")])])
             none 0,
           .session_read_unlock "s1"] }) ∧
    blade_protocol_broadcast_request_handler
        { example_master with
          subscriptionmgr := [{ event := "e", protocol := "p", realm := "r",
                                subscribers := ["s2"], callback := none, callback_data := 0 }] }
        (example_broadcast "c1") 0 =
      some (false,
        { example_master with
          subscriptionmgr := [{ event := "e", protocol := "p", realm := "r",
                                subscribers := ["s2"], callback := none, callback_data := 0 }]
          trace :=
          [.session_read_lock "s1",
           .subscriptionmgr_broadcast "c1" (some "s1") "e" "p" "r" none none 0,
           .session_send "s1"
             (.Object [(some "jsonrpc", .String "2.0"), (some "id", .String "50"),
               (some "result", .Object [(some "broadcaster-nodeid", .String "c1"),
                 (some "event", .String "e"), (some "protocol", .String "p"),
                 (some "realm", .String "r")])])
             none 0,
           .session_read_unlock "s1"] }) :=
  ⟨(broadcast_handler_fanout_and_local_delivery example_master_subscribed
      (example_broadcast "c1") 0
      (.Object [(some "broadcaster-nodeid", .String "c1"), (some "event", .String "e"),
        (some "protocol", .String "p"), (some "realm", .String "r")]) "c1" "e" "p" "r"
      (by simp [example_master_subscribed, example_master, example_broadcast, example_session])
      rfl rfl rfl rfl rfl).1
      { event := "e", protocol := "p", realm := "r", subscribers := ["s2", "m"],
        callback := some example_on_event, callback_data := 9 } "m" example_on_event
      rfl rfl (by simp [blade_subscription_subscribers_get]) rfl,
   (broadcast_handler_fanout_and_local_delivery example_master (example_broadcast "c1") 0
      (.Object [(some "broadcaster-nodeid", .String "c1"), (some "event", .String "e"),
        (some "protocol", .String "p"), (some "realm", .String "r")]) "c1" "e" "p" "r"
      (by simp [example_master, example_broadcast, example_session])
      rfl rfl rfl rfl rfl).2.1 rfl,
   (broadcast_handler_fanout_and_local_delivery
      { example_master with
        subscriptionmgr := [{ event := "e", protocol := "p", realm := "r",
                              subscribers := ["s2"], callback := none, callback_data := 0 }] }
      (example_broadcast "c1") 0
      (.Object [(some "broadcaster-nodeid", .String "c1"), (some "event", .String "e"),
        (some "protocol", .String "p"), (some "realm", .String "r")]) "c1" "e" "p" "r"
      (by simp [example_master, example_broadcast, example_session])
      rfl rfl rfl rfl rfl).2.2
      { event := "e", protocol := "p", realm := "r", subscribers := ["s2"],
        callback := none, callback_data := 0 } "m" rfl rfl
      (by simp [blade_subscription_subscribers_get])⟩

/-- C16. The broadcast originator does not deliver to itself: in every node
state, also one where the local node id is a subscriber of the key with a
callback installed, the generator `blade_protocol_broadcast` calls no event
callback.  Its whole effect is to hand the event to the subscription fan-out
with no excluded session, with the broadcaster the caller passes or, when the
caller passes none, the local node id (which the generator then asserts to be
set), and it returns the fan-out's status. -/
theorem broadcast_generator_hands_over (bh : blade_handle_t) (E P R : String)
    (params : Option cJSON) (callback : Option blade_rpc_response_callback_t) (data : Data) :
    (∀ B, blade_protocol_broadcast bh (some B) E P R params callback data =
      some ((blade_subscriptionmgr_broadcast bh B none E P R params callback data).1,
        { bh with trace := bh.trace ++
          [.subscriptionmgr_broadcast B none E P R params callback data] })) ∧
    (∀ L, bh.upstreammgr.localid = some L →
      blade_protocol_broadcast bh none E P R params callback data =
        some ((blade_subscriptionmgr_broadcast bh L none E P R params callback data).1,
          { bh with trace := bh.trace ++
            [.subscriptionmgr_broadcast L none E P R params callback data] })) := by
  constructor
  · intro B
    rfl
  · intro L hL
    unfold blade_protocol_broadcast blade_upstreammgr_localid_copy
    simp only [hL]
    rfl

/-- C16, instance: the master `m`, itself subscribed to `e` of `(p, r)` with a
callback installed, broadcasts `e` without naming a broadcaster. -/
theorem broadcast_generator_hands_over_witness :
    blade_protocol_broadcast example_master_subscribed none "e" "p" "r" none none 0 =
      some (.KS_STATUS_SUCCESS,
        { example_master_subscribed with trace :=
          [.subscriptionmgr_broadcast "m" none "e" "p" "r" none none 0] }) :=
  (broadcast_generator_hands_over example_master_subscribed "e" "p" "r" none none 0).2 "m" rfl

/-! ## Envelope echo -/

/-- The trace of the raw subscribe generator: nothing, or one request on the
upstream session between its lock and unlock. -/
theorem subscribe_raw_trace (bh : blade_handle_t) (mid E P R : String) (remove : Bool)
    (callback : Option blade_rpc_response_callback_t) (data : Data) :
    (blade_protocol_subscribe_raw bh mid E P R remove callback data).2.trace = bh.trace ∨
    ∃ U, (blade_protocol_subscribe_raw bh mid E P R remove callback data).2.trace =
      bh.trace ++
        [.session_read_lock U,
         .session_send U (subscribe_request mid E P R remove) callback data,
         .session_read_unlock U] := by
  unfold blade_protocol_subscribe_raw
  cases hu : blade_upstreammgr_session_get bh with
  | none => exact Or.inl rfl
  | some r =>
    obtain ⟨bs, bh1⟩ := r
    have := upstream_session_some bh bh1 bs hu
    subst this
    refine Or.inr ⟨bs.id, ?_⟩
    cases remove <;>
      simp [blade_session_read_unlock, blade_session_send, blade_handle_t.emit,
        subscribe_request, blade_rpc_request_raw_create, cJSON_AddStringToObject,
        cJSON_AddItemToObject, cJSON_AddTrueToObject, cJSON_CreateObject, cJSON_CreateString]

/-- The subscription manager's changes leave the trace alone. -/
theorem subscriber_change_trace (bh : blade_handle_t) (E P R target : String) :
    (blade_subscriptionmgr_subscriber_add bh E P R target).2.trace = bh.trace ∧
    (blade_subscriptionmgr_subscriber_remove bh E P R target).2.trace = bh.trace := by
  constructor
  · unfold blade_subscriptionmgr_subscriber_add
    cases blade_subscriptionmgr_subscription_lookup bh E P R <;> rfl
  · unfold blade_subscriptionmgr_subscriber_remove
    cases blade_subscriptionmgr_subscription_lookup bh E P R with
    | none => rfl
    | some bsub =>
      simp only []
      split <;> rfl

/-- C17. Envelope echo for subscribe and broadcast.  For every well-formed
`blade.subscribe` request the handler sends on the inbound session exactly one
result response; it has the request's id and its result holds the `event`,
`protocol` and `realm` of the request, whether or not the change was
propagated upstream and whatever the status of the upstream send.  For every
well-formed `blade.broadcast` request (at a node whose local id is set, or
with no subscription record for the key) the handler sends on the inbound
session exactly one result response; it has the request's id and its result
holds the `broadcaster-nodeid`, `event`, `protocol` and `realm` of the
request. -/
theorem subscribe_broadcast_envelope_echo (mid : String) (bh : blade_handle_t)
    (brpcreq : blade_rpc_request_t) (data : Data) (req_params : cJSON) (E P R : String)
    (hs : brpcreq.session_id ∈ bh.sessionmgr.map (fun bs => bs.id))
    (hparams : cJSON_GetObjectItem brpcreq.message "params" = some req_params)
    (hE : cJSON_GetObjectCstr req_params "event" = some E)
    (hP : cJSON_GetObjectCstr req_params "protocol" = some P)
    (hR : cJSON_GetObjectCstr req_params "realm" = some R) :
    (∃ bh' delta,
      blade_protocol_subscribe_request_handler mid bh brpcreq data = some (false, bh') ∧
      bh'.trace = bh.trace ++ delta ∧
      results_sent_on brpcreq.session_id delta =
        [.Object [(some "jsonrpc", .String "2.0"), (some "id", .String brpcreq.message_id),
          (some "result", .Object [(some "event", .String E), (some "protocol", .String P),
            (some "realm", .String R)])]]) ∧
    (∀ B, cJSON_GetObjectCstr req_params "broadcaster-nodeid" = some B →
      (blade_subscriptionmgr_subscription_lookup bh E P R = none ∨
        ∃ L, bh.upstreammgr.localid = some L) →
      ∃ ret bh' delta,
        blade_protocol_broadcast_request_handler bh brpcreq data = some (ret, bh') ∧
        bh'.trace = bh.trace ++ delta ∧
        results_sent_on brpcreq.session_id delta =
          [.Object [(some "jsonrpc", .String "2.0"), (some "id", .String brpcreq.message_id),
            (some "result", .Object [(some "broadcaster-nodeid", .String B),
              (some "event", .String E), (some "protocol", .String P),
              (some "realm", .String R)])]]) := by
  constructor
  · have hw := subscribe_handler_wellformed mid bh brpcreq data req_params E P R hs hparams
      hE hP hR
    have hX : (if params_remove_flag req_params then
          blade_subscriptionmgr_subscriber_remove
            (bh.emit (.session_read_lock brpcreq.session_id)) E P R brpcreq.session_id
        else
          blade_subscriptionmgr_subscriber_add
            (bh.emit (.session_read_lock brpcreq.session_id)) E P R brpcreq.session_id).2.trace =
        bh.trace ++ [.session_read_lock brpcreq.session_id] := by
      obtain ⟨ha, hr⟩ := subscriber_change_trace
        (bh.emit (.session_read_lock brpcreq.session_id)) E P R brpcreq.session_id
      split
      · rw [hr]; rfl
      · rw [ha]; rfl
    generalize (if params_remove_flag req_params then
          blade_subscriptionmgr_subscriber_remove
            (bh.emit (.session_read_lock brpcreq.session_id)) E P R brpcreq.session_id
        else
          blade_subscriptionmgr_subscriber_add
            (bh.emit (.session_read_lock brpcreq.session_id)) E P R brpcreq.session_id) =
      changed at hw hX
    have hreq : cJSON_GetObjectItem
        (subscribe_request mid E P R (params_remove_flag req_params)) "result" = none := by
      cases params_remove_flag req_params <;> rfl
    cases hc : changed.1 with
    | false =>
      rw [hc] at hw
      simp only [Bool.false_eq_true, if_false] at hw
      refine ⟨_,
        [.session_read_lock brpcreq.session_id,
         .session_send brpcreq.session_id
           (.Object [(some "jsonrpc", .String "2.0"),
              (some "id", .String brpcreq.message_id),
              (some "result", .Object [(some "event", .String E), (some "protocol", .String P),
                (some "realm", .String R)])]) none 0,
         .session_read_unlock brpcreq.session_id], hw, ?_, ?_⟩
      · show (changed.2.trace ++ _) ++ _ = _
        rw [hX]
        simp
      · simp [results_sent_on, cJSON_GetObjectItem]
    | true =>
      rw [hc] at hw
      simp only [if_true] at hw
      rcases subscribe_raw_trace changed.2 mid E P R (params_remove_flag req_params) none 0
        with hraw | ⟨U, hraw⟩
      · refine ⟨_,
          [.session_read_lock brpcreq.session_id,
           .session_send brpcreq.session_id
             (.Object [(some "jsonrpc", .String "2.0"),
              (some "id", .String brpcreq.message_id),
              (some "result", .Object [(some "event", .String E), (some "protocol", .String P),
                (some "realm", .String R)])]) none 0,
           .session_read_unlock brpcreq.session_id], hw, ?_, ?_⟩
        · show ((blade_protocol_subscribe_raw changed.2 mid E P R
            (params_remove_flag req_params) none 0).2.trace ++ _) ++ _ = _
          rw [hraw, hX]
          simp
        · simp [results_sent_on, cJSON_GetObjectItem]
      · refine ⟨_,
          [.session_read_lock brpcreq.session_id,
           .session_read_lock U,
           .session_send U (subscribe_request mid E P R (params_remove_flag req_params)) none 0,
           .session_read_unlock U,
           .session_send brpcreq.session_id
             (.Object [(some "jsonrpc", .String "2.0"),
              (some "id", .String brpcreq.message_id),
              (some "result", .Object [(some "event", .String E), (some "protocol", .String P),
                (some "realm", .String R)])]) none 0,
           .session_read_unlock brpcreq.session_id], hw, ?_, ?_⟩
        · show ((blade_protocol_subscribe_raw changed.2 mid E P R
            (params_remove_flag req_params) none 0).2.trace ++ _) ++ _ = _
          rw [hraw, hX]
          simp
        · simp [results_sent_on, hreq]
          simp [cJSON_GetObjectItem]
  · intro B hB hrec
    have hw := broadcast_handler_wellformed bh brpcreq data req_params B E P R hs hparams hB hE
      hP hR
    have key : ∀ (ret : Bool) (delivered : List Event),
        (delivered = [] ∨ ∃ cb d, delivered = [Event.request_callback cb brpcreq d]) →
        blade_protocol_broadcast_request_handler bh brpcreq data = some (ret,
          { bh with trace := bh.trace ++
            [.session_read_lock brpcreq.session_id,
             .subscriptionmgr_broadcast B (some brpcreq.session_id) E P R
               (cJSON_GetObjectItem req_params "params") none 0] ++
            delivered ++
            [.session_send brpcreq.session_id
               (.Object [(some "jsonrpc", .String "2.0"), (some "id", .String brpcreq.message_id),
                 (some "result", .Object [(some "broadcaster-nodeid", .String B),
                   (some "event", .String E), (some "protocol", .String P),
                   (some "realm", .String R)])])
               none 0,
             .session_read_unlock brpcreq.session_id] }) →
        ∃ ret bh' delta,
          blade_protocol_broadcast_request_handler bh brpcreq data = some (ret, bh') ∧
          bh'.trace = bh.trace ++ delta ∧
          results_sent_on brpcreq.session_id delta =
            [.Object [(some "jsonrpc", .String "2.0"), (some "id", .String brpcreq.message_id),
              (some "result", .Object [(some "broadcaster-nodeid", .String B),
                (some "event", .String E), (some "protocol", .String P),
                (some "realm", .String R)])]] := by
      intro ret delivered hd h
      refine ⟨ret, _,
        [.session_read_lock brpcreq.session_id,
         .subscriptionmgr_broadcast B (some brpcreq.session_id) E P R
           (cJSON_GetObjectItem req_params "params") none 0] ++
        delivered ++
        [.session_send brpcreq.session_id
           (.Object [(some "jsonrpc", .String "2.0"), (some "id", .String brpcreq.message_id),
             (some "result", .Object [(some "broadcaster-nodeid", .String B),
               (some "event", .String E), (some "protocol", .String P),
               (some "realm", .String R)])])
           none 0,
         .session_read_unlock brpcreq.session_id], h, ?_, ?_⟩
      · simp only [List.append_assoc]
      · rcases hd with rfl | ⟨cb, d, rfl⟩ <;>
          simp [results_sent_on, cJSON_GetObjectItem]
    cases hl : blade_subscriptionmgr_subscription_lookup bh E P R with
    | none =>
      rw [hl] at hw
      exact key _ _ (Or.inl rfl) hw
    | some bsub =>
      rw [hl] at hw
      rcases hrec with hnone | ⟨L, hL⟩
      · rw [hl] at hnone; cases hnone
      · rw [hL] at hw
        simp only [] at hw
        by_cases hmem : L ∈ bsub.subscribers
        · cases hcb : bsub.callback with
          | none =>
            simp only [hmem, if_true, hcb] at hw
            exact key _ _ (Or.inl rfl) hw
          | some cb =>
            simp only [hmem, if_true, hcb] at hw
            exact key _ _ (Or.inr ⟨_, _, rfl⟩) hw
        · simp only [hmem, if_false] at hw
          exact key _ _ (Or.inl rfl) hw

/-- C17, instance: at the master `m`, itself subscribed to `e` of `(p, r)`, a
request on `s1` with `broadcaster-nodeid`, `event`, `protocol` and `realm` is
answered with one echoing result response by the subscribe handler and by the
broadcast handler. -/
theorem subscribe_broadcast_envelope_echo_witness :
    (∃ bh' delta,
      blade_protocol_subscribe_request_handler "60" example_master_subscribed
        (example_broadcast "c1") 0 = some (false, bh') ∧
      bh'.trace = example_master_subscribed.trace ++ delta ∧
      results_sent_on "s1" delta =
        [.Object [(some "jsonrpc", .String "2.0"), (some "id", .String "50"),
          (some "result", .Object [(some "event", .String "e"), (some "protocol", .String "p"),
            (some "realm", .String "r")])]]) ∧
    (∃ ret bh' delta,
      blade_protocol_broadcast_request_handler example_master_subscribed
        (example_broadcast "c1") 0 = some (ret, bh') ∧
      bh'.trace = example_master_subscribed.trace ++ delta ∧
      results_sent_on "s1" delta =
        [.Object [(some "jsonrpc", .String "2.0"), (some "id", .String "50"),
          (some "result", .Object [(some "broadcaster-nodeid", .String "c1"),
            (some "event", .String "e"), (some "protocol", .String "p"),
            (some "realm", .String "r")])]]) :=
  let ⟨h1, h2⟩ := subscribe_broadcast_envelope_echo "60" example_master_subscribed
    (example_broadcast "c1") 0
    (.Object [(some "broadcaster-nodeid", .String "c1"), (some "event", .String "e"),
      (some "protocol", .String "p"), (some "realm", .String "r")]) "e" "p" "r"
    (by simp [example_master_subscribed, example_master, example_broadcast, example_session])
    rfl rfl rfl rfl
  ⟨h1, h2 "c1" rfl (Or.inr ⟨"m", rfl⟩)⟩

/-! ## Generators without an upstream session -/

/-- C18. At a node without upstream session each of the generators
`blade_protocol_register`, `blade_protocol_publish`, `blade_protocol_locate`,
`blade_protocol_subscribe` and `blade_protocol_subscribe_raw` returns
`DISCONNECTED` and leaves the state as it was, trace included: no message is
sent on any session, the response callback is neither registered nor called,
and the route table, the protocol registry and the subscription tree are
unchanged. -/
theorem generators_disconnected_without_upstream (bh : blade_handle_t)
    (hnone : blade_upstreammgr_session_get bh = none)
    (mid nodeid name realm event protocol : String) (remove : Bool)
    (callback : Option blade_rpc_response_callback_t) (data : Data)
    (event_callback : Option blade_rpc_request_callback_t) (event_data : Data) :
    blade_protocol_register bh mid nodeid remove callback data =
      (.KS_STATUS_DISCONNECTED, bh) ∧
    blade_protocol_publish bh mid name realm callback data =
      some (.KS_STATUS_DISCONNECTED, bh) ∧
    blade_protocol_locate bh mid name realm callback data =
      some (.KS_STATUS_DISCONNECTED, bh) ∧
    blade_protocol_subscribe bh mid event protocol realm remove callback data
      event_callback event_data = some (.KS_STATUS_DISCONNECTED, bh) ∧
    blade_protocol_subscribe_raw bh mid event protocol realm remove callback data =
      (.KS_STATUS_DISCONNECTED, bh) := by
  refine ⟨?_, ?_, ?_, ?_, ?_⟩
  · unfold blade_protocol_register
    simp only [hnone]
  · unfold blade_protocol_publish
    simp only [hnone]
  · unfold blade_protocol_locate
    simp only [hnone]
  · unfold blade_protocol_subscribe
    simp only [hnone]
  · unfold blade_protocol_subscribe_raw
    simp only [hnone]

/-- C18, instance: the generators at the master `m`, which has no upstream
session. -/
theorem generators_disconnected_without_upstream_witness :
    blade_protocol_register example_master "70" "c1" false none 0 =
      (.KS_STATUS_DISCONNECTED, example_master) ∧
    blade_protocol_publish example_master "70" "p" "r" none 0 =
      some (.KS_STATUS_DISCONNECTED, example_master) ∧
    blade_protocol_locate example_master "70" "p" "r" none 0 =
      some (.KS_STATUS_DISCONNECTED, example_master) ∧
    blade_protocol_subscribe example_master "70" "e" "p" "r" false none 0
      (some example_on_event) 9 = some (.KS_STATUS_DISCONNECTED, example_master) ∧
    blade_protocol_subscribe_raw example_master "70" "e" "p" "r" false none 0 =
      (.KS_STATUS_DISCONNECTED, example_master) :=
  generators_disconnected_without_upstream example_master rfl "70" "c1" "p" "r" "e" "p" false
    none 0 (some example_on_event) 9

/-! ## Configuration and startup -/

/-- The realms loop touches neither the core RPC table nor the transports. -/
theorem config_realms_frame (master_realms : config_setting_t) (indices : List Nat)
    (bh : blade_handle_t) :
    (blade_handle_config_realms master_realms indices bh).2.corerpcs = bh.corerpcs ∧
    (blade_handle_config_realms master_realms indices bh).2.transportmgr = bh.transportmgr := by
  induction indices generalizing bh with
  | nil => exact ⟨rfl, rfl⟩
  | cons index rest ih =>
    unfold blade_handle_config_realms
    cases config_setting_get_string_elem master_realms index with
    | none => exact ⟨rfl, rfl⟩
    | some realm => exact ih (blade_upstreammgr_realm_add bh realm)

/-- The configuration step touches neither the core RPC table nor the
transports. -/
theorem config_frame (bh : blade_handle_t) (config : Option config_setting_t) :
    (blade_handle_config bh config).2.corerpcs = bh.corerpcs ∧
    (blade_handle_config bh config).2.transportmgr = bh.transportmgr := by
  cases config with
  | none => exact ⟨rfl, rfl⟩
  | some config =>
    unfold blade_handle_config
    simp only []
    cases config_setting_is_group config with
    | false => exact ⟨rfl, rfl⟩
    | true =>
      simp only [Bool.not_true, Bool.false_eq_true, if_false]
      cases config_setting_get_member config "master" with
      | none => exact ⟨rfl, rfl⟩
      | some master =>
        simp only []
        have hA : (match config_lookup_from master "nodeid" with
            | some master_nodeid =>
              if (config_setting_type master_nodeid != .CONFIG_TYPE_STRING) = true then
                (ks_status_t.KS_STATUS_FAIL, bh)
              else
                (ks_status_t.KS_STATUS_SUCCESS,
                  blade_upstreammgr_masterid_set
                    (blade_upstreammgr_localid_set bh (config_setting_get_string master_nodeid))
                    (config_setting_get_string master_nodeid))
            | none => (ks_status_t.KS_STATUS_SUCCESS, bh)).2.corerpcs = bh.corerpcs ∧
          (match config_lookup_from master "nodeid" with
            | some master_nodeid =>
              if (config_setting_type master_nodeid != .CONFIG_TYPE_STRING) = true then
                (ks_status_t.KS_STATUS_FAIL, bh)
              else
                (ks_status_t.KS_STATUS_SUCCESS,
                  blade_upstreammgr_masterid_set
                    (blade_upstreammgr_localid_set bh (config_setting_get_string master_nodeid))
                    (config_setting_get_string master_nodeid))
            | none => (ks_status_t.KS_STATUS_SUCCESS, bh)).2.transportmgr = bh.transportmgr := by
          cases config_lookup_from master "nodeid" with
          | none => exact ⟨rfl, rfl⟩
          | some master_nodeid =>
            simp only []
            split <;> exact ⟨rfl, rfl⟩
        generalize (match config_lookup_from master "nodeid" with
            | some master_nodeid =>
              if (config_setting_type master_nodeid != .CONFIG_TYPE_STRING) = true then
                (ks_status_t.KS_STATUS_FAIL, bh)
              else
                (ks_status_t.KS_STATUS_SUCCESS,
                  blade_upstreammgr_masterid_set
                    (blade_upstreammgr_localid_set bh (config_setting_get_string master_nodeid))
                    (config_setting_get_string master_nodeid))
            | none => (ks_status_t.KS_STATUS_SUCCESS, bh)) = after at hA ⊢
        split
        · exact hA
        · cases config_lookup_from master "realms" with
          | none => exact hA
          | some master_realms =>
            simp only []
            split
            · exact hA
            · split
              · obtain ⟨h1, h2⟩ := config_realms_frame master_realms
                  (List.range (config_setting_length master_realms)) after.2
                exact ⟨h1.trans hA.1, h2.trans hA.2⟩
              · exact hA

/-- C20. After a `blade_handle_startup` that returns `SUCCESS` on a handle
whose core RPC table is empty (a freshly created handle), the core RPC table
holds exactly six entries, `blade.register`, `blade.publish`, `blade.locate`,
`blade.execute`, `blade.subscribe` and `blade.broadcast`, each without
protocol and realm and each bound to its own request handler; the transport
for secure websockets is the default transport and registered, and the
transport manager is started.  When applying the configuration fails, startup
returns `FAIL`, the core RPC table and the transport manager are as they were:
no core RPC and no transport is registered and the transport manager is not
started. -/
theorem startup_registers_core_rpcs (mid : String) (bh : blade_handle_t)
    (config : Option config_setting_t) :
    ((blade_handle_startup bh config).1 = .KS_STATUS_SUCCESS → bh.corerpcs = [] →
      (blade_handle_startup bh config).2.corerpcs =
        [{ method := "blade.register", protocol := none, realm := none,
           callback := .register, data := 0 },
         { method := "blade.publish", protocol := none, realm := none,
           callback := .publish, data := 0 },
         { method := "blade.locate", protocol := none, realm := none,
           callback := .locate, data := 0 },
         { method := "blade.execute", protocol := none, realm := none,
           callback := .execute, data := 0 },
         { method := "blade.subscribe", protocol := none, realm := none,
           callback := .subscribe, data := 0 },
         { method := "blade.broadcast", protocol := none, realm := none,
           callback := .broadcast, data := 0 }] ∧
      (blade_handle_startup bh config).2.corerpcs.map
          (fun brpc => (brpc.method, brpc.callback.handler mid)) =
        [("blade.register", blade_protocol_register_request_handler),
         ("blade.publish", blade_protocol_publish_request_handler),
         ("blade.locate", blade_protocol_locate_request_handler),
         ("blade.execute", blade_protocol_execute_request_handler),
         ("blade.subscribe", blade_protocol_subscribe_request_handler mid),
         ("blade.broadcast", blade_protocol_broadcast_request_handler)] ∧
      (blade_handle_startup bh config).2.transportmgr.default_transport =
        some blade_transport_wss_create ∧
      blade_transport_wss_create ∈ (blade_handle_startup bh config).2.transportmgr.transports ∧
      (blade_handle_startup bh config).2.transportmgr.started = true) ∧
    ((blade_handle_config bh config).1 ≠ .KS_STATUS_SUCCESS →
      (blade_handle_startup bh config).1 = .KS_STATUS_FAIL ∧
      (blade_handle_startup bh config).2.corerpcs = bh.corerpcs ∧
      (blade_handle_startup bh config).2.transportmgr = bh.transportmgr) := by
  obtain ⟨hfc, hft⟩ := config_frame bh config
  constructor
  · intro hok hfresh
    have hcfg : (blade_handle_config bh config).1 = .KS_STATUS_SUCCESS := by
      by_cases h : (blade_handle_config bh config).1 = .KS_STATUS_SUCCESS
      · exact h
      · unfold blade_handle_startup at hok
        simp [h] at hok
    have hcore : (blade_handle_startup bh config).2.corerpcs =
        [{ method := "blade.register", protocol := none, realm := none,
           callback := .register, data := 0 },
         { method := "blade.publish", protocol := none, realm := none,
           callback := .publish, data := 0 },
         { method := "blade.locate", protocol := none, realm := none,
           callback := .locate, data := 0 },
         { method := "blade.execute", protocol := none, realm := none,
           callback := .execute, data := 0 },
         { method := "blade.subscribe", protocol := none, realm := none,
           callback := .subscribe, data := 0 },
         { method := "blade.broadcast", protocol := none, realm := none,
           callback := .broadcast, data := 0 }] := by
      unfold blade_handle_startup
      simp [hcfg, blade_transportmgr_startup, blade_rpcmgr_corerpc_add, blade_rpc_create,
        blade_transportmgr_transport_add, blade_transportmgr_default_set, hfc, hfresh]
    refine ⟨hcore, ?_, ?_, ?_, ?_⟩
    · rw [hcore]
      rfl
    · unfold blade_handle_startup
      simp [hcfg, blade_transportmgr_startup, blade_rpcmgr_corerpc_add,
        blade_transportmgr_transport_add, blade_transportmgr_default_set]
    · unfold blade_handle_startup
      simp [hcfg, blade_transportmgr_startup, blade_rpcmgr_corerpc_add,
        blade_transportmgr_transport_add, blade_transportmgr_default_set]
    · unfold blade_handle_startup
      simp [hcfg, blade_transportmgr_startup]
  · intro hfail
    unfold blade_handle_startup
    simp [hfail, hfc, hft]

/-- C20, instances: startup of a handle on which nothing is registered with
the configuration of the master `m`, and with a configuration whose
`master.nodeid` is not a string. -/
theorem startup_registers_core_rpcs_witness :
    ((blade_handle_startup example_fresh (some example_config)).2.corerpcs.map
        (fun brpc => (brpc.method, brpc.protocol, brpc.realm, brpc.callback)) =
      [("blade.register", none, none, .register), ("blade.publish", none, none, .publish),
       ("blade.locate", none, none, .locate), ("blade.execute", none, none, .execute),
       ("blade.subscribe", none, none, .subscribe),
       ("blade.broadcast", none, none, .broadcast)] ∧
      (blade_handle_startup example_fresh (some example_config)).2.transportmgr.started =
        true) ∧
    ((blade_handle_startup example_fresh
        (some (.group [("master", .group [("nodeid", .int 5)])]))).1 = .KS_STATUS_FAIL ∧
      (blade_handle_startup example_fresh
        (some (.group [("master", .group [("nodeid", .int 5)])]))).2.corerpcs = [] ∧
      (blade_handle_startup example_fresh
        (some (.group [("master", .group [("nodeid", .int 5)])]))).2.transportmgr.started =
        false) := by
  obtain ⟨h1, _, _, _, h5⟩ := (startup_registers_core_rpcs "80" example_fresh
    (some example_config)).1 rfl rfl
  obtain ⟨g1, g2, g3⟩ := (startup_registers_core_rpcs "80" example_fresh
    (some (.group [("master", .group [("nodeid", .int 5)])]))).2 (by intro h; cases h)
  refine ⟨⟨?_, h5⟩, g1, g2, ?_⟩
  · rw [h1]; rfl
  · rw [g3]; rfl


/-! ## Connecting upstream -/

/-- The connect on a handle without an upstream session, in closed form: the
transport named by the target (or the default transport) is looked up and its
connect callback, when it has one, is called and decides the status. -/
theorem connect_not_established
    (callbacks_get : blade_transport_t → Option blade_transport_callbacks_t)
    (bh : blade_handle_t) (target : blade_identity_t) (session_id : Option String)
    (bt : blade_transport_t) (onconnect : blade_transport_connect_callback_t)
    (hup : bh.upstreammgr.sessionid = none)
    (hbt : (blade_transportmgr_transport_lookup bh
      (blade_identity_parameter_get target "transport") true).1 = some bt)
    (hcb : callbacks_get bt = some { onconnect := some onconnect }) :
    blade_handle_connect callbacks_get bh target session_id =
      some (onconnect bt target session_id,
        { bh with trace := bh.trace ++
          [.transportmgr_transport_lookup (blade_identity_parameter_get target "transport") true,
           .transport_onconnect bt target session_id] }) := by
  unfold blade_handle_connect
  simp only [blade_upstreammgr_session_established, hup, Option.isSome_none, Bool.false_eq_true,
    if_false, hbt, hcb]
  simp [blade_transportmgr_transport_lookup, blade_handle_t.emit]

/-- C21. For every handle whose upstream session is already established, every
target identity, every session id and whatever callbacks the transports have,
`blade_handle_connect` returns `KS_STATUS_DUPLICATE_OPERATION` and leaves the
handle as it was: its trace gains no transport lookup and no call of a
transport's connect callback. -/
theorem connect_duplicate_when_established
    (callbacks_get : blade_transport_t → Option blade_transport_callbacks_t)
    (bh : blade_handle_t) (target : blade_identity_t) (session_id : Option String)
    (hup : blade_upstreammgr_session_established bh = true) :
    blade_handle_connect callbacks_get bh target session_id =
      some (.KS_STATUS_DUPLICATE_OPERATION, bh) := by
  unfold blade_handle_connect
  simp [hup]

/-- C21, instance: the node `c1` has the upstream session `u`; a connect to a
target over `wss` is refused as a duplicate operation. -/
theorem connect_duplicate_when_established_witness :
    blade_upstreammgr_session_established example_child = true ∧
    blade_handle_connect example_transport_callbacks example_child example_target none =
      some (.KS_STATUS_DUPLICATE_OPERATION, example_child) :=
  ⟨rfl, connect_duplicate_when_established example_transport_callbacks example_child
    example_target none rfl⟩

/-! ## Creation and destruction of the handle -/

/-- C24, as stated, fails: the destruction frees the managers in an order that
is not the reverse of the order of their creation, and the session manager is
not freed before the connection manager (it is freed after it). -/
theorem teardown_order_not_reverse_of_creation :
    managers_freed blade_handle_destroy ≠ (managers_allocated blade_handle_create).reverse ∧
    freed_before blade_handle_destroy .sessionmgr .connectionmgr = false ∧
    freed_before blade_handle_destroy .connectionmgr .sessionmgr = true := by
  decide

/-- C24, amended. When a handle is destroyed, the shutdown of the transport,
connection and session managers comes first; then the managers are freed in
the same order in which `blade_handle_create` allocated them (transport, RPC,
route, subscription, upstream, master, connection, session manager), and the
thread pool is destroyed last.  In particular the subscription manager is
freed before the session manager, and the connection manager is freed before
the session manager. -/
theorem teardown_order_is_creation_order :
    managers_freed blade_handle_destroy = managers_allocated blade_handle_create ∧
    managers_allocated blade_handle_create =
      [.transportmgr, .rpcmgr, .routemgr, .subscriptionmgr, .upstreammgr, .mastermgr,
       .connectionmgr, .sessionmgr] ∧
    freed_before blade_handle_destroy .subscriptionmgr .sessionmgr = true ∧
    freed_before blade_handle_destroy .connectionmgr .sessionmgr = true ∧
    blade_handle_destroy =
      blade_handle_shutdown ++
      (managers_allocated blade_handle_create).map lifecycle_t.manager_destroy ++
      [.thread_pool_destroy] := by
  decide

/-! ## The broadcaster at the receiving side -/

/-- The publish and locate generators at a node with a local id, a master id
and an upstream session, in closed form. -/
theorem master_request_generators_send (bh : blade_handle_t) (mid P R L M U : String)
    (callback : Option blade_rpc_response_callback_t) (data : Data)
    (hL : bh.upstreammgr.localid = some L)
    (hM : bh.upstreammgr.masterid = some M)
    (hup : bh.upstreammgr.sessionid = some U)
    (hU : U ∈ bh.sessionmgr.map (fun bs => bs.id)) :
    ∃ bs : blade_session_t, bs.id = U ∧
      blade_protocol_publish bh mid P R callback data =
        some (bs.send_ret
            (blade_rpc_request_raw_create mid "blade.publish" (master_request_params P R L M)),
          { bh with trace := bh.trace ++
            [.session_read_lock U,
             .session_send U
               (blade_rpc_request_raw_create mid "blade.publish" (master_request_params P R L M))
               callback data,
             .session_read_unlock U] }) ∧
      blade_protocol_locate bh mid P R callback data =
        some (bs.send_ret
            (blade_rpc_request_raw_create mid "blade.locate" (master_request_params P R L M)),
          { bh with trace := bh.trace ++
            [.session_read_lock U,
             .session_send U
               (blade_rpc_request_raw_create mid "blade.locate" (master_request_params P R L M))
               callback data,
             .session_read_unlock U] }) := by
  obtain ⟨bs, hid, hl⟩ := session_lookup_of_mem bh U hU
  refine ⟨bs, hid, ?_, ?_⟩
  · unfold blade_protocol_publish blade_upstreammgr_session_get
    simp only [hup, hl]
    simp [blade_upstreammgr_localid_copy, blade_upstreammgr_masterid_copy, hL, hM,
      blade_session_read_unlock, blade_session_send, blade_handle_t.emit, hid,
      master_request_params, cJSON_AddStringToObject, cJSON_AddItemToObject,
      cJSON_CreateObject, cJSON_CreateString]
  · unfold blade_protocol_locate blade_upstreammgr_session_get
    simp only [hup, hl]
    simp [blade_upstreammgr_localid_copy, blade_upstreammgr_masterid_copy, hL, hM,
      blade_session_read_unlock, blade_session_send, blade_handle_t.emit, hid,
      master_request_params, cJSON_AddStringToObject, cJSON_AddItemToObject,
      cJSON_CreateObject, cJSON_CreateString]

/-- C26. Generator/handler agreement for master-addressed requests.  At a node
with local id `L`, master id `M` and an upstream session `U`, for every
protocol `P` and realm `R`, `blade_protocol_publish` returns after sending on
`U` exactly one request `req`, whose method is `blade.publish` and whose
params are `{protocol: P, realm: R, requester-nodeid: L, responder-nodeid:
M}`.  When `req` arrives on a known session `S` of a node whose master id is
`M`, the publish request handler sends on `S` exactly one response; it has the
id of the request, a `result` and no `error`.  The same holds for
`blade_protocol_locate` and the locate request handler. -/
theorem master_request_generator_handler_agreement (bh master : blade_handle_t)
    (mid P R L M U S : String) (callback : Option blade_rpc_response_callback_t)
    (data d : Data)
    (hL : bh.upstreammgr.localid = some L)
    (hM : bh.upstreammgr.masterid = some M)
    (hup : bh.upstreammgr.sessionid = some U)
    (hU : U ∈ bh.sessionmgr.map (fun bs => bs.id))
    (hmaster : master.upstreammgr.masterid = some M)
    (hS : S ∈ master.sessionmgr.map (fun bs => bs.id)) :
    (∃ st bh' req master' res,
      blade_protocol_publish bh mid P R callback data = some (st, bh') ∧
      bh'.trace = bh.trace ++
        [.session_read_lock U, .session_send U req callback data, .session_read_unlock U] ∧
      cJSON_GetObjectCstr req "method" = some "blade.publish" ∧
      cJSON_GetObjectCstr req "id" = some mid ∧
      cJSON_GetObjectItem req "params" = some (master_request_params P R L M) ∧
      blade_protocol_publish_request_handler master (received_request S mid req) d =
        some (false, master') ∧
      master'.trace = master.trace ++
        [.session_read_lock S, .session_send S res none 0, .session_read_unlock S] ∧
      cJSON_GetObjectCstr res "id" = some mid ∧
      (cJSON_GetObjectItem res "result").isSome = true ∧
      cJSON_GetObjectItem res "error" = none) ∧
    (∃ st bh' req master' res,
      blade_protocol_locate bh mid P R callback data = some (st, bh') ∧
      bh'.trace = bh.trace ++
        [.session_read_lock U, .session_send U req callback data, .session_read_unlock U] ∧
      cJSON_GetObjectCstr req "method" = some "blade.locate" ∧
      cJSON_GetObjectCstr req "id" = some mid ∧
      cJSON_GetObjectItem req "params" = some (master_request_params P R L M) ∧
      blade_protocol_locate_request_handler master (received_request S mid req) d =
        some (false, master') ∧
      master'.trace = master.trace ++
        [.session_read_lock S, .session_send S res none 0, .session_read_unlock S] ∧
      cJSON_GetObjectCstr res "id" = some mid ∧
      (cJSON_GetObjectItem res "result").isSome = true ∧
      cJSON_GetObjectItem res "error" = none) := by
  obtain ⟨bs, _, hpub, hloc⟩ := master_request_generators_send bh mid P R L M U callback data
    hL hM hup hU
  constructor
  · have hh := publish_handler_accept master
      (received_request S mid
        (blade_rpc_request_raw_create mid "blade.publish" (master_request_params P R L M)))
      d (master_request_params P R L M) P R L M hS rfl rfl rfl rfl rfl hmaster
    obtain ⟨htr, _⟩ := controller_add_frame (master.emit (.session_read_lock S)) P R L
    refine ⟨_, _, _, _,
      blade_rpc_response_raw_create mid
        (.Object [(some "protocol", .String P), (some "realm", .String R),
          (some "requester-nodeid", .String L), (some "responder-nodeid", .String M)]),
      hpub, rfl, rfl, rfl, rfl, hh, ?_, ?_, ?_, ?_⟩
    · simp only [blade_handle_t.emit, received_request] at htr ⊢
      rw [htr]
      simp
    · rfl
    · rfl
    · rfl
  · have hh := locate_handler_accept master
      (received_request S mid
        (blade_rpc_request_raw_create mid "blade.locate" (master_request_params P R L M)))
      d (master_request_params P R L M) P R L M hS rfl rfl rfl rfl rfl hmaster
    refine ⟨_, _, _, _,
      blade_rpc_response_raw_create mid
        (.Object [(some "protocol", .String P), (some "realm", .String R),
          (some "requester-nodeid", .String L), (some "responder-nodeid", .String M),
          (some "controllers",
            .Object ((registered_controllers master P R).map
              (fun key => (none, cJSON.String key))))]),
      hloc, rfl, rfl, rfl, rfl, hh, ?_, ?_, ?_, ?_⟩
    · simp [blade_handle_t.emit, received_request]
    · rfl
    · rfl
    · rfl

/-- C26, instance: the node `c1` with upstream session `u` and master `m`
publishes and locates `(p, r)`; the master `m` receives the requests on its
session `s1`. -/
theorem master_request_generator_handler_agreement_witness :
    (∃ st bh' req master' res,
      blade_protocol_publish example_child "7" "p" "r" none 0 = some (st, bh') ∧
      bh'.trace = example_child.trace ++
        [.session_read_lock "u", .session_send "u" req none 0, .session_read_unlock "u"] ∧
      cJSON_GetObjectCstr req "method" = some "blade.publish" ∧
      cJSON_GetObjectCstr req "id" = some "7" ∧
      cJSON_GetObjectItem req "params" = some (master_request_params "p" "r" "c1" "m") ∧
      blade_protocol_publish_request_handler example_master (received_request "s1" "7" req) 0 =
        some (false, master') ∧
      master'.trace = example_master.trace ++
        [.session_read_lock "s1", .session_send "s1" res none 0, .session_read_unlock "s1"] ∧
      cJSON_GetObjectCstr res "id" = some "7" ∧
      (cJSON_GetObjectItem res "result").isSome = true ∧
      cJSON_GetObjectItem res "error" = none) ∧
    (∃ st bh' req master' res,
      blade_protocol_locate example_child "7" "p" "r" none 0 = some (st, bh') ∧
      bh'.trace = example_child.trace ++
        [.session_read_lock "u", .session_send "u" req none 0, .session_read_unlock "u"] ∧
      cJSON_GetObjectCstr req "method" = some "blade.locate" ∧
      cJSON_GetObjectCstr req "id" = some "7" ∧
      cJSON_GetObjectItem req "params" = some (master_request_params "p" "r" "c1" "m") ∧
      blade_protocol_locate_request_handler example_master (received_request "s1" "7" req) 0 =
        some (false, master') ∧
      master'.trace = example_master.trace ++
        [.session_read_lock "s1", .session_send "s1" res none 0, .session_read_unlock "s1"] ∧
      cJSON_GetObjectCstr res "id" = some "7" ∧
      (cJSON_GetObjectItem res "result").isSome = true ∧
      cJSON_GetObjectItem res "error" = none) :=
  master_request_generator_handler_agreement example_child example_master
    "7" "p" "r" "c1" "m" "u" "s1" none 0 0 rfl rfl rfl
    (by simp [example_child, example_session]) rfl
    (by simp [example_master, example_session])

/-! ## Read-lock balance -/

/-- The read-lock count of a trace extended by more events. -/
theorem read_lock_count_append (sid : String) (t u : List Event) :
    read_lock_count sid (t ++ u) = read_lock_count sid t + read_lock_count sid u := by
  simp [read_lock_count, List.map_append, List.sum_append]

/-- Obtaining a session read-locked raises its count by one. -/
theorem read_lock_count_lock (sid : String) (bh : blade_handle_t) (x : String) :
    read_lock_count sid (bh.emit (.session_read_lock x)).trace =
      read_lock_count sid bh.trace + (if x = sid then 1 else 0) := by
  simp [blade_handle_t.emit, read_lock_count_append, read_lock_count]

/-- Unlocking a session lowers its count by one. -/
theorem read_lock_count_unlock (sid : String) (bh : blade_handle_t) (bs : blade_session_t) :
    read_lock_count sid (blade_session_read_unlock bh bs).trace =
      read_lock_count sid bh.trace - (if bs.id = sid then 1 else 0) := by
  simp only [blade_session_read_unlock, blade_handle_t.emit, read_lock_count_append]
  simp only [read_lock_count, List.map_cons, List.map_nil, List.sum_cons, List.sum_nil]
  split <;> simp [Int.sub_eq_add_neg]

/-- Sending on a session leaves the counts as they are. -/
theorem read_lock_count_send (sid : String) (bh : blade_handle_t) (bs : blade_session_t)
    (json : cJSON) (callback : Option blade_rpc_response_callback_t) (data : Data) :
    read_lock_count sid (blade_session_send bh bs json callback data).2.trace =
      read_lock_count sid bh.trace := by
  simp [blade_session_send, blade_handle_t.emit, read_lock_count_append, read_lock_count]

/-- The register handler leaves every read-lock count as it was. -/
theorem register_handler_balance (sid : String) (bh : blade_handle_t)
    (brpcreq : blade_rpc_request_t) (data : Data) (r : Bool × blade_handle_t)
    (h : blade_protocol_register_request_handler bh brpcreq data = some r) :
    read_lock_count sid r.2.trace = read_lock_count sid bh.trace := by
  unfold blade_protocol_register_request_handler at h
  cases hl : blade_sessionmgr_session_lookup bh (blade_rpc_request_sessionid_get brpcreq) with
  | none => rw [hl] at h; cases h
  | some found =>
    obtain ⟨bs, bh1⟩ := found
    have hbh1 := session_lookup_some bh bh1 _ bs hl
    subst hbh1
    rw [hl] at h
    simp only [] at h
    repeat' split at h
    all_goals
      cases h
      simp [read_lock_count_unlock, read_lock_count_send, read_lock_count_lock,
        blade_routemgr_route_remove, blade_session_route_remove, blade_routemgr_route_add,
        blade_session_route_add]

/-- The changes of the registry, the subscription tree and the fan-out leave
every read-lock count as it was. -/
theorem read_lock_count_frames (sid : String) (bh : blade_handle_t) :
    (∀ P R X, read_lock_count sid (blade_mastermgr_controller_add bh P R X).trace =
      read_lock_count sid bh.trace) ∧
    (∀ E P R target,
      read_lock_count sid (blade_subscriptionmgr_subscriber_add bh E P R target).2.trace =
        read_lock_count sid bh.trace) ∧
    (∀ E P R target,
      read_lock_count sid (blade_subscriptionmgr_subscriber_remove bh E P R target).2.trace =
        read_lock_count sid bh.trace) ∧
    (∀ E P R cb d, read_lock_count sid (blade_subscription_callback_set bh E P R cb d).trace =
      read_lock_count sid bh.trace) ∧
    (∀ B X E P R params cb d,
      read_lock_count sid (blade_subscriptionmgr_broadcast bh B X E P R params cb d).2.trace =
        read_lock_count sid bh.trace) ∧
    (∀ cb req d, read_lock_count sid (bh.emit (.request_callback cb req d)).trace =
      read_lock_count sid bh.trace) := by
  refine ⟨?_, ?_, ?_, ?_, ?_, ?_⟩
  · intro P R X
    rw [(controller_add_frame bh P R X).1]
  · intro E P R target
    rw [(subscriber_change_trace bh E P R target).1]
  · intro E P R target
    rw [(subscriber_change_trace bh E P R target).2]
  · intro E P R cb d
    rfl
  · intro B X E P R params cb d
    simp [blade_subscriptionmgr_broadcast, blade_handle_t.emit, read_lock_count_append,
      read_lock_count]
  · intro cb req d
    simp [blade_handle_t.emit, read_lock_count_append, read_lock_count]

/-- The raw subscribe generator leaves every read-lock count as it was. -/
theorem subscribe_raw_balance (sid : String) (bh : blade_handle_t) (mid E P R : String)
    (remove : Bool) (callback : Option blade_rpc_response_callback_t) (data : Data) :
    read_lock_count sid (blade_protocol_subscribe_raw bh mid E P R remove callback data).2.trace =
      read_lock_count sid bh.trace := by
  rcases subscribe_raw_trace bh mid E P R remove callback data with h | ⟨U, h⟩
  · rw [h]
  · rw [h, read_lock_count_append]
    simp only [read_lock_count, List.map_cons, List.map_nil, List.sum_cons, List.sum_nil]
    split <;> simp

/-- The publish handler leaves every read-lock count as it was. -/
theorem publish_handler_balance (sid : String) (bh : blade_handle_t)
    (brpcreq : blade_rpc_request_t) (data : Data) (r : Bool × blade_handle_t)
    (h : blade_protocol_publish_request_handler bh brpcreq data = some r) :
    read_lock_count sid r.2.trace = read_lock_count sid bh.trace := by
  unfold blade_protocol_publish_request_handler at h
  cases hl : blade_sessionmgr_session_lookup bh (blade_rpc_request_sessionid_get brpcreq) with
  | none => rw [hl] at h; cases h
  | some found =>
    obtain ⟨bs, bh1⟩ := found
    have hbh1 := session_lookup_some bh bh1 _ bs hl
    subst hbh1
    rw [hl] at h
    simp only [] at h
    repeat' split at h
    all_goals
      cases h
      simp [read_lock_count_unlock, read_lock_count_send, read_lock_count_lock,
        (read_lock_count_frames sid _).1]

/-- The locate handler leaves every read-lock count as it was. -/
theorem locate_handler_balance (sid : String) (bh : blade_handle_t)
    (brpcreq : blade_rpc_request_t) (data : Data) (r : Bool × blade_handle_t)
    (h : blade_protocol_locate_request_handler bh brpcreq data = some r) :
    read_lock_count sid r.2.trace = read_lock_count sid bh.trace := by
  unfold blade_protocol_locate_request_handler at h
  cases hl : blade_sessionmgr_session_lookup bh (blade_rpc_request_sessionid_get brpcreq) with
  | none => rw [hl] at h; cases h
  | some found =>
    obtain ⟨bs, bh1⟩ := found
    have hbh1 := session_lookup_some bh bh1 _ bs hl
    subst hbh1
    rw [hl] at h
    simp only [] at h
    repeat' split at h
    all_goals
      cases h
      simp [read_lock_count_unlock, read_lock_count_send, read_lock_count_lock]

/-- The execute handler leaves every read-lock count as it was. -/
theorem execute_handler_balance (sid : String) (bh : blade_handle_t)
    (brpcreq : blade_rpc_request_t) (data : Data) (r : Bool × blade_handle_t)
    (h : blade_protocol_execute_request_handler bh brpcreq data = some r) :
    read_lock_count sid r.2.trace = read_lock_count sid bh.trace := by
  unfold blade_protocol_execute_request_handler at h
  cases hl : blade_sessionmgr_session_lookup bh (blade_rpc_request_sessionid_get brpcreq) with
  | none => rw [hl] at h; cases h
  | some found =>
    obtain ⟨bs, bh1⟩ := found
    have hbh1 := session_lookup_some bh bh1 _ bs hl
    subst hbh1
    rw [hl] at h
    simp only [] at h
    repeat' split at h
    all_goals
      cases h
      simp [read_lock_count_unlock, read_lock_count_send, read_lock_count_lock,
        (read_lock_count_frames sid _).2.2.2.2.2]

/-- The subscribe handler leaves every read-lock count as it was, whether or
not it propagates the change upstream. -/
theorem subscribe_handler_balance (sid mid : String) (bh : blade_handle_t)
    (brpcreq : blade_rpc_request_t) (data : Data) (r : Bool × blade_handle_t)
    (h : blade_protocol_subscribe_request_handler mid bh brpcreq data = some r) :
    read_lock_count sid r.2.trace = read_lock_count sid bh.trace := by
  unfold blade_protocol_subscribe_request_handler at h
  cases hl : blade_sessionmgr_session_lookup bh (blade_rpc_request_sessionid_get brpcreq) with
  | none => rw [hl] at h; cases h
  | some found =>
    obtain ⟨bs, bh1⟩ := found
    have hbh1 := session_lookup_some bh bh1 _ bs hl
    subst hbh1
    rw [hl] at h
    simp only [] at h
    repeat' split at h
    all_goals
      cases h
      simp [read_lock_count_unlock, read_lock_count_send, read_lock_count_lock,
        subscribe_raw_balance, (read_lock_count_frames sid _).2.1,
        (read_lock_count_frames sid _).2.2.1]

/-- The broadcast handler leaves every read-lock count as it was. -/
theorem broadcast_handler_balance (sid : String) (bh : blade_handle_t)
    (brpcreq : blade_rpc_request_t) (data : Data) (r : Bool × blade_handle_t)
    (h : blade_protocol_broadcast_request_handler bh brpcreq data = some r) :
    read_lock_count sid r.2.trace = read_lock_count sid bh.trace := by
  unfold blade_protocol_broadcast_request_handler at h
  cases hl : blade_sessionmgr_session_lookup bh (blade_rpc_request_sessionid_get brpcreq) with
  | none => rw [hl] at h; cases h
  | some found =>
    obtain ⟨bs, bh1⟩ := found
    have hbh1 := session_lookup_some bh bh1 _ bs hl
    subst hbh1
    rw [hl] at h
    simp only [] at h
    repeat' split at h
    all_goals
      first
      | (cases h; done)
      | (cases h
         simp [read_lock_count_unlock, read_lock_count_send, read_lock_count_lock]
         done)
      | (cases h
         rename_i hdelivered
         repeat' split at hdelivered
         all_goals
           first
           | (cases hdelivered; done)
           | (cases hdelivered
              simp [read_lock_count_unlock, read_lock_count_send, read_lock_count_lock,
                (read_lock_count_frames sid _).2.2.2.2.1,
                (read_lock_count_frames sid _).2.2.2.2.2]))

/-- The response helper of `blade.execute` leaves every read-lock count as it
was. -/
theorem execute_response_send_balance (sid : String) (bh : blade_handle_t)
    (brpcreq : blade_rpc_request_t) (result : Option cJSON) (bh' : blade_handle_t)
    (h : blade_protocol_execute_response_send bh brpcreq result = some bh') :
    read_lock_count sid bh'.trace = read_lock_count sid bh.trace := by
  unfold blade_protocol_execute_response_send at h
  cases hl : blade_sessionmgr_session_lookup bh (blade_rpc_request_sessionid_get brpcreq) with
  | none => rw [hl] at h; cases h
  | some found =>
    obtain ⟨bs, bh1⟩ := found
    have hbh1 := session_lookup_some bh bh1 _ bs hl
    subst hbh1
    rw [hl] at h
    simp only [] at h
    repeat' split at h
    all_goals
      first
      | (cases h; done)
      | (cases h
         simp [read_lock_count_unlock, read_lock_count_send, read_lock_count_lock])

/-- The register generator leaves every read-lock count as it was. -/
theorem register_generator_balance (sid : String) (bh : blade_handle_t) (mid nodeid : String)
    (remove : Bool) (callback : Option blade_rpc_response_callback_t) (data : Data) :
    read_lock_count sid (blade_protocol_register bh mid nodeid remove callback data).2.trace =
      read_lock_count sid bh.trace := by
  unfold blade_protocol_register
  cases hu : blade_upstreammgr_session_get bh with
  | none => rfl
  | some found =>
    obtain ⟨bs, bh1⟩ := found
    have hbh1 := upstream_session_some bh bh1 bs hu
    subst hbh1
    simp [read_lock_count_unlock, read_lock_count_send, read_lock_count_lock]

/-- The publish and locate generators leave every read-lock count as it was. -/
theorem master_request_generators_balance (sid : String) (bh : blade_handle_t)
    (mid P R : String) (callback : Option blade_rpc_response_callback_t) (data : Data)
    (r : ks_status_t × blade_handle_t)
    (h : blade_protocol_publish bh mid P R callback data = some r ∨
      blade_protocol_locate bh mid P R callback data = some r) :
    read_lock_count sid r.2.trace = read_lock_count sid bh.trace := by
  unfold blade_protocol_publish blade_protocol_locate at h
  cases hu : blade_upstreammgr_session_get bh with
  | none =>
    rw [hu] at h
    rcases h with h | h <;> cases h <;> rfl
  | some found =>
    obtain ⟨bs, bh1⟩ := found
    have hbh1 := upstream_session_some bh bh1 bs hu
    subst hbh1
    rw [hu] at h
    simp only [] at h
    rcases h with h | h
    all_goals
      repeat' split at h
      all_goals
        first
        | (cases h; done)
        | (cases h
           simp [read_lock_count_unlock, read_lock_count_send, read_lock_count_lock])

/-- The execute generator leaves every read-lock count as it was, whether the
session came from the route table or is the upstream session. -/
theorem execute_generator_balance (sid : String) (bh : blade_handle_t)
    (mid nodeid method protocol realm : String) (params : Option cJSON)
    (callback : Option blade_rpc_response_callback_t) (data : Data)
    (r : ks_status_t × blade_handle_t)
    (h : blade_protocol_execute bh mid nodeid method protocol realm params callback data =
      some r) :
    read_lock_count sid r.2.trace = read_lock_count sid bh.trace := by
  unfold blade_protocol_execute at h
  simp only [] at h
  cases hf : (match blade_routemgr_route_lookup bh nodeid with
      | some r => some r
      | none => blade_upstreammgr_session_get bh) with
  | none =>
    rw [hf] at h
    cases h
    rfl
  | some found =>
    obtain ⟨bs, bh1⟩ := found
    have hbh1 : bh1 = bh.emit (.session_read_lock bs.id) := by
      cases hr : blade_routemgr_route_lookup bh nodeid with
      | some x =>
        rw [hr] at hf
        simp only [Option.some.injEq] at hf
        subst hf
        exact route_lookup_some bh bh1 nodeid bs hr
      | none =>
        rw [hr] at hf
        exact upstream_session_some bh bh1 bs hf
    subst hbh1
    rw [hf] at h
    simp only [] at h
    repeat' split at h
    all_goals
      first
      | (cases h; done)
      | (cases h
         simp [read_lock_count_unlock, read_lock_count_send, read_lock_count_lock])

/-- The local subscribe generator leaves every read-lock count as it was, also
when it propagates the change with the raw generator. -/
theorem subscribe_generator_balance (sid : String) (bh : blade_handle_t)
    (mid event protocol realm : String) (remove : Bool)
    (callback : Option blade_rpc_response_callback_t) (data : Data)
    (event_callback : Option blade_rpc_request_callback_t) (event_data : Data)
    (r : ks_status_t × blade_handle_t)
    (h : blade_protocol_subscribe bh mid event protocol realm remove callback data
      event_callback event_data = some r) :
    read_lock_count sid r.2.trace = read_lock_count sid bh.trace := by
  unfold blade_protocol_subscribe at h
  cases hu : blade_upstreammgr_session_get bh with
  | none =>
    rw [hu] at h
    cases h
    rfl
  | some found =>
    obtain ⟨bs, bh1⟩ := found
    have hbh1 := upstream_session_some bh bh1 bs hu
    subst hbh1
    rw [hu] at h
    simp only [] at h
    repeat' split at h
    all_goals
      first
      | (cases h; done)
      | (cases h
         simp [read_lock_count_unlock, read_lock_count_send, read_lock_count_lock,
           subscribe_raw_balance, (read_lock_count_frames sid _).2.1,
           (read_lock_count_frames sid _).2.2.1, (read_lock_count_frames sid _).2.2.2.1])

/-- The broadcast generator obtains no session and leaves every read-lock
count as it was. -/
theorem broadcast_generator_balance (sid : String) (bh : blade_handle_t)
    (broadcaster_nodeid : Option String) (event protocol realm : String)
    (params : Option cJSON) (callback : Option blade_rpc_response_callback_t) (data : Data)
    (r : ks_status_t × blade_handle_t)
    (h : blade_protocol_broadcast bh broadcaster_nodeid event protocol realm params callback
      data = some r) :
    read_lock_count sid r.2.trace = read_lock_count sid bh.trace := by
  unfold blade_protocol_broadcast at h
  simp only [] at h
  repeat' split at h
  all_goals
    first
    | (cases h; done)
    | (cases h
       simp [(read_lock_count_frames sid _).2.2.2.2.1])

/-- The five handlers that make no assertion once the session is found return
for every request arriving on a known session. -/
theorem core_handlers_return (mid : String) (bh : blade_handle_t)
    (brpcreq : blade_rpc_request_t) (data : Data)
    (hs : brpcreq.session_id ∈ bh.sessionmgr.map (fun bs => bs.id)) :
    (∃ r, blade_protocol_register_request_handler bh brpcreq data = some r) ∧
    (∃ r, blade_protocol_publish_request_handler bh brpcreq data = some r) ∧
    (∃ r, blade_protocol_locate_request_handler bh brpcreq data = some r) ∧
    (∃ r, blade_protocol_execute_request_handler bh brpcreq data = some r) ∧
    (∃ r, blade_protocol_subscribe_request_handler mid bh brpcreq data = some r) := by
  obtain ⟨bs, hid, hl⟩ := session_lookup_of_mem bh brpcreq.session_id hs
  refine ⟨?_, ?_, ?_, ?_, ?_⟩
  · unfold blade_protocol_register_request_handler
    simp only [blade_rpc_request_sessionid_get, hl]
    repeat' split
    all_goals exact ⟨_, rfl⟩
  · unfold blade_protocol_publish_request_handler
    simp only [blade_rpc_request_sessionid_get, hl]
    repeat' split
    all_goals exact ⟨_, rfl⟩
  · unfold blade_protocol_locate_request_handler
    simp only [blade_rpc_request_sessionid_get, hl]
    repeat' split
    all_goals exact ⟨_, rfl⟩
  · unfold blade_protocol_execute_request_handler
    simp only [blade_rpc_request_sessionid_get, hl]
    repeat' split
    all_goals exact ⟨_, rfl⟩
  · unfold blade_protocol_subscribe_request_handler
    simp only [blade_rpc_request_sessionid_get, hl]
    repeat' split
    all_goals exact ⟨_, rfl⟩

/-- C22. Read-lock balance.  Whenever one of the six core request handlers,
`blade_protocol_execute_response_send` or one of the request generators
(register, publish, locate, execute, subscribe, the raw subscribe, broadcast)
returns, on whichever path (success, a validation error, `DISCONNECTED`), the
read-lock count of every session is what it was before the call: each session
the function obtained read-locked has been read-unlocked once.  The handlers of
register, publish, locate, execute and subscribe do return for every request
arriving on a known session. -/
theorem read_lock_balance (bh : blade_handle_t) (sid : String) :
    (∀ mid rpc brpcreq data r, core_rpc.handler mid rpc bh brpcreq data = some r →
      read_lock_count sid r.2.trace = read_lock_count sid bh.trace) ∧
    (∀ mid rpc brpcreq data, rpc ≠ core_rpc.broadcast →
      brpcreq.session_id ∈ bh.sessionmgr.map (fun bs => bs.id) →
      ∃ r, core_rpc.handler mid rpc bh brpcreq data = some r) ∧
    (∀ brpcreq result bh', blade_protocol_execute_response_send bh brpcreq result = some bh' →
      read_lock_count sid bh'.trace = read_lock_count sid bh.trace) ∧
    (∀ mid nodeid remove callback data,
      read_lock_count sid (blade_protocol_register bh mid nodeid remove callback data).2.trace =
        read_lock_count sid bh.trace) ∧
    (∀ mid P R callback data r, blade_protocol_publish bh mid P R callback data = some r →
      read_lock_count sid r.2.trace = read_lock_count sid bh.trace) ∧
    (∀ mid P R callback data r, blade_protocol_locate bh mid P R callback data = some r →
      read_lock_count sid r.2.trace = read_lock_count sid bh.trace) ∧
    (∀ mid nodeid method P R params callback data r,
      blade_protocol_execute bh mid nodeid method P R params callback data = some r →
      read_lock_count sid r.2.trace = read_lock_count sid bh.trace) ∧
    (∀ mid E P R remove callback data event_callback event_data r,
      blade_protocol_subscribe bh mid E P R remove callback data event_callback event_data =
        some r →
      read_lock_count sid r.2.trace = read_lock_count sid bh.trace) ∧
    (∀ mid E P R remove callback data,
      read_lock_count sid
        (blade_protocol_subscribe_raw bh mid E P R remove callback data).2.trace =
        read_lock_count sid bh.trace) ∧
    (∀ broadcaster E P R params callback data r,
      blade_protocol_broadcast bh broadcaster E P R params callback data = some r →
      read_lock_count sid r.2.trace = read_lock_count sid bh.trace) := by
  refine ⟨?_, ?_, ?_, ?_, ?_, ?_, ?_, ?_, ?_, ?_⟩
  · intro mid rpc brpcreq data r h
    cases rpc
    · exact register_handler_balance sid bh brpcreq data r h
    · exact publish_handler_balance sid bh brpcreq data r h
    · exact locate_handler_balance sid bh brpcreq data r h
    · exact execute_handler_balance sid bh brpcreq data r h
    · exact subscribe_handler_balance sid mid bh brpcreq data r h
    · exact broadcast_handler_balance sid bh brpcreq data r h
  · intro mid rpc brpcreq data hrpc hs
    obtain ⟨h1, h2, h3, h4, h5⟩ := core_handlers_return mid bh brpcreq data hs
    cases rpc
    · exact h1
    · exact h2
    · exact h3
    · exact h4
    · exact h5
    · exact absurd rfl hrpc
  · intro brpcreq result bh' h
    exact execute_response_send_balance sid bh brpcreq result bh' h
  · intro mid nodeid remove callback data
    exact register_generator_balance sid bh mid nodeid remove callback data
  · intro mid P R callback data r h
    exact master_request_generators_balance sid bh mid P R callback data r (Or.inl h)
  · intro mid P R callback data r h
    exact master_request_generators_balance sid bh mid P R callback data r (Or.inr h)
  · intro mid nodeid method P R params callback data r h
    exact execute_generator_balance sid bh mid nodeid method P R params callback data r h
  · intro mid E P R remove callback data event_callback event_data r h
    exact subscribe_generator_balance sid bh mid E P R remove callback data event_callback
      event_data r h
  · intro mid E P R remove callback data
    exact subscribe_raw_balance sid bh mid E P R remove callback data
  · intro broadcaster E P R params callback data r h
    exact broadcast_generator_balance sid bh broadcaster E P R params callback data r h

/-- C22, instance: the intermediate node `c1` handles the first subscribe of
session `d2`, which it propagates on the upstream session `u`: both sessions
are obtained read-locked and unlocked again; and the master `m` refuses a
subscribe request without an event on session `s1`, which it unlocks as well. -/
theorem read_lock_balance_witness :
    (∃ r, blade_protocol_subscribe_request_handler "61" example_intermediate
        (example_subscribe "d2" "60" false) 0 = some r ∧
      r.2.trace =
        [.session_read_lock "d2",
         .session_read_lock "u",
         .session_send "u" (subscribe_request "61" "e" "p" "r" false) none 0,
         .session_read_unlock "u",
         .session_send "d2"
           (blade_rpc_response_raw_create "60"
             (.Object [(some "event", .String "e"), (some "protocol", .String "p"),
               (some "realm", .String "r")]))
           none 0,
         .session_read_unlock "d2"] ∧
      read_lock_count "d2" r.2.trace = read_lock_count "d2" example_intermediate.trace ∧
      read_lock_count "u" r.2.trace = read_lock_count "u" example_intermediate.trace) ∧
    (∃ r, blade_protocol_subscribe_request_handler "61" example_master
        example_subscribe_no_event 0 = some r ∧
      read_lock_count "s1" r.2.trace = read_lock_count "s1" example_master.trace) :=
  ⟨⟨_, rfl, rfl,
      (read_lock_balance example_intermediate "d2").1 "61" .subscribe
        (example_subscribe "d2" "60" false) 0 _ rfl,
      (read_lock_balance example_intermediate "u").1 "61" .subscribe
        (example_subscribe "d2" "60" false) 0 _ rfl⟩,
    ⟨_, rfl,
      (read_lock_balance example_master "s1").1 "61" .subscribe
        example_subscribe_no_event 0 _ rfl⟩⟩

/-! ## The subscription-record invariant -/

/-- C23, evaluated: the node `c1`, which has the upstream session `u`,
subscribes event `e` of `(p, r)` locally with the callback `example_on_event`,
then the handler adds the subscriber of session `d2` for the same key: the
record has the subscribers `c1` and `d2` and the callback, and the invariant
holds.  Then `c1` unsubscribes with a local `blade_protocol_subscribe` call
with `remove` set that passes the same callback: the call returns `SUCCESS`,
the record remains with `d2` as its only subscriber, and the callback passed
with the remove is installed in it.  The local node id is not among the
subscribers although the record has a local callback. -/
theorem subscription_record_invariant_broken_by_remove_with_callback :
    example_intermediate.upstreammgr.localid = some "c1" ∧
    subscription_record_invariant "c1" example_intermediate = true ∧
    ∃ bh2 bsub2 bh3 bsub3,
      subscribe_ops_run example_intermediate
        [.local_add "61" "e" "p" "r" none 0 example_on_event 9,
         .wire "63" (example_subscribe "d2" "62" false) 0] = some bh2 ∧
      blade_subscriptionmgr_subscription_lookup bh2 "e" "p" "r" = some bsub2 ∧
      blade_subscription_subscribers_get bsub2 = ["c1", "d2"] ∧
      (blade_subscription_callback_get bsub2).isSome = true ∧
      subscription_record_invariant "c1" bh2 = true ∧
      blade_protocol_subscribe bh2 "64" "e" "p" "r" true none 0 (some example_on_event) 9 =
        some (.KS_STATUS_SUCCESS, bh3) ∧
      blade_subscriptionmgr_subscription_lookup bh3 "e" "p" "r" = some bsub3 ∧
      blade_subscription_subscribers_get bsub3 = ["d2"] ∧
      (blade_subscription_callback_get bsub3).isSome = true ∧
      subscription_record_invariant "c1" bh3 = false :=
  ⟨rfl, rfl, _, _, _, _, rfl, rfl, rfl, rfl, rfl, rfl, rfl, rfl, rfl, rfl⟩

/-- The invariant spelled out: in every record the local node id is a
subscriber exactly when a callback is installed. -/
theorem subscription_record_invariant_iff (L : String) (bh : blade_handle_t) :
    subscription_record_invariant L bh = true ↔
      ∀ b ∈ bh.subscriptionmgr, (L ∈ b.subscribers ↔ b.callback.isSome = true) := by
  unfold subscription_record_invariant
  simp only [List.all_eq_true, blade_subscription_subscribers_get,
    blade_subscription_callback_get, beq_iff_eq]
  constructor
  · intro h b hb
    have := h b hb
    constructor
    · intro hm
      rw [← this]
      exact decide_eq_true hm
    · intro hc
      rw [hc] at this
      exact of_decide_eq_true this
  · intro h b hb
    have := h b hb
    by_cases hm : L ∈ b.subscribers
    · rw [this.1 hm]
      exact decide_eq_true hm
    · have hc : b.callback.isSome = false := by
        cases hcb : b.callback.isSome with
        | false => rfl
        | true => exact absurd (this.2 hcb) hm
      rw [hc]
      exact decide_eq_false hm

/-- The raw subscribe generator leaves the identity and the sessions alone. -/
theorem subscribe_raw_frame_sessions (bh : blade_handle_t) (mid E P R : String) (remove : Bool)
    (callback : Option blade_rpc_response_callback_t) (data : Data) :
    (blade_protocol_subscribe_raw bh mid E P R remove callback data).2.upstreammgr =
        bh.upstreammgr ∧
      (blade_protocol_subscribe_raw bh mid E P R remove callback data).2.sessionmgr =
        bh.sessionmgr := by
  unfold blade_protocol_subscribe_raw
  cases hu : blade_upstreammgr_session_get bh with
  | none => exact ⟨rfl, rfl⟩
  | some r =>
    obtain ⟨bs, bh1⟩ := r
    have := upstream_session_some bh bh1 bs hu
    subst this
    exact ⟨rfl, rfl⟩

/-- The subscription manager's changes leave the identity and the sessions
alone. -/
theorem subscriber_change_frame (bh : blade_handle_t) (E P R target : String) :
    (blade_subscriptionmgr_subscriber_add bh E P R target).2.upstreammgr = bh.upstreammgr ∧
    (blade_subscriptionmgr_subscriber_add bh E P R target).2.sessionmgr = bh.sessionmgr ∧
    (blade_subscriptionmgr_subscriber_remove bh E P R target).2.upstreammgr = bh.upstreammgr ∧
    (blade_subscriptionmgr_subscriber_remove bh E P R target).2.sessionmgr = bh.sessionmgr := by
  refine ⟨?_, ?_, ?_, ?_⟩
  · unfold blade_subscriptionmgr_subscriber_add
    cases blade_subscriptionmgr_subscription_lookup bh E P R <;> rfl
  · unfold blade_subscriptionmgr_subscriber_add
    cases blade_subscriptionmgr_subscription_lookup bh E P R <;> rfl
  · unfold blade_subscriptionmgr_subscriber_remove
    cases blade_subscriptionmgr_subscription_lookup bh E P R with
    | none => rfl
    | some bsub =>
      simp only []
      split <;> rfl
  · unfold blade_subscriptionmgr_subscriber_remove
    cases blade_subscriptionmgr_subscription_lookup bh E P R with
    | none => rfl
    | some bsub =>
      simp only []
      split <;> rfl

/-- A key without record has no record in the tree. -/
theorem subscription_lookup_none (bh : blade_handle_t) (E P R : String)
    (h : blade_subscriptionmgr_subscription_lookup bh E P R = none) :
    ∀ b ∈ bh.subscriptionmgr, (b.event == E && b.protocol == P && b.realm == R) ≠ true := by
  unfold blade_subscriptionmgr_subscription_lookup at h
  rw [List.find?_eq_none] at h
  intro b hb
  exact h b hb

/-- Adding or removing a subscriber other than the local node id keeps the
invariant of every record. -/
theorem subscriber_change_other (bh : blade_handle_t) (L E P R target : String)
    (ht : target ≠ L)
    (hinv : ∀ b ∈ bh.subscriptionmgr, (L ∈ b.subscribers ↔ b.callback.isSome = true)) :
    (∀ b ∈ (blade_subscriptionmgr_subscriber_add bh E P R target).2.subscriptionmgr,
      (L ∈ b.subscribers ↔ b.callback.isSome = true)) ∧
    (∀ b ∈ (blade_subscriptionmgr_subscriber_remove bh E P R target).2.subscriptionmgr,
      (L ∈ b.subscribers ↔ b.callback.isSome = true)) := by
  have hne : L ≠ target := fun h => ht h.symm
  constructor
  · unfold blade_subscriptionmgr_subscriber_add
    cases blade_subscriptionmgr_subscription_lookup bh E P R with
    | none =>
      intro b hb
      simp only [List.mem_append, List.mem_singleton] at hb
      rcases hb with hb | hb
      · exact hinv b hb
      · subst hb
        simp [hne]
    | some bsub =>
      intro b hb
      simp only [List.mem_map] at hb
      obtain ⟨a, ha, rfl⟩ := hb
      have := hinv a ha
      split
      · simp only []
        split
        · exact this
        · simp only [List.mem_append, List.mem_singleton, hne, or_false]
          exact this
      · exact this
  · unfold blade_subscriptionmgr_subscriber_remove
    cases blade_subscriptionmgr_subscription_lookup bh E P R with
    | none => exact hinv
    | some bsub =>
      simp only []
      split
      · intro b hb
        simp only [List.mem_filter] at hb
        exact hinv b hb.1
      · intro b hb
        simp only [List.mem_map] at hb
        obtain ⟨a, ha, rfl⟩ := hb
        have := hinv a ha
        split
        · simp only [List.mem_filter, bne_iff_ne, ne_eq, hne, not_false_eq_true, and_true]
          exact this
        · exact this

/-- Adding or removing the local node id as a subscriber of a key: the records
of the key have it, respectively do not have it, among their subscribers, and
every other record is as before. -/
theorem subscriber_change_local (bh : blade_handle_t) (L E P R : String)
    (hinv : ∀ b ∈ bh.subscriptionmgr, (L ∈ b.subscribers ↔ b.callback.isSome = true)) :
    (∀ b ∈ (blade_subscriptionmgr_subscriber_add bh E P R L).2.subscriptionmgr,
      ((b.event == E && b.protocol == P && b.realm == R) = true → L ∈ b.subscribers) ∧
      ((b.event == E && b.protocol == P && b.realm == R) ≠ true →
        (L ∈ b.subscribers ↔ b.callback.isSome = true))) ∧
    (∀ b ∈ (blade_subscriptionmgr_subscriber_remove bh E P R L).2.subscriptionmgr,
      ((b.event == E && b.protocol == P && b.realm == R) = true → L ∉ b.subscribers) ∧
      ((b.event == E && b.protocol == P && b.realm == R) ≠ true →
        (L ∈ b.subscribers ↔ b.callback.isSome = true))) := by
  constructor
  · unfold blade_subscriptionmgr_subscriber_add
    cases hl : blade_subscriptionmgr_subscription_lookup bh E P R with
    | none =>
      intro b hb
      simp only [List.mem_append, List.mem_singleton] at hb
      rcases hb with hb | hb
      · refine ⟨?_, fun _ => hinv b hb⟩
        intro hk
        exact absurd hk (subscription_lookup_none bh E P R hl b hb)
      · subst hb
        simp
    | some bsub =>
      intro b hb
      simp only [List.mem_map] at hb
      obtain ⟨a, ha, rfl⟩ := hb
      have := hinv a ha
      by_cases hk : (a.event == E && a.protocol == P && a.realm == R) = true
      · simp only [hk, if_true]
        refine ⟨fun _ => ?_, fun h => absurd rfl h⟩
        split
        · assumption
        · simp
      · rw [if_neg hk]
        exact ⟨fun h => absurd h hk, fun _ => this⟩
  · unfold blade_subscriptionmgr_subscriber_remove
    cases hl : blade_subscriptionmgr_subscription_lookup bh E P R with
    | none =>
      intro b hb
      exact ⟨fun hk => absurd hk (subscription_lookup_none bh E P R hl b hb),
        fun _ => hinv b hb⟩
    | some bsub =>
      simp only []
      split
      · intro b hb
        simp only [List.mem_filter, Bool.not_eq_true', Bool.not_eq_true] at hb
        refine ⟨fun hk => ?_, fun _ => hinv b hb.1⟩
        rw [hb.2] at hk
        cases hk
      · intro b hb
        simp only [List.mem_map] at hb
        obtain ⟨a, ha, rfl⟩ := hb
        have := hinv a ha
        by_cases hk : (a.event == E && a.protocol == P && a.realm == R) = true
        · simp only [hk, if_true]
          refine ⟨fun _ => ?_, fun h => absurd rfl h⟩
          simp
        · rw [if_neg hk]
          exact ⟨fun h => absurd h hk, fun _ => this⟩

/-- Storing the callback in the records of a key establishes the invariant
when the local node id is among their subscribers exactly when the callback is
not null, and the other records have it. -/
theorem callback_set_invariant (bh : blade_handle_t) (L E P R : String)
    (ecb : Option blade_rpc_request_callback_t) (ed : Data)
    (h : ∀ b ∈ bh.subscriptionmgr,
      ((b.event == E && b.protocol == P && b.realm == R) = true →
        (L ∈ b.subscribers ↔ ecb.isSome = true)) ∧
      ((b.event == E && b.protocol == P && b.realm == R) ≠ true →
        (L ∈ b.subscribers ↔ b.callback.isSome = true))) :
    ∀ b ∈ (blade_subscription_callback_set bh E P R ecb ed).subscriptionmgr,
      (L ∈ b.subscribers ↔ b.callback.isSome = true) := by
  unfold blade_subscription_callback_set
  intro b hb
  simp only [List.mem_map] at hb
  obtain ⟨a, ha, rfl⟩ := hb
  have := h a ha
  by_cases hk : (a.event == E && a.protocol == P && a.realm == R) = true
  · simp only [hk, if_true]
    exact this.1 hk
  · rw [if_neg hk]
    exact this.2 hk

/-- The end of the local subscribe generator, from the changed tree on: the
callback is stored in the record of the key when there is one, the change is
propagated upstream when asked for, and the upstream session is unlocked.
The identity and the sessions stay as they are and the invariant holds. -/
theorem subscribe_generator_tail (c : blade_handle_t) (propagate : Bool) (bs : blade_session_t)
    (L mid E P R : String) (remove : Bool) (callback : Option blade_rpc_response_callback_t)
    (data : Data) (ecb : Option blade_rpc_request_callback_t) (ed : Data)
    (h : ∀ b ∈ c.subscriptionmgr,
      ((b.event == E && b.protocol == P && b.realm == R) = true →
        (L ∈ b.subscribers ↔ ecb.isSome = true)) ∧
      ((b.event == E && b.protocol == P && b.realm == R) ≠ true →
        (L ∈ b.subscribers ↔ b.callback.isSome = true))) :
    (blade_session_read_unlock
      (if propagate = true then
        blade_protocol_subscribe_raw
          (match blade_subscriptionmgr_subscription_lookup c E P R with
            | some _ => blade_subscription_callback_set c E P R ecb ed
            | none => c) mid E P R remove callback data
      else (ks_status_t.KS_STATUS_SUCCESS,
          (match blade_subscriptionmgr_subscription_lookup c E P R with
            | some _ => blade_subscription_callback_set c E P R ecb ed
            | none => c))).2 bs).upstreammgr = c.upstreammgr ∧
    (blade_session_read_unlock
      (if propagate = true then
        blade_protocol_subscribe_raw
          (match blade_subscriptionmgr_subscription_lookup c E P R with
            | some _ => blade_subscription_callback_set c E P R ecb ed
            | none => c) mid E P R remove callback data
      else (ks_status_t.KS_STATUS_SUCCESS,
          (match blade_subscriptionmgr_subscription_lookup c E P R with
            | some _ => blade_subscription_callback_set c E P R ecb ed
            | none => c))).2 bs).sessionmgr = c.sessionmgr ∧
    ∀ b ∈ (blade_session_read_unlock
      (if propagate = true then
        blade_protocol_subscribe_raw
          (match blade_subscriptionmgr_subscription_lookup c E P R with
            | some _ => blade_subscription_callback_set c E P R ecb ed
            | none => c) mid E P R remove callback data
      else (ks_status_t.KS_STATUS_SUCCESS,
          (match blade_subscriptionmgr_subscription_lookup c E P R with
            | some _ => blade_subscription_callback_set c E P R ecb ed
            | none => c))).2 bs).subscriptionmgr,
      (L ∈ b.subscribers ↔ b.callback.isSome = true) := by
  have h2 : ∃ bh2 : blade_handle_t,
      bh2 = (match blade_subscriptionmgr_subscription_lookup c E P R with
        | some _ => blade_subscription_callback_set c E P R ecb ed
        | none => c) ∧
      bh2.upstreammgr = c.upstreammgr ∧ bh2.sessionmgr = c.sessionmgr ∧
      ∀ b ∈ bh2.subscriptionmgr, (L ∈ b.subscribers ↔ b.callback.isSome = true) := by
    cases hl : blade_subscriptionmgr_subscription_lookup c E P R with
    | none =>
      refine ⟨c, rfl, rfl, rfl, ?_⟩
      intro b hb
      exact (h b hb).2 (subscription_lookup_none c E P R hl b hb)
    | some bsub =>
      exact ⟨_, rfl, rfl, rfl, callback_set_invariant c L E P R ecb ed h⟩
  obtain ⟨bh2, hbh2, hu2, hs2, hi2⟩ := h2
  rw [← hbh2]
  obtain ⟨hru, hrs⟩ := subscribe_raw_frame_sessions bh2 mid E P R remove callback data
  obtain ⟨hrt, _, _⟩ := subscribe_raw_frame bh2 mid E P R remove callback data
  cases propagate with
  | false =>
    simp only [Bool.false_eq_true, if_false]
    exact ⟨hu2, hs2, hi2⟩
  | true =>
    simp only [if_true]
    refine ⟨?_, ?_, ?_⟩
    · show (blade_protocol_subscribe_raw bh2 mid E P R remove callback data).2.upstreammgr = _
      rw [hru, hu2]
    · show (blade_protocol_subscribe_raw bh2 mid E P R remove callback data).2.sessionmgr = _
      rw [hrs, hs2]
    · show ∀ b ∈ (blade_protocol_subscribe_raw bh2 mid E P R remove callback
        data).2.subscriptionmgr, _
      rw [hrt]
      exact hi2

/-- The local subscribe generator, called to add with a callback for the
events or to remove with none, returns, leaves the identity and the sessions
alone and keeps the invariant. -/
theorem subscribe_generator_invariant (bh : blade_handle_t) (L mid E P R : String)
    (remove : Bool) (callback : Option blade_rpc_response_callback_t) (data : Data)
    (ecb : Option blade_rpc_request_callback_t) (ed : Data)
    (hL : bh.upstreammgr.localid = some L)
    (hecb : ecb.isSome = !remove)
    (hinv : ∀ b ∈ bh.subscriptionmgr, (L ∈ b.subscribers ↔ b.callback.isSome = true)) :
    ∃ r, blade_protocol_subscribe bh mid E P R remove callback data ecb ed = some r ∧
      r.2.upstreammgr = bh.upstreammgr ∧ r.2.sessionmgr = bh.sessionmgr ∧
      ∀ b ∈ r.2.subscriptionmgr, (L ∈ b.subscribers ↔ b.callback.isSome = true) := by
  unfold blade_protocol_subscribe
  cases hu : blade_upstreammgr_session_get bh with
  | none => exact ⟨_, rfl, rfl, rfl, hinv⟩
  | some found =>
    obtain ⟨bs, bh1⟩ := found
    have hbh1 := upstream_session_some bh bh1 bs hu
    subst hbh1
    have hL1 : blade_upstreammgr_localid_copy (bh.emit (.session_read_lock bs.id)) = some L := hL
    have hinv1 : ∀ b ∈ (bh.emit (.session_read_lock bs.id)).subscriptionmgr,
        (L ∈ b.subscribers ↔ b.callback.isSome = true) := hinv
    obtain ⟨hadd, hrem⟩ := subscriber_change_local (bh.emit (.session_read_lock bs.id))
      L E P R hinv1
    obtain ⟨hau, has, hru, hrs⟩ := subscriber_change_frame
      (bh.emit (.session_read_lock bs.id)) E P R L
    simp only [hL1]
    cases remove with
    | false =>
      have hsome : ecb.isSome = true := by simpa using hecb
      have hnone : ecb.isNone = false := by
        cases ecb with
        | none => cases hsome
        | some cb => rfl
      simp only [Bool.false_eq_true, if_false, Bool.not_false, Bool.true_and, hnone]
      refine ⟨_, rfl, ?_⟩
      have ht := subscribe_generator_tail
        (blade_subscriptionmgr_subscriber_add (bh.emit (.session_read_lock bs.id)) E P R L).2
        (blade_subscriptionmgr_subscriber_add (bh.emit (.session_read_lock bs.id)) E P R L).1
        bs L mid E P R false callback data ecb ed
        (fun b hb => ⟨fun hk => ⟨fun _ => hsome, fun _ => (hadd b hb).1 hk⟩, (hadd b hb).2⟩)
      obtain ⟨t1, t2, t3⟩ := ht
      refine ⟨?_, ?_, t3⟩
      · rw [t1, hau]; rfl
      · rw [t2, has]; rfl
    | true =>
      have hsome : ecb.isSome = false := by simpa using hecb
      simp only [if_true, Bool.not_true, Bool.false_and, Bool.false_eq_true, if_false]
      refine ⟨_, rfl, ?_⟩
      have ht := subscribe_generator_tail
        (blade_subscriptionmgr_subscriber_remove (bh.emit (.session_read_lock bs.id)) E P R L).2
        (blade_subscriptionmgr_subscriber_remove (bh.emit (.session_read_lock bs.id)) E P R L).1
        bs L mid E P R true callback data ecb ed
        (fun b hb => ⟨fun hk => ⟨fun hm => absurd hm ((hrem b hb).1 hk),
          fun hc => by rw [hsome] at hc; cases hc⟩, (hrem b hb).2⟩)
      obtain ⟨t1, t2, t3⟩ := ht
      refine ⟨?_, ?_, t3⟩
      · rw [t1, hru]; rfl
      · rw [t2, hrs]; rfl

/-- The end of the subscribe handler, from the changed tree on: the
propagation upstream, the response and the unlock leave the identity, the
sessions and the subscription tree as they are. -/
theorem subscribe_handler_tail (c : Bool × blade_handle_t) (mid E P R : String) (rm : Bool)
    (e1 e2 : Event) :
    (((if c.1 = true then (blade_protocol_subscribe_raw c.2 mid E P R rm none 0).2
        else c.2).emit e1).emit e2).upstreammgr = c.2.upstreammgr ∧
    (((if c.1 = true then (blade_protocol_subscribe_raw c.2 mid E P R rm none 0).2
        else c.2).emit e1).emit e2).sessionmgr = c.2.sessionmgr ∧
    (((if c.1 = true then (blade_protocol_subscribe_raw c.2 mid E P R rm none 0).2
        else c.2).emit e1).emit e2).subscriptionmgr = c.2.subscriptionmgr := by
  obtain ⟨hru, hrs⟩ := subscribe_raw_frame_sessions c.2 mid E P R rm none 0
  obtain ⟨hrt, _, _⟩ := subscribe_raw_frame c.2 mid E P R rm none 0
  cases c.1 with
  | false => exact ⟨rfl, rfl, rfl⟩
  | true => exact ⟨hru, hrs, hrt⟩

/-- The subscribe request handler, given a request on a known session whose
id is not the local node id, returns, leaves the identity and the sessions
alone and keeps the invariant. -/
theorem subscribe_handler_invariant (mid : String) (bh : blade_handle_t) (L : String)
    (brpcreq : blade_rpc_request_t) (data : Data)
    (hs : brpcreq.session_id ∈ bh.sessionmgr.map (fun bs => bs.id))
    (hne : brpcreq.session_id ≠ L)
    (hinv : ∀ b ∈ bh.subscriptionmgr, (L ∈ b.subscribers ↔ b.callback.isSome = true)) :
    ∃ r, blade_protocol_subscribe_request_handler mid bh brpcreq data = some r ∧
      r.2.upstreammgr = bh.upstreammgr ∧ r.2.sessionmgr = bh.sessionmgr ∧
      ∀ b ∈ r.2.subscriptionmgr, (L ∈ b.subscribers ↔ b.callback.isSome = true) := by
  obtain ⟨bs, hid, hl⟩ := session_lookup_of_mem bh brpcreq.session_id hs
  cases hparams : cJSON_GetObjectItem brpcreq.message "params" with
  | none =>
    unfold blade_protocol_subscribe_request_handler
    simp only [blade_rpc_request_sessionid_get, blade_rpc_request_message_get, hl, hparams]
    exact ⟨_, rfl, rfl, rfl, hinv⟩
  | some req_params =>
    cases hE : cJSON_GetObjectCstr req_params "event" with
    | none =>
      unfold blade_protocol_subscribe_request_handler
      simp only [blade_rpc_request_sessionid_get, blade_rpc_request_message_get, hl, hparams, hE]
      exact ⟨_, rfl, rfl, rfl, hinv⟩
    | some E =>
      cases hP : cJSON_GetObjectCstr req_params "protocol" with
      | none =>
        unfold blade_protocol_subscribe_request_handler
        simp only [blade_rpc_request_sessionid_get, blade_rpc_request_message_get, hl, hparams,
          hE, hP]
        exact ⟨_, rfl, rfl, rfl, hinv⟩
      | some P =>
        cases hR : cJSON_GetObjectCstr req_params "realm" with
        | none =>
          unfold blade_protocol_subscribe_request_handler
          simp only [blade_rpc_request_sessionid_get, blade_rpc_request_message_get, hl,
            hparams, hE, hP, hR]
          exact ⟨_, rfl, rfl, rfl, hinv⟩
        | some R =>
          rw [subscribe_handler_wellformed mid bh brpcreq data req_params E P R hs hparams hE
            hP hR]
          refine ⟨_, rfl, ?_⟩
          obtain ⟨t1, t2, t3⟩ := subscribe_handler_tail
            (if params_remove_flag req_params then
              blade_subscriptionmgr_subscriber_remove
                (bh.emit (.session_read_lock brpcreq.session_id)) E P R brpcreq.session_id
            else
              blade_subscriptionmgr_subscriber_add
                (bh.emit (.session_read_lock brpcreq.session_id)) E P R brpcreq.session_id)
            mid E P R (params_remove_flag req_params)
            (.session_send brpcreq.session_id
              (.Object [(some "jsonrpc", .String "2.0"), (some "id", .String brpcreq.message_id),
                (some "result", .Object [(some "event", .String E),
                  (some "protocol", .String P), (some "realm", .String R)])])
              none 0)
            (.session_read_unlock brpcreq.session_id)
          obtain ⟨hau, has, hru, hrs⟩ := subscriber_change_frame
            (bh.emit (.session_read_lock brpcreq.session_id)) E P R brpcreq.session_id
          obtain ⟨hoa, hor⟩ := subscriber_change_other
            (bh.emit (.session_read_lock brpcreq.session_id)) L E P R brpcreq.session_id hne hinv
          simp only [] at t1 t2 t3 ⊢
          rw [t1, t2, t3]
          cases params_remove_flag req_params with
          | false => exact ⟨hau, has, hoa⟩
          | true => exact ⟨hru, hrs, hor⟩

/-- One step of the subscription history, other than a local remove passing a
callback, a request on an unknown session and a request on a session whose id
is the local node id, returns, leaves the identity and the sessions alone and
keeps the invariant. -/
theorem subscribe_op_invariant (bh : blade_handle_t) (L : String) (op : subscribe_op)
    (hL : bh.upstreammgr.localid = some L)
    (hinv : ∀ b ∈ bh.subscriptionmgr, (L ∈ b.subscribers ↔ b.callback.isSome = true))
    (hrm : op.remove_without_callback = true)
    (hwire : op.session_differs_from L = true)
    (hknown : op.on_known_session bh = true) :
    ∃ bh', op.run bh = some bh' ∧
      bh'.upstreammgr = bh.upstreammgr ∧ bh'.sessionmgr = bh.sessionmgr ∧
      ∀ b ∈ bh'.subscriptionmgr, (L ∈ b.subscribers ↔ b.callback.isSome = true) := by
  cases op with
  | local_add mid E P R callback data ecb ed =>
    obtain ⟨r, hr, h1, h2, h3⟩ := subscribe_generator_invariant bh L mid E P R false callback
      data (some ecb) ed hL rfl hinv
    exact ⟨r.2, by simp [subscribe_op.run, hr], h1, h2, h3⟩
  | local_remove mid E P R callback data ecb ed =>
    have hnone : ecb = none := by
      cases ecb with
      | none => rfl
      | some cb => cases hrm
    subst hnone
    obtain ⟨r, hr, h1, h2, h3⟩ := subscribe_generator_invariant bh L mid E P R true callback
      data none ed hL rfl hinv
    exact ⟨r.2, by simp [subscribe_op.run, hr], h1, h2, h3⟩
  | wire mid brpcreq data =>
    have hs : brpcreq.session_id ∈ bh.sessionmgr.map (fun bs => bs.id) := by
      simp only [subscribe_op.on_known_session, List.any_eq_true, beq_iff_eq] at hknown
      obtain ⟨bs, hbs, hid⟩ := hknown
      exact List.mem_map.mpr ⟨bs, hbs, hid⟩
    have hne : brpcreq.session_id ≠ L := by
      simpa [subscribe_op.session_differs_from] using hwire
    obtain ⟨r, hr, h1, h2, h3⟩ := subscribe_handler_invariant mid bh L brpcreq data hs hne hinv
    exact ⟨r.2, by simp [subscribe_op.run, hr], h1, h2, h3⟩

/-- A sequence of such steps returns, leaves the identity and the sessions
alone and keeps the invariant. -/
theorem subscribe_ops_invariant (ops : List subscribe_op) (bh : blade_handle_t) (L : String)
    (hL : bh.upstreammgr.localid = some L)
    (hinv : ∀ b ∈ bh.subscriptionmgr, (L ∈ b.subscribers ↔ b.callback.isSome = true))
    (hrm : ∀ op ∈ ops, op.remove_without_callback = true)
    (hwire : ∀ op ∈ ops, op.session_differs_from L = true)
    (hknown : ∀ op ∈ ops, op.on_known_session bh = true) :
    ∃ bh', subscribe_ops_run bh ops = some bh' ∧
      bh'.upstreammgr = bh.upstreammgr ∧ bh'.sessionmgr = bh.sessionmgr ∧
      ∀ b ∈ bh'.subscriptionmgr, (L ∈ b.subscribers ↔ b.callback.isSome = true) := by
  induction ops generalizing bh with
  | nil => exact ⟨bh, rfl, rfl, rfl, hinv⟩
  | cons op rest ih =>
    obtain ⟨bh1, hrun, hu1, hs1, hi1⟩ := subscribe_op_invariant bh L op hL hinv
      (hrm op (List.mem_cons_self _ _)) (hwire op (List.mem_cons_self _ _))
      (hknown op (List.mem_cons_self _ _))
    have hknown1 : ∀ o ∈ rest, o.on_known_session bh1 = true := by
      intro o ho
      have := hknown o (List.mem_cons_of_mem _ ho)
      cases o with
      | local_add => rfl
      | local_remove => rfl
      | wire mid brpcreq data =>
        simp only [subscribe_op.on_known_session] at this ⊢
        rw [hs1]
        exact this
    obtain ⟨bh2, hrun2, hu2, hs2, hi2⟩ := ih bh1 (by rw [hu1]; exact hL)
      hi1 (fun o ho => hrm o (List.mem_cons_of_mem _ ho))
      (fun o ho => hwire o (List.mem_cons_of_mem _ ho)) hknown1
    refine ⟨bh2, ?_, by rw [hu2, hu1], by rw [hs2, hs1], hi2⟩
    simp only [subscribe_ops_run, hrun]
    exact hrun2

/-- Where the subscription-record invariant does hold.  At a node whose local
node id `L` is set, starting from a subscription tree in which every record
has `L` among its subscribers exactly when it has a local callback installed
(such as the empty tree), every sequence of local `blade_protocol_subscribe`
calls that add with a non-null callback for the events or remove with a null
one, and of wire `blade.subscribe` requests given to the subscribe request
handler on known sessions whose id is not `L`, runs to the end, and in the
state it reaches, for every key `(protocol, realm, event)` whose record
exists, `L` is among the record's subscribers if and only if the record has a
local callback installed. -/
theorem subscription_record_invariant_preserved (bh : blade_handle_t) (L : String)
    (ops : List subscribe_op)
    (hL : bh.upstreammgr.localid = some L)
    (hinit : subscription_record_invariant L bh = true)
    (hrm : ∀ op ∈ ops, op.remove_without_callback = true)
    (hwire : ∀ op ∈ ops, op.session_differs_from L = true)
    (hknown : ∀ op ∈ ops, op.on_known_session bh = true) :
    ∃ bh', subscribe_ops_run bh ops = some bh' ∧
      bh'.upstreammgr.localid = some L ∧
      subscription_record_invariant L bh' = true ∧
      ∀ E P R bsub, blade_subscriptionmgr_subscription_lookup bh' E P R = some bsub →
        (L ∈ blade_subscription_subscribers_get bsub ↔
          (blade_subscription_callback_get bsub).isSome = true) := by
  obtain ⟨bh', hrun, hu, _, hi⟩ := subscribe_ops_invariant ops bh L hL
    ((subscription_record_invariant_iff L bh).mp hinit) hrm hwire hknown
  refine ⟨bh', hrun, by rw [hu]; exact hL, (subscription_record_invariant_iff L bh').mpr hi, ?_⟩
  intro E P R bsub hl
  unfold blade_subscriptionmgr_subscription_lookup at hl
  exact hi bsub (List.mem_of_find?_eq_some hl)

/-- An instance of the above: the node `c1` subscribes event `e` of `(p, r)`
locally with a callback, the handler adds the subscriber of session `d2`, then
`c1` unsubscribes locally without passing a callback. -/
theorem subscription_record_invariant_preserved_witness :
    ∃ bh', subscribe_ops_run example_intermediate
        [.local_add "61" "e" "p" "r" none 0 example_on_event 9,
         .wire "63" (example_subscribe "d2" "62" false) 0,
         .local_remove "64" "e" "p" "r" none 0 none 0] = some bh' ∧
      bh'.upstreammgr.localid = some "c1" ∧
      subscription_record_invariant "c1" bh' = true ∧
      ∀ E P R bsub, blade_subscriptionmgr_subscription_lookup bh' E P R = some bsub →
        ("c1" ∈ blade_subscription_subscribers_get bsub ↔
          (blade_subscription_callback_get bsub).isSome = true) :=
  subscription_record_invariant_preserved example_intermediate "c1"
    [.local_add "61" "e" "p" "r" none 0 example_on_event 9,
     .wire "63" (example_subscribe "d2" "62" false) 0,
     .local_remove "64" "e" "p" "r" none 0 none 0]
    rfl rfl
    (by
      intro op hop
      simp only [List.mem_cons, List.mem_singleton, List.not_mem_nil, or_false] at hop
      rcases hop with rfl | rfl | rfl <;> rfl)
    (by
      intro op hop
      simp only [List.mem_cons, List.mem_singleton, List.not_mem_nil, or_false] at hop
      rcases hop with rfl | rfl | rfl <;> rfl)
    (by
      intro op hop
      simp only [List.mem_cons, List.mem_singleton, List.not_mem_nil, or_false] at hop
      rcases hop with rfl | rfl | rfl <;> rfl)
end Blade
